import Mathlib

/-!
LACP / DRCP control-plane state machines

A shallow embedding of the per-port LACP machines of `src/lacp`
(`defs.go`, `rxmachine.go`, `periodictxmachine.go`) and of the DRCP machines
of `src/lacp/protocol/drcp` (`txmachine.go`, `gatwaymachine.go`,
`aggregatormachine.go`), together with the properties of the specification
that were checked against them.

Conventions of the embedding

* `uint8` values are natural numbers; bitwise complement of a byte `b` is
  `0xFF ^^^ b`.
* `time.Duration` values are natural numbers of nanoseconds.
* A Go method with a pointer receiver that mutates the port becomes a function
  from the port record to the new port record.
* A Go channel send becomes an append to the receiving machine's event queue.
* A Go run-time panic becomes `none`.
-/

namespace Lacp

/-! ## defs.go -/

/-- One second as a `time.Duration` (nanoseconds). -/
def Second : Nat := 1000000000

/-- Seconds between periodic transmissions using Short Timeouts. -/
def LacpFastPeriodicTime : Nat := Second * 1

/-- Seconds between periodic transmissions using Long Timeouts. -/
def LacpSlowPeriodicTime : Nat := Second * 30

/-- Time before invalidating received LACPDU info when using Short Timeouts. -/
def LacpShortTimeoutTime : Nat := Second * 3

/-- Time before invalidating received LACPDU info when using Long Timeouts. -/
def LacpLongTimeoutTime : Nat := Second * 90

/-- Time the churn machines wait for Sync to stabilize. -/
def LacpChurnDetectionTime : Nat := Second * 60

/-- Time to delay aggregation to allow multiple links to aggregate. -/
def LacpAggregateWaitTime : Nat := Second * 2

/-- The version number of the Actor LACP implementation. -/
def LacpActorSystemLacpVersion : Nat := 0x01

def LacpIsEnabled : Bool := true
def LacpIsDisabled : Bool := false

/-! State bits: `1 << iota`. -/

def LacpStateActivityBit : Nat := 1 <<< 0
def LacpStateTimeoutBit : Nat := 1 <<< 1
def LacpStateAggregationBit : Nat := 1 <<< 2
def LacpStateSyncBit : Nat := 1 <<< 3
def LacpStateCollectingBit : Nat := 1 <<< 4
def LacpStateDistributingBit : Nat := 1 <<< 5
def LacpStateDefaultedBit : Nat := 1 <<< 6
def LacpStateExpiredBit : Nat := 1 <<< 7

/-! Modes: `iota + 1`. -/

def LacpModeOn : Nat := 1
def LacpModePassive : Nat := 2
def LacpModeActive : Nat := 3

/-- Go: `return currState | stateBits`. -/
def LacpStateSet (currState stateBits : Nat) : Nat :=
  currState ||| stateBits

/-- Go: `return currState & ^(stateBits)` on `uint8`. -/
def LacpStateClear (currState stateBits : Nat) : Nat :=
  currState &&& (0xFF ^^^ stateBits)

/-- Go: `return (currState & stateBits) == stateBits`. -/
def LacpStateIsSet (currState stateBits : Nat) : Bool :=
  (currState &&& stateBits) == stateBits

/-- Go: `LacpModeGet(currState uint8, lacpDisabled bool) int`. -/
def LacpModeGet (currState : Nat) (lacpDisabled : Bool) : Nat :=
  let mode := LacpModeOn
  if !lacpDisabled then
    let mode := LacpModePassive
    if LacpStateIsSet currState LacpStateActivityBit then
      LacpModeActive
    else
      mode
  else
    mode

/-! ## Data model

The type declarations of the port record live in other files of the package;
the fields below are the ones the machines read and write. -/

/-- Modelled from the spec: the declaration of `LacpPortInfo` is missing; a
Port Info block holds the system identifier (MAC and priority), key, port
number, port priority and the 8-bit state bitfield. -/
structure LacpPortInfo where
  systemId : Nat
  systemPriority : Nat
  key : Nat
  port : Nat
  portPri : Nat
  state : Nat
deriving DecidableEq, Repr

/-- Modelled from the spec: the declaration of the Actor / Partner Info TLV of
an LACPDU is missing; the machines read only its `info` block. -/
structure LacpPduInfoTlv where
  info : LacpPortInfo
deriving DecidableEq, Repr

/-- Modelled from the spec: the declaration of `LacpPdu` is missing; the
receive machine reads `version`, `actor.info` and `partner.info`. -/
structure LacpPdu where
  version : Nat
  actor : LacpPduInfoTlv
  partner : LacpPduInfoTlv
deriving DecidableEq, Repr

/-- Modelled from the spec: the constants `LacpAggUnSelected` etc. are missing;
`aggSelected` ranges over Unselected, Selected, Standby. -/
inductive LacpAggSelectedState where
  | LacpAggUnSelected
  | LacpAggSelected
  | LacpAggStandby
deriving DecidableEq, Repr

export LacpAggSelectedState (LacpAggUnSelected LacpAggSelected LacpAggStandby)

/-- Modelled from the spec: the transmit machine's event constants are missing;
the machines here only ever send it `Ntt`. -/
inductive LacpTxmEvent where
  | LacpTxmEventNtt
deriving DecidableEq, Repr

export LacpTxmEvent (LacpTxmEventNtt)

/-- Go `LacpRxMachine`: current FSM state (`Machine.Curr`), the debug
previous state, the log switch, the timer interval and the timer itself
(`some d` when armed with duration `d`). -/
structure LacpRxMachine where
  PreviousState : Nat
  state : Nat
  logEna : Bool
  currentWhileTimerTimeout : Nat
  currentWhileTimer : Option Nat
deriving DecidableEq, Repr

/-- Go `LacpPtxMachine`. -/
structure LacpPtxMachine where
  PreviousState : Nat
  state : Nat
  PeriodicTxTimerInterval : Nat
  periodicTxTimer : Option Nat
deriving DecidableEq, Repr

/-- Modelled from the spec: the mux machine is missing; the receive machine
reads its current state and stops its wait-while timer. -/
structure LacpMuxMachine where
  state : Nat
  waitWhileTimer : Option Nat
deriving DecidableEq, Repr

/-- Modelled from the spec: the transmit machine is missing; other machines
send events on its `TxmEvents` channel. -/
structure LacpTxMachine where
  TxmEvents : List LacpTxmEvent
deriving DecidableEq, Repr

/-- Modelled from the spec: the declaration of `LaAggPort` is missing; these are
the fields used by the receive and periodic transmit machines. `log` collects
what is written to the debug log channel. -/
structure LaAggPort where
  aggId : Nat
  begin_ : Bool
  lacpEnabled : Bool
  portEnabled : Bool
  portMoved : Bool
  aggSelected : LacpAggSelectedState
  actorAdmin : LacpPortInfo
  actorOper : LacpPortInfo
  partnerAdmin : LacpPortInfo
  partnerOper : LacpPortInfo
  partnerVersion : Nat
  rxMachineFsm : LacpRxMachine
  PtxMachineFsm : LacpPtxMachine
  muxMachineFsm : LacpMuxMachine
  txMachineFsm : LacpTxMachine
  log : List String
deriving DecidableEq, Repr

/-- Modelled from the spec: `LacpCopyLacpPortInfo(from, to)` is missing; it
copies the whole Port Info block (port number, port priority, system, system
priority, key, state) from the first argument into the second. -/
def LacpCopyLacpPortInfo (fromPortInfo _toPortInfo : LacpPortInfo) : LacpPortInfo :=
  { systemId := fromPortInfo.systemId
    systemPriority := fromPortInfo.systemPriority
    key := fromPortInfo.key
    port := fromPortInfo.port
    portPri := fromPortInfo.portPri
    state := fromPortInfo.state }

/-- Modelled from the spec: `LacpLacpPortInfoIsEqual(a, b, stateBits)` is
missing; two blocks are equal when they agree on port number, port priority,
system id, system priority, key and on the state bits selected by
`stateBits`. -/
def LacpLacpPortInfoIsEqual (a b : LacpPortInfo) (stateBits : Nat) : Bool :=
  a.systemId == b.systemId &&
  a.systemPriority == b.systemPriority &&
  a.port == b.port &&
  a.portPri == b.portPri &&
  a.key == b.key &&
  (a.state &&& stateBits) == (b.state &&& stateBits)

/-- Modelled from the spec: mux machine state `Waiting` (constant missing). -/
def LacpMuxmStateWaiting : Nat := 3

/-! ## rxmachine.go -/

def LacpRxmStateNone : Nat := 1
def LacpRxmStateInitialize : Nat := 2
def LacpRxmStatePortDisabled : Nat := 3
def LacpRxmStateExpired : Nat := 4
def LacpRxmStateLacpDisabled : Nat := 5
def LacpRxmStateDefaulted : Nat := 6
def LacpRxmStateCurrent : Nat := 7

def LacpRxmEventBegin : Nat := 1
def LacpRxmEventUnconditionalFallthrough : Nat := 2
def LacpRxmEventNotPortEnabledAndNotPortMoved : Nat := 3
def LacpRxmEventPortMoved : Nat := 4
def LacpRxmEventPortEnabledAndLacpEnabled : Nat := 5
def LacpRxmEventPortEnabledAndLacpDisabled : Nat := 6
def LacpRxmEventCurrentWhileTimerExpired : Nat := 7
def LacpRxmEventLacpEnabled : Nat := 8
def LacpRxmEventLacpPktRx : Nat := 9
def LacpRxmEventKillSignal : Nat := 10

/-- Go `NewLacpRxMachine`: a fresh machine; Go zero values for the fields the
constructor does not name. -/
def NewLacpRxMachine : LacpRxMachine :=
  { PreviousState := LacpRxmStateNone
    state := 0
    logEna := true
    currentWhileTimerTimeout := 0
    currentWhileTimer := none }

/-- Go `LacpRxmLog`: `if rxm.logEna { rxm.log <- msg }`. -/
def LacpRxmLog (p : LaAggPort) (msg : String) : LaAggPort :=
  if p.rxMachineFsm.logEna then { p with log := p.log ++ [msg] } else p

/-- Modelled from the spec: `CurrentWhileTimerTimeoutSet` is missing; it stores
the interval the current-while timer is to be started with. -/
def CurrentWhileTimerTimeoutSet (p : LaAggPort) (timeout : Nat) : LaAggPort :=
  { p with rxMachineFsm := { p.rxMachineFsm with currentWhileTimerTimeout := timeout } }

/-- Modelled from the spec: `CurrentWhileTimerStart` is missing; it (re)starts
the current-while timer with the stored interval. -/
def CurrentWhileTimerStart (p : LaAggPort) : LaAggPort :=
  { p with rxMachineFsm :=
      { p.rxMachineFsm with
        currentWhileTimer := some p.rxMachineFsm.currentWhileTimerTimeout } }

/-- Modelled from the spec: `CurrentWhileTimerStop` is missing; it stops the
current-while timer. -/
def CurrentWhileTimerStop (p : LaAggPort) : LaAggPort :=
  { p with rxMachineFsm := { p.rxMachineFsm with currentWhileTimer := none } }

/-- Modelled from the spec: the mux machine's `WaitWhileTimerStop` is missing;
it stops the wait-while timer. -/
def WaitWhileTimerStop (p : LaAggPort) : LaAggPort :=
  { p with muxMachineFsm := { p.muxMachineFsm with waitWhileTimer := none } }

/-- Go `recordPDU` (802.1ax 6.4.9). The results of the three state-bit helper
calls are not assigned in the source, so they are bound and dropped here. -/
def recordPDU (p : LaAggPort) (lacpPduInfo : LacpPdu) : LaAggPort :=
  -- LacpCopyLacpPortInfo(&lacpPduInfo.actor.info, &p.partnerOper)
  let p := { p with partnerOper := LacpCopyLacpPortInfo lacpPduInfo.actor.info p.partnerOper }
  -- LacpStateClear(p.actorOper.state, LacpStateDefaultedBit)
  let _ := LacpStateClear p.actorOper.state LacpStateDefaultedBit
  if ((LacpLacpPortInfoIsEqual lacpPduInfo.partner.info p.actorOper LacpStateAggregationBit &&
        LacpStateIsSet lacpPduInfo.actor.info.state LacpStateSyncBit) ||
      (!LacpStateIsSet lacpPduInfo.actor.info.state LacpStateAggregationBit &&
        LacpStateIsSet lacpPduInfo.actor.info.state LacpStateSyncBit)) &&
     (LacpStateIsSet lacpPduInfo.actor.info.state LacpStateActivityBit ||
      (LacpStateIsSet p.actorOper.state LacpStateActivityBit &&
        LacpStateIsSet lacpPduInfo.partner.info.state LacpStateActivityBit)) then
    -- LacpStateSet(p.partnerOper.state, LacpStateSyncBit)
    let _ := LacpStateSet p.partnerOper.state LacpStateSyncBit
    p
  else
    -- LacpStateClear(p.partnerOper.state, LacpStateSyncBit)
    let _ := LacpStateClear p.partnerOper.state LacpStateSyncBit
    p

/-- Go `recordDefault` (802.1ax 6.4.9). -/
def recordDefault (p : LaAggPort) : LaAggPort :=
  let p := { p with partnerOper := LacpCopyLacpPortInfo p.partnerAdmin p.partnerOper }
  -- LacpStateSet(p.actorOper.state, LacpStateDefaultedBit)
  let _ := LacpStateSet p.actorOper.state LacpStateDefaultedBit
  -- LacpStateSet(p.partnerOper.state, LacpStateSyncBit)
  let _ := LacpStateSet p.partnerOper.state LacpStateSyncBit
  p

/-- Go `updateSelected` (802.1ax 6.4.9). The inner `if` on the mux state has an
empty body in the source. -/
def updateSelected (p : LaAggPort) (lacpPduInfo : LacpPdu) : LaAggPort :=
  if !LacpLacpPortInfoIsEqual lacpPduInfo.actor.info p.partnerOper LacpStateAggregationBit then
    let p := { p with aggSelected := LacpAggUnSelected }
    if p.muxMachineFsm.state == LacpMuxmStateWaiting ||
       p.muxMachineFsm.state == LacpMuxmStateWaiting then
      p
    else
      p
  else
    p

/-- Go `updateDefaultSelected` (802.1ax 6.4.9). -/
def updateDefaultSelected (p : LaAggPort) : LaAggPort :=
  if !LacpLacpPortInfoIsEqual p.partnerAdmin p.partnerOper LacpStateAggregationBit then
    { p with aggSelected := LacpAggUnSelected }
  else
    p

/-- Go constant `nttStateCompare` of `updateNTT`. -/
def nttStateCompare : Nat :=
  LacpStateActivityBit ||| LacpStateTimeoutBit ||| LacpStateAggregationBit ||| LacpStateSyncBit

/-- Go `updateNTT` (802.1ax 6.4.9). -/
def updateNTT (p : LaAggPort) (lacpPduInfo : LacpPdu) : Bool :=
  if !LacpLacpPortInfoIsEqual lacpPduInfo.partner.info p.partnerOper nttStateCompare then
    true
  else
    false

/-- Go `recordVersionNumber`. -/
def recordVersionNumber (p : LaAggPort) (lacpPduInfo : LacpPdu) : LaAggPort :=
  { p with partnerVersion := lacpPduInfo.version }

/-- Go `LacpRxMachineInitialize`: entry action of INITIALIZE. -/
def LacpRxMachineInitialize (p : LaAggPort) (_data : Option LacpPdu) : Option (LaAggPort × Nat) :=
  let p := LacpRxmLog p "RXM: Initialize Enter"
  -- detach from aggregator
  let p := { p with aggId := 0 }
  -- make sure no timer is running
  let p := WaitWhileTimerStop p
  -- set the agg as being unselected
  let p := { p with aggSelected := LacpAggUnSelected }
  -- LacpStateClear(p.actorOper.state, LacpStateExpiredBit)
  let _ := LacpStateClear p.actorOper.state LacpStateExpiredBit
  -- set the port moved to false
  let p := { p with portMoved := false }
  some (p, LacpRxmStateInitialize)

/-- Go `LacpRxMachinePortDisabled`: entry action of PORT_DISABLED. -/
def LacpRxMachinePortDisabled (p : LaAggPort) (_data : Option LacpPdu) : Option (LaAggPort × Nat) :=
  let p := LacpRxmLog p "RXM: Port Disable Enter"
  -- LacpStateClear(p.partnerOper.state, LacpStateSyncBit)
  let _ := LacpStateClear p.partnerOper.state LacpStateSyncBit
  some (p, LacpRxmStatePortDisabled)

/-- Go `LacpRxMachineExpired`: entry action of EXPIRED. -/
def LacpRxMachineExpired (p : LaAggPort) (_data : Option LacpPdu) : Option (LaAggPort × Nat) :=
  let p := LacpRxmLog p "RXM: Expired Enter"
  -- LacpStateClear(p.partnerOper.state, LacpStateSyncBit)
  let _ := LacpStateClear p.partnerOper.state LacpStateSyncBit
  -- LacpStateSet(p.partnerOper.state, LacpStateTimeoutBit)
  let _ := LacpStateSet p.partnerOper.state LacpStateTimeoutBit
  -- Set the Short timeout
  let p := CurrentWhileTimerTimeoutSet p LacpShortTimeoutTime
  -- Start the Current While timer
  let p := CurrentWhileTimerStart p
  -- LacpStateSet(p.actorOper.state, LacpStateExpiredBit)
  let _ := LacpStateSet p.actorOper.state LacpStateExpiredBit
  some (p, LacpRxmStateExpired)

/-- Go `LacpRxMachineLacpDisabled`: entry action of LACP_DISABLED. -/
def LacpRxMachineLacpDisabled (p : LaAggPort) (_data : Option LacpPdu) : Option (LaAggPort × Nat) :=
  let p := LacpRxmLog p "RXM: Lacp Disabled Enter"
  -- Unselect the aggregator
  let p := { p with aggSelected := LacpAggUnSelected }
  -- setup the default params
  let p := recordDefault p
  -- LacpStateClear(p.partnerOper.state, LacpStateAggregationBit)
  let _ := LacpStateClear p.partnerOper.state LacpStateAggregationBit
  -- LacpStateClear(p.actorOper.state, LacpStateExpiredBit)
  let _ := LacpStateClear p.actorOper.state LacpStateExpiredBit
  some (p, LacpRxmStateLacpDisabled)

/-- Go `LacpRxMachineDefaulted`: entry action of DEFAULTED. -/
def LacpRxMachineDefaulted (p : LaAggPort) (_data : Option LacpPdu) : Option (LaAggPort × Nat) :=
  let p := LacpRxmLog p "RXM: Defaulted Enter"
  -- Updated the default selected state
  let p := updateDefaultSelected p
  -- Record the default partner info
  let p := recordDefault p
  -- LacpStateClear(p.actorOper.state, LacpStateExpiredBit)
  let _ := LacpStateClear p.actorOper.state LacpStateExpiredBit
  some (p, LacpRxmStateDefaulted)

/-- Go `LacpRxMachineCurrent`: entry action of CURRENT. The type assertion
`data.(LacpPdu)` panics when `data` is nil. -/
def LacpRxMachineCurrent (p : LaAggPort) (data : Option LacpPdu) : Option (LaAggPort × Nat) :=
  let p := LacpRxmLog p "RXM: Current Enter"
  match data with
  | none => none
  | some lacpPduInfo =>
    -- update selection logic
    let p := updateSelected p lacpPduInfo
    -- update the ntt
    let ntt := updateNTT p lacpPduInfo
    -- Version 2 or higher check
    let p := if LacpActorSystemLacpVersion ≥ 0x2 then recordVersionNumber p lacpPduInfo else p
    -- record the current packet state
    let p := recordPDU p lacpPduInfo
    -- lets kick off the Current While Timer
    let p := CurrentWhileTimerStart p
    -- LacpStateClear(p.actorOper.state, LacpStateExpiredBit)
    let _ := LacpStateClear p.actorOper.state LacpStateExpiredBit
    let p :=
      if ntt == true then
        -- p.txMachineFsm.TxmEvents <- LacpTxmEventNtt
        { p with txMachineFsm :=
            { p.txMachineFsm with TxmEvents := p.txMachineFsm.TxmEvents ++ [LacpTxmEventNtt] } }
      else
        p
    some (p, LacpRxmStateCurrent)

/-! ### The rule table

`utils/fsm` is an external package: a `Ruleset` maps a (state, event) pair to
a callback, and `ProcessEvent` runs the callback of the current state and the
event, if there is one, and makes the state it returns the current state. -/

/-- Callback of a rule: `func(m fsm.Machine, data interface{}) fsm.State`, acting
on the port the machine belongs to; `none` is a run-time panic. -/
abbrev Callback := LaAggPort → Option LacpPdu → Option (LaAggPort × Nat)

/-- Modelled from the spec: `fsm.Ruleset` (package `utils/fsm`) is missing; a
rules table mapping (state, event) to a callback, most recent rule first. -/
abbrev Ruleset := List ((Nat × Nat) × Callback)

/-- Modelled from the spec: `Ruleset.AddRule` is missing; it stores the
callback under the key (state, event). -/
def Ruleset.AddRule (rules : Ruleset) (s e : Nat) (cb : Callback) : Ruleset :=
  ((s, e), cb) :: rules

/-- Lookup of the callback stored under (state, event). -/
def Ruleset.find (rules : Ruleset) (s e : Nat) : Option Callback :=
  match rules with
  | [] => none
  | (k, cb) :: rest => if k = (s, e) then some cb else Ruleset.find rest s e

/-- Go `LacpRxMachineFSMBuild`: the rules of the receive machine, in source order. -/
def LacpRxMachineRules : Ruleset :=
  let rules : Ruleset := []
  -- BEGIN -> INIT
  let rules := rules.AddRule LacpRxmStateNone LacpRxmEventBegin LacpRxMachineInitialize
  let rules := rules.AddRule LacpRxmStatePortDisabled LacpRxmEventBegin LacpRxMachineInitialize
  let rules := rules.AddRule LacpRxmStateLacpDisabled LacpRxmEventBegin LacpRxMachineInitialize
  let rules := rules.AddRule LacpRxmStateDefaulted LacpRxmEventBegin LacpRxMachineInitialize
  let rules := rules.AddRule LacpRxmStateCurrent LacpRxmEventBegin LacpRxMachineInitialize
  -- INIT -> PORT_DISABLE
  let rules := rules.AddRule LacpRxmStateInitialize LacpRxmEventUnconditionalFallthrough LacpRxMachinePortDisabled
  -- NOT PORT ENABLED && NOT PORT MOVED
  let rules := rules.AddRule LacpRxmStateExpired LacpRxmEventNotPortEnabledAndNotPortMoved LacpRxMachinePortDisabled
  let rules := rules.AddRule LacpRxmStateLacpDisabled LacpRxmEventNotPortEnabledAndNotPortMoved LacpRxMachinePortDisabled
  let rules := rules.AddRule LacpRxmStateDefaulted LacpRxmEventNotPortEnabledAndNotPortMoved LacpRxMachinePortDisabled
  let rules := rules.AddRule LacpRxmStateCurrent LacpRxmEventNotPortEnabledAndNotPortMoved LacpRxMachinePortDisabled
  -- PORT MOVED
  let rules := rules.AddRule LacpRxmStatePortDisabled LacpRxmEventPortMoved LacpRxMachineInitialize
  -- PORT ENABLED && LACP ENABLED
  let rules := rules.AddRule LacpRxmStatePortDisabled LacpRxmEventPortEnabledAndLacpEnabled LacpRxMachineExpired
  -- PORT ENABLED && LACP DISABLED
  let rules := rules.AddRule LacpRxmStatePortDisabled LacpRxmEventPortEnabledAndLacpDisabled LacpRxMachineLacpDisabled
  -- CURRENT WHILE TIMER EXPIRED
  let rules := rules.AddRule LacpRxmStateExpired LacpRxmEventCurrentWhileTimerExpired LacpRxMachineDefaulted
  let rules := rules.AddRule LacpRxmStateCurrent LacpRxmEventCurrentWhileTimerExpired LacpRxMachineExpired
  -- LACP ENABLED
  let rules := rules.AddRule LacpRxmStateLacpDisabled LacpRxmEventLacpEnabled LacpRxMachinePortDisabled
  -- PKT RX
  let rules := rules.AddRule LacpRxmStateExpired LacpRxmEventLacpPktRx LacpRxMachineCurrent
  let rules := rules.AddRule LacpRxmStateDefaulted LacpRxmEventLacpPktRx LacpRxMachineCurrent
  let rules := rules.AddRule LacpRxmStateCurrent LacpRxmEventLacpPktRx LacpRxMachineCurrent
  rules

/-- Outcome of `Machine.ProcessEvent`: the callback ran and the machine moved,
or there is no rule for the event in the current state and nothing changed. -/
inductive FsmOutcome where
  | transitioned
  | invalidTransition
deriving DecidableEq, Repr

/-- Modelled from the spec: `fsm.Machine.ProcessEvent` (package `utils/fsm`) is
missing; when the rules hold a callback for the current state and the event it
is run and the state it returns becomes the current state, otherwise the
machine is left as it is and an error is returned. -/
def RxProcessEvent (p : LaAggPort) (e : Nat) (data : Option LacpPdu) :
    Option (LaAggPort × FsmOutcome) :=
  match LacpRxMachineRules.find p.rxMachineFsm.state e with
  | none => some (p, FsmOutcome.invalidTransition)
  | some cb =>
    match cb p data with
    | none => none
    | some (p, next) =>
      some ({ p with rxMachineFsm := { p.rxMachineFsm with state := next } },
            FsmOutcome.transitioned)

/-- Go `LacpRxMachineMain`, the `case event := <-m.RxmEvents` arm of the
`select`: process the event, then the unconditional fall-through out of
INITIALIZE. The value returned by `ProcessEvent` is ignored. -/
def LacpRxMachineMainEvent (p : LaAggPort) (event : Nat) : Option LaAggPort :=
  match RxProcessEvent p event none with
  | none => none
  | some (p, _) =>
    if p.rxMachineFsm.state == LacpRxmStateInitialize then
      match RxProcessEvent p LacpRxmEventUnconditionalFallthrough none with
      | none => none
      | some (p, _) => some p
    else
      some p

/-- Go `LacpRxMachineMain`, the `case pkt := <-rxm.RxmPktRxEvent` arm. -/
def LacpRxMachineMainPktRx (p : LaAggPort) (pkt : LacpPdu) : Option LaAggPort :=
  match RxProcessEvent p LacpRxmEventLacpPktRx (some pkt) with
  | none => none
  | some (p, _) => some p

/-! ## periodictxmachine.go -/

def LacpPtxmStateNone : Nat := 1
def LacpPtxmStateNoPeriodic : Nat := 2
def LacpPtxmStateFastPeriodic : Nat := 3
def LacpPtxmStateSlowPeriodic : Nat := 4
def LacpPtxmStatePeriodicTx : Nat := 5

def LacpPtxmEventBegin : Nat := 1
def LacpPtxmEventLacpDisabled : Nat := 2
def LacpPtxmEventNotPortEnabled : Nat := 3
def LacpPtxmEventActorPartnerOperActivityPassiveMode : Nat := 4
def LacpPtxmEventUnconditionalFallthrough : Nat := 5
def LacpPtxmEventPartnerOperStateTimeoutLong : Nat := 6
def LacpPtxmEventPeriodicTimerExpired : Nat := 7
def LacpPtxmEventPartnerOperStateTimeoutShort : Nat := 8

/-- Modelled from the spec: the declaration of `LacpMachineEvent` is missing;
the periodic machine reads the event `e`, its source `src` and whether a
response channel is attached. -/
structure LacpMachineEvent where
  e : Nat
  src : String
  responseChan : Bool
deriving DecidableEq, Repr

/-- Modelled from the spec: `PeriodicTimerIntervalSet` is missing; it stores the
interval the periodic timer is to be started with. -/
def PeriodicTimerIntervalSet (p : LaAggPort) (interval : Nat) : LaAggPort :=
  { p with PtxMachineFsm := { p.PtxMachineFsm with PeriodicTxTimerInterval := interval } }

/-- Modelled from the spec: `PeriodicTimerStart` is missing; it (re)starts the
periodic timer with the stored interval. -/
def PeriodicTimerStart (p : LaAggPort) : LaAggPort :=
  { p with PtxMachineFsm :=
      { p.PtxMachineFsm with periodicTxTimer := some p.PtxMachineFsm.PeriodicTxTimerInterval } }

/-- Modelled from the spec: `PeriodicTimerStop` is missing; it stops the
periodic timer. -/
def PeriodicTimerStop (p : LaAggPort) : LaAggPort :=
  { p with PtxMachineFsm := { p.PtxMachineFsm with periodicTxTimer := none } }

/-- Go `NewLacpPtxMachine`: the timer is started, then stopped. -/
def NewLacpPtxMachine : LacpPtxMachine :=
  { PreviousState := LacpPtxmStateNone
    state := 0
    PeriodicTxTimerInterval := LacpSlowPeriodicTime
    periodicTxTimer := none }

/-- Go `LacpPtxMachineNoPeriodic`: stops the periodic transmission of packets. -/
def LacpPtxMachineNoPeriodic (p : LaAggPort) (_data : Option LacpPdu) : Option (LaAggPort × Nat) :=
  let p := PeriodicTimerStop p
  some (p, LacpPtxmStateNoPeriodic)

/-- Go `LacpPtxMachineFastPeriodic`: sets the periodic transmission time to
fast and starts the timer. -/
def LacpPtxMachineFastPeriodic (p : LaAggPort) (_data : Option LacpPdu) : Option (LaAggPort × Nat) :=
  let p := PeriodicTimerIntervalSet p LacpFastPeriodicTime
  let p := PeriodicTimerStart p
  some (p, LacpPtxmStateFastPeriodic)

/-- Go `LacpPtxMachineSlowPeriodic`: sets the periodic transmission time to
slow and starts the timer. -/
def LacpPtxMachineSlowPeriodic (p : LaAggPort) (_data : Option LacpPdu) : Option (LaAggPort × Nat) :=
  let p := PeriodicTimerIntervalSet p LacpSlowPeriodicTime
  let p := PeriodicTimerStart p
  some (p, LacpPtxmStateSlowPeriodic)

/-- Go `LacpPtxMachinePeriodicTx`: sends `Ntt` to the transmit machine. -/
def LacpPtxMachinePeriodicTx (p : LaAggPort) (_data : Option LacpPdu) : Option (LaAggPort × Nat) :=
  -- ptxm.p.TxMachineFsm.TxmEvents <- LacpMachineEvent{e: LacpTxmEventNtt}
  let p := { p with txMachineFsm :=
               { p.txMachineFsm with TxmEvents := p.txMachineFsm.TxmEvents ++ [LacpTxmEventNtt] } }
  some (p, LacpPtxmStatePeriodicTx)

/-- Go `LacpPtxMachineFSMBuild`: the rules of the periodic transmit machine, in
source order. -/
def LacpPtxMachineRules : Ruleset :=
  let rules : Ruleset := []
  -- BEGIN -> NO PERIODIC
  let rules := rules.AddRule LacpPtxmStateNone LacpPtxmEventBegin LacpPtxMachineNoPeriodic
  let rules := rules.AddRule LacpPtxmStateFastPeriodic LacpPtxmEventBegin LacpPtxMachineNoPeriodic
  let rules := rules.AddRule LacpPtxmStateSlowPeriodic LacpPtxmEventBegin LacpPtxMachineNoPeriodic
  let rules := rules.AddRule LacpPtxmStatePeriodicTx LacpPtxmEventBegin LacpPtxMachineNoPeriodic
  -- LACP DISABLED -> NO PERIODIC
  let rules := rules.AddRule LacpPtxmStateNone LacpPtxmEventLacpDisabled LacpPtxMachineNoPeriodic
  let rules := rules.AddRule LacpPtxmStateFastPeriodic LacpPtxmEventLacpDisabled LacpPtxMachineNoPeriodic
  let rules := rules.AddRule LacpPtxmStateSlowPeriodic LacpPtxmEventLacpDisabled LacpPtxMachineNoPeriodic
  let rules := rules.AddRule LacpPtxmStatePeriodicTx LacpPtxmEventLacpDisabled LacpPtxMachineNoPeriodic
  -- PORT DISABLED -> NO PERIODIC
  let rules := rules.AddRule LacpPtxmStateNone LacpPtxmEventNotPortEnabled LacpPtxMachineNoPeriodic
  let rules := rules.AddRule LacpPtxmStateFastPeriodic LacpPtxmEventNotPortEnabled LacpPtxMachineNoPeriodic
  let rules := rules.AddRule LacpPtxmStateSlowPeriodic LacpPtxmEventNotPortEnabled LacpPtxMachineNoPeriodic
  let rules := rules.AddRule LacpPtxmStatePeriodicTx LacpPtxmEventNotPortEnabled LacpPtxMachineNoPeriodic
  -- ACTOR/PARTNER OPER STATE ACTIVITY MODE == PASSIVE -> NO PERIODIC
  let rules := rules.AddRule LacpPtxmStateNone LacpPtxmEventActorPartnerOperActivityPassiveMode LacpPtxMachineNoPeriodic
  let rules := rules.AddRule LacpPtxmStateFastPeriodic LacpPtxmEventActorPartnerOperActivityPassiveMode LacpPtxMachineNoPeriodic
  let rules := rules.AddRule LacpPtxmStateSlowPeriodic LacpPtxmEventActorPartnerOperActivityPassiveMode LacpPtxMachineNoPeriodic
  let rules := rules.AddRule LacpPtxmStatePeriodicTx LacpPtxmEventActorPartnerOperActivityPassiveMode LacpPtxMachineNoPeriodic
  -- INTENTIONAL FALL THROUGH -> FAST PERIODIC
  let rules := rules.AddRule LacpPtxmStateNoPeriodic LacpPtxmEventUnconditionalFallthrough LacpPtxMachineFastPeriodic
  -- PARTNER OPER STAT LACP TIMEOUT == LONG -> SLOW PERIODIC
  let rules := rules.AddRule LacpPtxmStateFastPeriodic LacpPtxmEventPartnerOperStateTimeoutLong LacpPtxMachineSlowPeriodic
  -- PERIODIC TIMER EXPIRED -> PERIODIC TX
  let rules := rules.AddRule LacpPtxmStateFastPeriodic LacpPtxmEventPeriodicTimerExpired LacpPtxMachinePeriodicTx
  -- PARTNER OPER STAT LACP TIMEOUT == SHORT -> PERIODIC TX
  let rules := rules.AddRule LacpPtxmStateSlowPeriodic LacpPtxmEventPartnerOperStateTimeoutShort LacpPtxMachinePeriodicTx
  -- PERIODIC TIMER EXPIRED -> PERIODIC TX
  let rules := rules.AddRule LacpPtxmStateSlowPeriodic LacpPtxmEventPeriodicTimerExpired LacpPtxMachinePeriodicTx
  -- PARTNER OPER STAT LACP TIMEOUT == SHORT -> FAST PERIODIC
  let rules := rules.AddRule LacpPtxmStatePeriodicTx LacpPtxmEventPartnerOperStateTimeoutShort LacpPtxMachineFastPeriodic
  -- PARTNER OPER STAT LACP TIMEOUT == LONG -> SLOW PERIODIC
  let rules := rules.AddRule LacpPtxmStatePeriodicTx LacpPtxmEventPartnerOperStateTimeoutLong LacpPtxMachineSlowPeriodic
  rules

/-- Modelled from the spec: `fsm.Machine.ProcessEvent` (package `utils/fsm`) is
missing; as `RxProcessEvent`, for the periodic transmit machine of the port. -/
def PtxProcessEvent (p : LaAggPort) (e : Nat) (data : Option LacpPdu) :
    Option (LaAggPort × FsmOutcome) :=
  match LacpPtxMachineRules.find p.PtxMachineFsm.state e with
  | none => some (p, FsmOutcome.invalidTransition)
  | some cb =>
    match cb p data with
    | none => none
    | some (p, next) =>
      some ({ p with PtxMachineFsm := { p.PtxMachineFsm with state := next } },
            FsmOutcome.transitioned)

/-- Go `LacpPtxIsNoPeriodicExitCondition`: the fall-through condition checked
after every event. The second argument passed to `LacpModeGet` is
`p.lacpEnabled`. -/
def LacpPtxIsNoPeriodicExitCondition (p : LaAggPort) : Bool :=
  p.PtxMachineFsm.state == LacpPtxmStateNoPeriodic &&
  p.lacpEnabled &&
  p.portEnabled &&
  (LacpModeGet p.actorOper.state p.lacpEnabled == LacpModeActive ||
   LacpModeGet p.partnerOper.state p.lacpEnabled == LacpModeActive)

/-- Go `LacpPtxMachineMain`, the `case event := <-m.PtxmEvents` arm of the
loop: process the event, then the fall-through when the exit condition of
NO PERIODIC holds; the second component is the response sent on the event's
response channel, if any. -/
def LacpPtxMachineMainEvent (p : LaAggPort) (event : LacpMachineEvent) :
    Option (LaAggPort × Option String) :=
  match PtxProcessEvent p event.e none with
  | none => none
  | some (p, _) =>
    let next :=
      if LacpPtxIsNoPeriodicExitCondition p then
        (PtxProcessEvent p LacpPtxmEventUnconditionalFallthrough none).map Prod.fst
      else
        some p
    match next with
    | none => none
    | some p =>
      if event.e == LacpPtxmEventBegin && event.responseChan then
        some (p, some "Periodic TX Machine")
      else
        some (p, none)


/-! ## Concrete ports and LACPDUs used to evaluate the machines -/

/-- A Port Info block with every field zero. -/
def zeroPortInfo : LacpPortInfo :=
  { systemId := 0, systemPriority := 0, key := 0, port := 0, portPri := 0, state := 0 }

/-- A freshly enrolled port: detached, LACP and the link enabled, all Port
Info blocks zero, machines as their constructors leave them. -/
def freshPort : LaAggPort :=
  { aggId := 0
    begin_ := false
    lacpEnabled := true
    portEnabled := true
    portMoved := false
    aggSelected := LacpAggUnSelected
    actorAdmin := zeroPortInfo
    actorOper := zeroPortInfo
    partnerAdmin := zeroPortInfo
    partnerOper := zeroPortInfo
    partnerVersion := 0
    rxMachineFsm := NewLacpRxMachine
    PtxMachineFsm := NewLacpPtxMachine
    muxMachineFsm := { state := 0, waitWhileTimer := none }
    txMachineFsm := { TxmEvents := [] }
    log := [] }

/-- An Active port whose periodic machine sits in NO PERIODIC with LACP and
the link enabled. -/
def activeNoPeriodicPort : LaAggPort :=
  { freshPort with
    actorOper := { zeroPortInfo with state := LacpStateActivityBit }
    PtxMachineFsm := { NewLacpPtxMachine with state := LacpPtxmStateNoPeriodic } }

/-- Local Port Info: system 0xAA01, key 10, port 1, Active and aggregatable. -/
def localInfo : LacpPortInfo :=
  { systemId := 0xAA01, systemPriority := 1, key := 10, port := 1, portPri := 1,
    state := LacpStateActivityBit ||| LacpStateAggregationBit }

/-- Remote Port Info: system 0xBB02, key 20, port 2, Active, aggregatable, in
sync, long timeout. -/
def remoteInfo : LacpPortInfo :=
  { systemId := 0xBB02, systemPriority := 1, key := 20, port := 2, portPri := 1,
    state := LacpStateActivityBit ||| LacpStateAggregationBit ||| LacpStateSyncBit }

/-- A port whose Actor is `localInfo` and whose recorded Partner is
`remoteInfo`. -/
def convergedPort : LaAggPort :=
  { freshPort with
    actorOper := localInfo
    partnerOper := remoteInfo
    aggSelected := LacpAggSelected
    rxMachineFsm := { NewLacpRxMachine with state := LacpRxmStateCurrent } }

/-- The LACPDU the partner of `convergedPort` sends when it has the local
information right: Actor = remote, Partner = local. -/
def agreeingPdu : LacpPdu :=
  { version := 1, actor := { info := remoteInfo }, partner := { info := localInfo } }

/-- An LACPDU whose Partner Info is not the local information (it repeats the
remote block). -/
def disagreeingPdu : LacpPdu :=
  { version := 1, actor := { info := remoteInfo }, partner := { info := remoteInfo } }

/-- A port in EXPIRED as the entry action leaves the timer: interval and
running timer both at the short timeout. -/
def expiredPort : LaAggPort :=
  { freshPort with
    actorOper := localInfo
    rxMachineFsm :=
      { NewLacpRxMachine with
        state := LacpRxmStateExpired
        currentWhileTimerTimeout := LacpShortTimeoutTime
        currentWhileTimer := some LacpShortTimeoutTime } }

/-- A port whose recorded Partner is in sync with long timeout and whose
Actor state has the Expired bit set. -/
def syncedExpiredBitPort : LaAggPort :=
  { freshPort with
    actorOper := { localInfo with state := LacpStateActivityBit ||| LacpStateExpiredBit }
    partnerOper := remoteInfo }


/-! ## Invariants of the port record named by the specification -/

/-- The Actor operational Defaulted and Expired bits are not both set. -/
def DefaultedExpiredExclusive (p : LaAggPort) : Prop :=
  ¬ (LacpStateIsSet p.actorOper.state LacpStateDefaultedBit = true ∧
     LacpStateIsSet p.actorOper.state LacpStateExpiredBit = true)

instance (p : LaAggPort) : Decidable (DefaultedExpiredExclusive p) := by
  unfold DefaultedExpiredExclusive; infer_instance

/-- A port whose Actor operational Distributing bit is set also has the
Collecting and Sync bits set and a non-zero owning aggregator id. -/
def DistributingAttached (p : LaAggPort) : Prop :=
  LacpStateIsSet p.actorOper.state LacpStateDistributingBit = true →
    LacpStateIsSet p.actorOper.state LacpStateCollectingBit = true ∧
    LacpStateIsSet p.actorOper.state LacpStateSyncBit = true ∧
    p.aggId ≠ 0

instance (p : LaAggPort) : Decidable (DistributingAttached p) := by
  unfold DistributingAttached; infer_instance

/-! ## More concrete ports -/

/-- A port whose receive machine is in the given state. -/
def portInRxState (s : Nat) : LaAggPort :=
  { freshPort with
    actorOper := localInfo
    rxMachineFsm := { NewLacpRxMachine with state := s } }

/-- A port whose periodic machine is in the given state, with the periodic
timer running at the fast interval. -/
def portInPtxState (s : Nat) : LaAggPort :=
  { freshPort with
    actorOper := localInfo
    PtxMachineFsm :=
      { NewLacpPtxMachine with
        state := s
        PeriodicTxTimerInterval := LacpFastPeriodicTime
        periodicTxTimer := some LacpFastPeriodicTime } }

/-- A port attached to aggregator 1 that is collecting and distributing in
sync, with a Partner that differs from the administrative default. -/
def distributingPort : LaAggPort :=
  { convergedPort with
    aggId := 1
    actorOper :=
      { localInfo with
        state := LacpStateActivityBit ||| LacpStateAggregationBit ||| LacpStateSyncBit |||
          LacpStateCollectingBit ||| LacpStateDistributingBit } }

/-! ## Transitions of the receive machine -/

/-- The receive machine has a transition from state `s` to state `t` on event
`e`: in every port whose receive machine is in `s`, processing `e` (as the
event arm of the main loop does, without data) runs an entry action and
leaves the machine in `t`. -/
def RxTransition (s e t : Nat) : Prop :=
  ∀ p : LaAggPort, p.rxMachineFsm.state = s →
    ∃ q, RxProcessEvent p e none = some (q, FsmOutcome.transitioned) ∧
      q.rxMachineFsm.state = t


/-! ## Transitions of the periodic transmit machine -/

/-- The periodic transmit machine has a transition from state `s` to state `t`
on event `e`: in every port whose periodic machine is in `s`, processing `e`
runs an entry action and leaves the machine in `t`. -/
def PtxTransition (s e t : Nat) : Prop :=
  ∀ p : LaAggPort, p.PtxMachineFsm.state = s →
    ∃ q, PtxProcessEvent p e none = some (q, FsmOutcome.transitioned) ∧
      q.PtxMachineFsm.state = t

/-- A port on which both ends are Passive (no Activity bit in the Actor or the
Partner operational state), LACP and the link enabled, with the periodic
machine in NO PERIODIC. -/
def passiveNoPeriodicPort : LaAggPort :=
  { freshPort with
    PtxMachineFsm := { NewLacpPtxMachine with state := LacpPtxmStateNoPeriodic } }

/-! ## Sequences of receive machine events -/

/-- A sequence of events handed to `ProcessEvent` of the receive machine one
after the other, each with its data (`LacpRxMachineMain` hands over the event
read, the unconditional fall-through out of INITIALIZE, or `LacpRxmEventLacpPktRx`
with the LACPDU read); `none` when an entry action panics. -/
def RxProcessEvents (p : LaAggPort) : List (Nat × Option LacpPdu) → Option LaAggPort
  | [] => some p
  | (e, data) :: rest =>
    match RxProcessEvent p e data with
    | none => none
    | some (q, _) => RxProcessEvents q rest

/-- A port on standby for its aggregator, with the receive machine in CURRENT. -/
def standbyPort : LaAggPort :=
  { portInRxState LacpRxmStateCurrent with aggSelected := LacpAggStandby }

/-- A port in EXPIRED that is attached to aggregator 1 and Selected. -/
def attachedExpiredPort : LaAggPort :=
  { expiredPort with aggId := 1, aggSelected := LacpAggSelected }

end Lacp

/-! # DRCP transmit machine (`protocol/drcp/txmachine.go`) -/

namespace Drcp

def TxMachineModuleStr : String := "DRCP Tx Machine"

def TxmStateNone : Nat := 1
def TxmStateOn : Nat := 2
def TxmStateOff : Nat := 3

def TxmEventBegin : Nat := 1
def TxmEventUnconditionalFallThrough : Nat := 2
def TxmEventNtt : Nat := 3
def TxmEventDrcpDisabled : Nat := 4
def TxmEventDrcpEnabled : Nat := 5

/-! ## The DRCPDU layer

The packet layer (`gopacket/layers`) is an external package; the TLV types,
their length constants and the DRCPDU record are declared there. -/

/-- Modelled from the spec: the TLV type constants of the DRCPDU layer are
missing; the TLV set is Portal Info, Portal Configuration Info, DRCP State,
Home Ports Info, 2P Gateway / Port Conversation Vector, Network/IPL Sharing
Method and Encapsulation, Terminator. -/
inductive DRCPTlvType where
  | DRCPTLVTypeTerminator
  | DRCPTLVTypePortalInfo
  | DRCPTLVTypePortalConfigInfo
  | DRCPTLVTypeDRCPState
  | DRCPTLVTypeHomePortsInfo
  | DRCPTLV2PGatewayConversationVector
  | DRCPTLV2PPortConversationVector
  | DRCPTLVNetworkIPLSharingMethod
  | DRCPTLVNetworkIPLSharingEncapsulation
deriving DecidableEq, Repr

open DRCPTlvType

/-- Modelled from the spec: TLV length constants of the DRCPDU layer (missing):
Portal Info 18. -/
def DRCPTLVPortalInfoLength : Nat := 18
/-- Modelled from the spec: Portal Configuration Info 46. -/
def DRCPTLVPortalConfigurationInfoLength : Nat := 46
/-- Modelled from the spec: DRCP State 3. -/
def DRCPTLVStateLength : Nat := 3
/-- Modelled from the spec: 2P Gateway Conversation Vector 512. -/
def DRCPTLV2PGatewayConversationVectorLength : Nat := 512
/-- Modelled from the spec: 2P Port Conversation Vector 512. -/
def DRCPTLV2PPortConversationVectorLength : Nat := 512
/-- Modelled from the spec: Network/IPL Sharing Method 7. -/
def DRCPTLVNetworkIPLSharingMethodLength : Nat := 7
/-- Modelled from the spec: Network/IPL Sharing Encapsulation 34. -/
def DRCPTLVNetworkIPLSharingEncapsulationLength : Nat := 34
/-- Modelled from the spec: Terminator 2. -/
def DRCPTLVTerminatorLength : Nat := 2
/-- Modelled from the spec: size of the type/length header of a TLV, 2 octets. -/
def DRCPTlvAndLengthSize : Nat := 2

/-- Modelled from the spec: the type/length header of a TLV (declaration
missing); `SetTlv` and `SetLength` store the type and the length they are
given. -/
structure DRCPTlvTypeLength where
  tlv : Option DRCPTlvType
  length : Nat
deriving DecidableEq, Repr

/-- The zero value of a type/length header. -/
def DRCPTlvTypeLength.zero : DRCPTlvTypeLength := { tlv := none, length := 0 }

def DRCPTlvTypeLength.SetTlv (t : DRCPTlvTypeLength) (tlv : DRCPTlvType) : DRCPTlvTypeLength :=
  { t with tlv := some tlv }

def DRCPTlvTypeLength.SetLength (t : DRCPTlvTypeLength) (length : Nat) : DRCPTlvTypeLength :=
  { t with length := length }

structure DRCPPortalInfoTlv where
  TlvTypeLength : DRCPTlvTypeLength
  AggPriority : Nat
  AggId : Nat
  PortalPriority : Nat
  PortalAddr : Nat
deriving DecidableEq, Repr

structure DRCPPortalConfigurationInfoTlv where
  TlvTypeLength : DRCPTlvTypeLength
  TopologyStatePortalSystemNum : Nat
  OperAggKey : Nat
  PortAlgorithm : Nat
  GatewayAlgorithm : Nat
deriving DecidableEq, Repr

/-- A 2P conversation vector TLV: header and the 512-octet `Vector`. -/
structure DRCP2PConversationVectorTlv where
  TlvTypeLength : DRCPTlvTypeLength
  Vector : List Nat
deriving DecidableEq, Repr

structure DRCPStateTlv where
  TlvTypeLength : DRCPTlvTypeLength
  State : Nat
deriving DecidableEq, Repr

structure DRCPHomePortsInfoTlv where
  TlvTypeLength : DRCPTlvTypeLength
  AdminAggKey : Nat
  OperPartnerAggKey : Nat
  ActiveHomePorts : List Nat
deriving DecidableEq, Repr

structure DRCPNetworkIPLSharingMethodTlv where
  TlvTypeLength : DRCPTlvTypeLength
  Method : List Nat
deriving DecidableEq, Repr

structure DRCPNetworkIPLSharingEncapsulationTlv where
  TlvTypeLength : DRCPTlvTypeLength
  IplEncapDigest : List Nat
  NetEncapDigest : List Nat
deriving DecidableEq, Repr

structure DRCPTerminatorTlv where
  TlvTypeLength : DRCPTlvTypeLength
deriving DecidableEq, Repr

/-- Modelled from the spec: DRCPDU version constant `DRCPVersion1` (Version 1). -/
def DRCPVersion1 : Nat := 1

/-- Modelled from the spec: the DRCPDU record `layers.DRCP` (declaration
missing), with the version and the TLVs the transmit machine fills in; the
Subtype octet, whose constant is declared in the packet layer, is left out. -/
structure DRCP where
  Version : Nat
  PortalInfo : DRCPPortalInfoTlv
  PortalConfigInfo : DRCPPortalConfigurationInfoTlv
  State : DRCPStateTlv
  HomePortsInfo : DRCPHomePortsInfoTlv
  DRCP2PGatewayConversationVectorTlv : DRCP2PConversationVectorTlv
  DRCP2PortConversationVectorTlv : DRCP2PConversationVectorTlv
  NetworkIPLMethod : DRCPNetworkIPLSharingMethodTlv
  NetworkIPLEncapsulation : DRCPNetworkIPLSharingEncapsulationTlv
  Terminator : DRCPTerminatorTlv
deriving DecidableEq, Repr

/-- The Go zero value of a `[512]uint8` vector. -/
def zeroVector : List Nat := List.replicate 512 0

/-- The DRCPDU as the composite literal `layers.DRCP{SubType: ..., Version: ...}`
leaves it: every TLV at its zero value. -/
def DRCP.zero : DRCP :=
  { Version := DRCPVersion1
    PortalInfo :=
      { TlvTypeLength := DRCPTlvTypeLength.zero, AggPriority := 0, AggId := 0,
        PortalPriority := 0, PortalAddr := 0 }
    PortalConfigInfo :=
      { TlvTypeLength := DRCPTlvTypeLength.zero, TopologyStatePortalSystemNum := 0,
        OperAggKey := 0, PortAlgorithm := 0, GatewayAlgorithm := 0 }
    State := { TlvTypeLength := DRCPTlvTypeLength.zero, State := 0 }
    HomePortsInfo :=
      { TlvTypeLength := DRCPTlvTypeLength.zero, AdminAggKey := 0, OperPartnerAggKey := 0,
        ActiveHomePorts := [] }
    DRCP2PGatewayConversationVectorTlv :=
      { TlvTypeLength := DRCPTlvTypeLength.zero, Vector := zeroVector }
    DRCP2PortConversationVectorTlv :=
      { TlvTypeLength := DRCPTlvTypeLength.zero, Vector := zeroVector }
    NetworkIPLMethod := { TlvTypeLength := DRCPTlvTypeLength.zero, Method := [0, 0, 0, 0] }
    NetworkIPLEncapsulation :=
      { TlvTypeLength := DRCPTlvTypeLength.zero, IplEncapDigest := List.replicate 16 0,
        NetEncapDigest := List.replicate 16 0 }
    Terminator := { TlvTypeLength := DRCPTlvTypeLength.zero } }

/-! ## Data model -/

/-- Modelled from the spec: the aggregator the relay is attached to
(declaration missing); the transmit machine reads the names of its
distributing ports. -/
structure LaAggregator where
  DistributedPortNumList : List String
deriving DecidableEq, Repr

/-- Go `GMachine` (`gatwaymachine.go`): the previous state kept for debugging
and the current state of the underlying `fsm.Machine`. -/
structure GMachine where
  PreviousState : Nat
  state : Nat
deriving DecidableEq, Repr

/-- Go `AMachine` (`aggregatormachine.go`): the previous state kept for
debugging and the current state of the underlying `fsm.Machine`. -/
structure AMachine where
  PreviousState : Nat
  state : Nat
deriving DecidableEq, Repr

/-- Modelled from the spec: the declaration of `DistributedRelay` is missing;
these are the fields the transmit, Gateway and Aggregator machines read and
write. Conversation vectors are indexed by Conversation ID (0..4095);
`DrniGatewayConversation` and `DrniPortConversation` hold a Portal System
Number per Conversation ID (0 for none), `aDrniConvAdminGateway` the
prioritised list of Portal System Numbers per Conversation ID, and
`DrniPortalSystemStateGatewayVector s` the Gateway Vector of Portal System `s`
in `DrniPortalSystemState`. -/
structure DistributedRelay where
  DrniAggregatorPriority : Nat
  DrniAggregatorId : Nat
  DrniPortalPriority : Nat
  DrniPortalAddr : Nat
  DrniPortalSystemNumber : Nat
  DRFHomeAdminAggregatorKey : Nat
  DRFHomeOperAggregatorKey : Nat
  DRVHomePortAlgorithm : Nat
  DRFHomeGatewayAlgorithm : Nat
  DrniCommonMethods : Bool
  DrniThreeSystemPortal : Bool
  DrniPortalSystemGatewayConversation : Nat → Bool
  DrniPortalSystemPortConversation : Nat → Bool
  a : Option LaAggregator
  GatewayConversationUpdate : Bool
  PortConversationUpdate : Bool
  IppAllGatewayUpdate : Bool
  IppAllPortUpdate : Bool
  DrniIntraPortalLinkList : List Nat
  DrniGatewayConversation : Nat → Nat
  DrniPortConversation : Nat → Nat
  aDrniConvAdminGateway : Nat → List Nat
  DrniPortalSystemStateGatewayVector : Nat → Nat → Bool
  GMachineFsm : GMachine
  AMachineFsm : AMachine

/-- What the transmit machine writes to its debug log. -/
inductive DrcpLogEntry where
  /-- Message "Unable to send packet pkt size %d exceeds MTU of IPP %d". -/
  | oversize (pktLength portMtu : Nat)
  /-- Error returned by `ProcessEvent` for event `e` from source `src` in state
  `state`. -/
  | eventError (src : String) (state e : Nat)
  | text (msg : String)
deriving DecidableEq, Repr

/-- A DRCPDU as the transmit machine leaves it at the end of one pass of its
packet loop, with the length it computed for it. -/
structure BuiltDRCPDU where
  drcp : DRCP
  pktLength : Nat
deriving DecidableEq, Repr

/-- Go `TxMachine`: current FSM state and the debug previous state. -/
structure TxMachine where
  PreviousState : Nat
  state : Nat
deriving DecidableEq, Repr

/-- Go `NewDrcpTxMachine`. -/
def NewDrcpTxMachine : TxMachine :=
  { PreviousState := TxmStateNone, state := 0 }

/-- Modelled from the spec: the declaration of `DRCPIpp` is missing; these are
the fields the transmit machine reads and writes, and the two flags the
Gateway and Aggregator machines set. `txBuilt` collects the DRCPDUs the
machine builds (the source builds each in a local variable and leaves the
transmission as a TODO), `log` what it writes to the debug log. -/
structure DRCPIpp where
  Id : Nat
  NTTDRCPDU : Bool
  DRCPEnabled : Bool
  GatewayConversationTransmit : Bool
  PortConversationTransmit : Bool
  HomeGatewayVectorTransmit : Bool
  OtherGatewayVectorTransmit : Bool
  DRCPDUsTX : Nat
  DRFHomeOperDRCPState : Nat
  DRFHomeNetworkIPLSharingMethod : List Nat
  DRFHomeNetworkIPLIPLEncapDigest : List Nat
  DRFHomeNetworkIPLIPLNetEncapDigest : List Nat
  TxMachineFsm : TxMachine
  IppGatewayUpdate : Bool
  IppPortUpdate : Bool
  txBuilt : List BuiltDRCPDU
  log : List DrcpLogEntry
deriving DecidableEq, Repr

/-- Modelled from the spec: the platform lookups of package `utils` are
missing: the interface index of a port name (`GetIfIndexFromName`) and the MTU
of a port (`PortConfigMap[id].Mtu`). -/
structure DrcpEnv where
  GetIfIndexFromName : String → Int
  PortMtu : Nat → Nat

/-- Go `uint32(...)` arithmetic on the packet length. -/
def u32 (n : Nat) : Nat := n % 2 ^ 32

/-- Go `DrcpTxmLog`. -/
def DrcpTxmLog (p : DRCPIpp) (entry : DrcpLogEntry) : DRCPIpp :=
  { p with log := p.log ++ [entry] }

/-- One pass of the packing loop of `DrcpTxMachineOn`: each of the four
conversation entries `j .. j+3` that is true assigns its bit to `Vector[i]`. -/
def packQuartet (conv : Nat → Bool) (i j : Nat) (vector : List Nat) : List Nat :=
  let vector := if conv j then vector.set i (1 <<< 3) else vector
  let vector := if conv (j + 1) then vector.set i (1 <<< 2) else vector
  let vector := if conv (j + 2) then vector.set i (1 <<< 1) else vector
  let vector := if conv (j + 3) then vector.set i (1 <<< 0) else vector
  vector

/-- The packing loop of `DrcpTxMachineOn`,
`for i, j := 0, 0; i < 512; i, j = i+1, j+4`, with `n` passes left. -/
def packConversationVectorLoop (conv : Nat → Bool) : Nat → Nat → Nat → List Nat → List Nat
  | 0, _, _, vector => vector
  | n + 1, i, j, vector =>
    packConversationVectorLoop conv n (i + 1) (j + 4) (packQuartet conv i j vector)

/-- Value the four conditional assignments of one pass of the packing loop
leave in `Vector[i]`: the bit of the last enabled conversation of quartet `i`,
or the old value when none of the four is enabled. -/
def packedOctet (conv : Nat → Bool) (old i : Nat) : Nat :=
  if conv (4 * i + 3) then 1 <<< 0
  else if conv (4 * i + 2) then 1 <<< 1
  else if conv (4 * i + 1) then 1 <<< 2
  else if conv (4 * i) then 1 <<< 3
  else old

/-- The packing loop run on a TLV's `Vector`. -/
def packConversationVector (conv : Nat → Bool) (vector : List Nat) : List Nat :=
  packConversationVectorLoop conv 512 0 0 vector

/-! ## `DrcpTxMachineOn`

The source repeats the same two blocks in the branches of its conversation
vector `if` chain: the TLV header (`SetTlv`, `SetLength`, `pktLength +=`) and
the packing loop. They are named here and used where the source has them. -/

/-- Header of the 2P Port Conversation Vector TLV: `SetTlv`, `SetLength` and
`pktLength += uint32(DRCPTLV2PPortConversationVectorLength) + uint32(DRCPTlvAndLengthSize)`. -/
def setPortConversationVectorHeader (b : BuiltDRCPDU) : BuiltDRCPDU :=
  { drcp :=
      { b.drcp with
        DRCP2PortConversationVectorTlv :=
          { b.drcp.DRCP2PortConversationVectorTlv with
            TlvTypeLength :=
              (b.drcp.DRCP2PortConversationVectorTlv.TlvTypeLength.SetTlv
                DRCPTLV2PPortConversationVector).SetLength
                DRCPTLV2PPortConversationVectorLength } }
    pktLength :=
      u32 (b.pktLength +
        u32 (u32 DRCPTLV2PPortConversationVectorLength + u32 DRCPTlvAndLengthSize)) }

/-- Packing loop over `dr.DrniPortalSystemPortConversation`. -/
def fillPortConversationVector (dr : DistributedRelay) (b : BuiltDRCPDU) : BuiltDRCPDU :=
  { b with
    drcp :=
      { b.drcp with
        DRCP2PortConversationVectorTlv :=
          { b.drcp.DRCP2PortConversationVectorTlv with
            Vector :=
              packConversationVector dr.DrniPortalSystemPortConversation
                b.drcp.DRCP2PortConversationVectorTlv.Vector } } }

/-- Header of the 2P Gateway Conversation Vector TLV: `SetTlv`, `SetLength` and
`pktLength += uint32(DRCPTLV2PGatewayConversationVectorLength) + uint32(DRCPTlvAndLengthSize)`. -/
def setGatewayConversationVectorHeader (b : BuiltDRCPDU) : BuiltDRCPDU :=
  { drcp :=
      { b.drcp with
        DRCP2PGatewayConversationVectorTlv :=
          { b.drcp.DRCP2PGatewayConversationVectorTlv with
            TlvTypeLength :=
              (b.drcp.DRCP2PGatewayConversationVectorTlv.TlvTypeLength.SetTlv
                DRCPTLV2PGatewayConversationVector).SetLength
                DRCPTLV2PGatewayConversationVectorLength } }
    pktLength :=
      u32 (b.pktLength +
        u32 (u32 DRCPTLV2PGatewayConversationVectorLength + u32 DRCPTlvAndLengthSize)) }

/-- Packing loop over `dr.DrniPortalSystemGatewayConversation`. -/
def fillGatewayConversationVector (dr : DistributedRelay) (b : BuiltDRCPDU) : BuiltDRCPDU :=
  { b with
    drcp :=
      { b.drcp with
        DRCP2PGatewayConversationVectorTlv :=
          { b.drcp.DRCP2PGatewayConversationVectorTlv with
            Vector :=
              packConversationVector dr.DrniPortalSystemGatewayConversation
                b.drcp.DRCP2PGatewayConversationVectorTlv.Vector } } }

/-- The conversation vector `if` chain of `DrcpTxMachineOn` (source lines
176-300) for packet number `pkt`. -/
def conversationVectorTlvs (dr : DistributedRelay) (p : DRCPIpp) (pkt : Nat)
    (b : BuiltDRCPDU) : BuiltDRCPDU :=
  if p.GatewayConversationTransmit && p.PortConversationTransmit && dr.DrniCommonMethods then
    if !dr.DrniThreeSystemPortal then
      -- lets only send the port conversation vector
      fillPortConversationVector dr (setPortConversationVectorHeader b)
    else
      -- TODO 3P Not supported
      b
  else if p.GatewayConversationTransmit && p.PortConversationTransmit &&
      !dr.DrniCommonMethods then
    if pkt == 0 then
      if !dr.DrniThreeSystemPortal then
        fillGatewayConversationVector dr (setGatewayConversationVectorHeader b)
      else
        -- TODO 3P Not supported
        b
    else
      let b := setPortConversationVectorHeader b
      -- lets only send the port conversation vector
      if !dr.DrniThreeSystemPortal then
        fillPortConversationVector dr b
      else
        -- TODO 3P Not supported
        b
  else if p.GatewayConversationTransmit then
    if !dr.DrniThreeSystemPortal then
      fillGatewayConversationVector dr (setGatewayConversationVectorHeader b)
    else
      -- TODO 3P Not supported
      b
  else if p.PortConversationTransmit then
    if !dr.DrniThreeSystemPortal then
      fillPortConversationVector dr (setPortConversationVectorHeader b)
    else
      -- TODO 3P Not supported
      b
  else
    b

/-- The active home ports collected by `DrcpTxMachineOn` (source lines
314-321): the positive interface indexes of the aggregator's distributing
ports, as `uint32`. -/
def activeHomePorts (env : DrcpEnv) (dr : DistributedRelay) (ports : List Nat) : List Nat :=
  match dr.a with
  | some a =>
    a.DistributedPortNumList.foldl
      (fun ports actportstr =>
        let ifIndex := env.GetIfIndexFromName actportstr
        if ifIndex > 0 then ports ++ [u32 ifIndex.toNat] else ports)
      ports
  | none => ports

/-- One pass of the packet loop of `DrcpTxMachineOn` (source lines 141-364),
for packet number `pkt`. -/
def DrcpTxMachineOnPkt (env : DrcpEnv) (dr : DistributedRelay) (p : DRCPIpp) (pkt : Nat) :
    DRCPIpp :=
  -- increment tx counter
  let p := { p with DRCPDUsTX := p.DRCPDUsTX + 1 }
  -- Ethernet + ethertype
  let b : BuiltDRCPDU := { drcp := DRCP.zero, pktLength := u32 14 }
  -- Portal Info TLV
  let b :=
    { b with
      drcp :=
        { b.drcp with
          PortalInfo :=
            { TlvTypeLength :=
                (DRCPTlvTypeLength.zero.SetTlv DRCPTLVTypePortalInfo).SetLength
                  DRCPTLVPortalInfoLength
              AggPriority := dr.DrniAggregatorPriority
              AggId := dr.DrniAggregatorId
              PortalPriority := dr.DrniPortalPriority
              PortalAddr := dr.DrniPortalAddr } }
      pktLength := u32 (b.pktLength + u32 (u32 DRCPTLVPortalInfoLength + u32 DRCPTlvAndLengthSize)) }
  -- Portal Configuration Info TLV
  let b :=
    { b with
      drcp :=
        { b.drcp with
          PortalConfigInfo :=
            { TlvTypeLength :=
                (DRCPTlvTypeLength.zero.SetTlv DRCPTLVTypePortalConfigInfo).SetLength
                  DRCPTLVPortalConfigurationInfoLength
              TopologyStatePortalSystemNum := dr.DrniPortalSystemNumber
              OperAggKey := dr.DRFHomeOperAggregatorKey
              PortAlgorithm := dr.DRVHomePortAlgorithm
              GatewayAlgorithm := dr.DRFHomeGatewayAlgorithm } }
      pktLength :=
        u32 (b.pktLength +
          u32 (u32 DRCPTLVPortalConfigurationInfoLength + u32 DRCPTlvAndLengthSize)) }
  -- conversation vector TLVs
  let b := conversationVectorTlvs dr p pkt b
  -- DRCP State TLV
  let b :=
    { b with
      drcp :=
        { b.drcp with
          State :=
            { TlvTypeLength :=
                (b.drcp.State.TlvTypeLength.SetTlv DRCPTLVTypeDRCPState).SetLength
                  DRCPTLVStateLength
              State := p.DRFHomeOperDRCPState } }
      pktLength := u32 (b.pktLength + u32 (u32 DRCPTLVStateLength + u32 DRCPTlvAndLengthSize)) }
  -- Home Ports Info TLV
  let homePortsInfo : DRCPHomePortsInfoTlv :=
    { TlvTypeLength := DRCPTlvTypeLength.zero.SetTlv DRCPTLVTypeHomePortsInfo
      AdminAggKey := dr.DRFHomeAdminAggregatorKey
      OperPartnerAggKey := dr.DRFHomeOperAggregatorKey
      ActiveHomePorts := [] }
  -- length is determine by the number of active ports + 6
  let homePortsInfoLength := 4
  let homePortsInfo :=
    { homePortsInfo with
      ActiveHomePorts := activeHomePorts env dr homePortsInfo.ActiveHomePorts }
  let homePortsInfoLength := homePortsInfoLength + homePortsInfo.ActiveHomePorts.length
  let homePortsInfo :=
    { homePortsInfo with
      TlvTypeLength := homePortsInfo.TlvTypeLength.SetLength homePortsInfoLength }
  let b :=
    { b with
      drcp := { b.drcp with HomePortsInfo := homePortsInfo }
      pktLength := u32 (b.pktLength + u32 (u32 homePortsInfoLength + u32 DRCPTlvAndLengthSize)) }
  -- MTU check
  let portMtu := env.PortMtu p.Id
  let p :=
    if (p.HomeGatewayVectorTransmit || p.OtherGatewayVectorTransmit) &&
        decide (b.pktLength < portMtu) then
      -- TODO: nothing is added
      p
    else if (p.HomeGatewayVectorTransmit || p.OtherGatewayVectorTransmit) &&
        decide (b.pktLength > portMtu) then
      DrcpTxmLog p (DrcpLogEntry.oversize b.pktLength portMtu)
    else
      p
  -- Network/IPL sharing TLVs
  let b :=
    if p.DRFHomeNetworkIPLSharingMethod != [0, 0, 0, 0] then
      let b :=
        { b with
          drcp :=
            { b.drcp with
              NetworkIPLMethod :=
                { TlvTypeLength :=
                    (b.drcp.NetworkIPLMethod.TlvTypeLength.SetTlv
                      DRCPTLVNetworkIPLSharingMethod).SetLength
                      DRCPTLVNetworkIPLSharingMethodLength
                  Method := p.DRFHomeNetworkIPLSharingMethod } }
          pktLength :=
            u32 (b.pktLength +
              u32 (u32 DRCPTLVNetworkIPLSharingMethodLength + u32 DRCPTlvAndLengthSize)) }
      { b with
        drcp :=
          { b.drcp with
            NetworkIPLEncapsulation :=
              { TlvTypeLength :=
                  (b.drcp.NetworkIPLEncapsulation.TlvTypeLength.SetTlv
                    DRCPTLVNetworkIPLSharingEncapsulation).SetLength
                    DRCPTLVNetworkIPLSharingEncapsulationLength
                IplEncapDigest :=
                  (List.range 16).map (fun i => p.DRFHomeNetworkIPLIPLEncapDigest.getD i 0)
                NetEncapDigest :=
                  (List.range 16).map
                    (fun i => p.DRFHomeNetworkIPLIPLNetEncapDigest.getD i 0) } }
        pktLength :=
          u32 (b.pktLength +
            u32 (u32 DRCPTLVNetworkIPLSharingEncapsulationLength + u32 DRCPTlvAndLengthSize)) }
    else
      b
  -- Terminator TLV
  let b :=
    { b with
      drcp :=
        { b.drcp with
          Terminator :=
            { TlvTypeLength :=
                (b.drcp.Terminator.TlvTypeLength.SetTlv DRCPTLVTypeTerminator).SetLength
                  DRCPTLVTerminatorLength } } }
  -- TODO transmit the packet(s)
  { p with txBuilt := p.txBuilt ++ [b] }

/-- Go `DrcpTxMachineOn`: entry action of On. -/
def DrcpTxMachineOn (env : DrcpEnv) (dr : DistributedRelay) (p : DRCPIpp) : DRCPIpp × Nat :=
  -- NTT must be set to tx
  let p :=
    if p.NTTDRCPDU && p.DRCPEnabled then
      let numPkts := 1
      let numPkts :=
        if p.GatewayConversationTransmit && p.PortConversationTransmit &&
            !dr.DrniCommonMethods then 2 else numPkts
      (List.range numPkts).foldl (fun p pkt => DrcpTxMachineOnPkt env dr p pkt) p
    else
      p
  -- Clear NTT
  let p := { p with NTTDRCPDU := false }
  (p, TxmStateOn)

/-- Go `DrcpTxMachineOff`: entry action of Off. -/
def DrcpTxMachineOff (_env : DrcpEnv) (_dr : DistributedRelay) (p : DRCPIpp) : DRCPIpp × Nat :=
  let p := { p with NTTDRCPDU := false }
  (p, TxmStateOff)

/-! ## Rule table and main loop -/

/-- Callback of a transmit machine rule, acting on the IPP the machine
belongs to. -/
abbrev TxCallback := DrcpEnv → DistributedRelay → DRCPIpp → DRCPIpp × Nat

/-- Modelled from the spec: `fsm.Ruleset` (package `utils/fsm`) is missing; a
rules table mapping (state, event) to a callback, most recent rule first. -/
abbrev TxRuleset := List ((Nat × Nat) × TxCallback)

/-- Modelled from the spec: `Ruleset.AddRule` is missing; it stores the
callback under the key (state, event). -/
def TxRuleset.AddRule (rules : TxRuleset) (s e : Nat) (cb : TxCallback) : TxRuleset :=
  ((s, e), cb) :: rules

/-- Lookup of the callback stored under (state, event). -/
def TxRuleset.find (rules : TxRuleset) (s e : Nat) : Option TxCallback :=
  match rules with
  | [] => none
  | (k, cb) :: rest => if k = (s, e) then some cb else TxRuleset.find rest s e

/-- Go `DrcpTxMachineFSMBuild`: the rules of the transmit machine, in source
order. -/
def DrcpTxMachineRules : TxRuleset :=
  let rules : TxRuleset := []
  -- BEGIN -> TX OFF
  let rules := rules.AddRule TxmStateNone TxmEventBegin DrcpTxMachineOff
  let rules := rules.AddRule TxmStateOn TxmEventBegin DrcpTxMachineOff
  let rules := rules.AddRule TxmStateOff TxmEventBegin DrcpTxMachineOff
  -- NTT -> TX ON
  let rules := rules.AddRule TxmStateOff TxmEventNtt DrcpTxMachineOn
  -- UNCONDITIONAL -> TX OFF
  let rules := rules.AddRule TxmStateOn TxmEventUnconditionalFallThrough DrcpTxMachineOff
  rules

/-- Modelled from the spec: `fsm.Machine.ProcessEvent` (package `utils/fsm`) is
missing; when the rules hold a callback for the current state and the event it
is run and the state it returns becomes the current state, otherwise the
machine is left as it is and an error is returned. -/
def TxProcessEvent (env : DrcpEnv) (dr : DistributedRelay) (p : DRCPIpp) (e : Nat) :
    DRCPIpp × Lacp.FsmOutcome :=
  match DrcpTxMachineRules.find p.TxMachineFsm.state e with
  | none => (p, Lacp.FsmOutcome.invalidTransition)
  | some cb =>
    match cb env dr p with
    | (p, next) =>
      ({ p with TxMachineFsm := { p.TxMachineFsm with state := next } },
        Lacp.FsmOutcome.transitioned)

/-- Modelled from the spec: the declaration of `utils.MachineEvent` is missing;
the transmit machine reads the event `E`, its source `Src` and whether a
response channel is attached. -/
structure MachineEvent where
  E : Nat
  Src : String
  ResponseChan : Bool
deriving DecidableEq, Repr

/-- Go `TxMachineMain`, the body of the `select` arm for an event read from an
open `TxmEvents` channel: an Ntt event sets `NTTDRCPDU`, the event is
processed, and when that succeeded and left the machine in On the
unconditional fall-through is processed too; an error of the first
`ProcessEvent` is logged. The second component is the response sent on the
event's response channel, if any. -/
def TxMachineMainEvent (env : DrcpEnv) (dr : DistributedRelay) (p : DRCPIpp)
    (event : MachineEvent) : DRCPIpp × Option String :=
  let p := if event.E == TxmEventNtt then { p with NTTDRCPDU := true } else p
  match TxProcessEvent env dr p event.E with
  | (p, rv) =>
    let p :=
      if rv == Lacp.FsmOutcome.transitioned && p.TxMachineFsm.state == TxmStateOn then
        (TxProcessEvent env dr p TxmEventUnconditionalFallThrough).1
      else
        p
    let response := if event.ResponseChan then some TxMachineModuleStr else none
    let p :=
      if rv != Lacp.FsmOutcome.transitioned then
        DrcpTxmLog p (DrcpLogEntry.eventError event.Src p.TxMachineFsm.state event.E)
      else
        p
    (p, response)

/-! ## Concrete relays and IPPs used to evaluate the machine -/

/-- A relay with every field zero, empty conversation vectors and no
aggregator. -/
def zeroRelay : DistributedRelay :=
  { DrniAggregatorPriority := 0
    DrniAggregatorId := 0
    DrniPortalPriority := 0
    DrniPortalAddr := 0
    DrniPortalSystemNumber := 0
    DRFHomeAdminAggregatorKey := 0
    DRFHomeOperAggregatorKey := 0
    DRVHomePortAlgorithm := 0
    DRFHomeGatewayAlgorithm := 0
    DrniCommonMethods := false
    DrniThreeSystemPortal := false
    DrniPortalSystemGatewayConversation := fun _ => false
    DrniPortalSystemPortConversation := fun _ => false
    a := none
    GatewayConversationUpdate := false
    PortConversationUpdate := false
    IppAllGatewayUpdate := false
    IppAllPortUpdate := false
    DrniIntraPortalLinkList := []
    DrniGatewayConversation := fun _ => 0
    DrniPortConversation := fun _ => 0
    aDrniConvAdminGateway := fun _ => []
    DrniPortalSystemStateGatewayVector := fun _ _ => false
    GMachineFsm := { PreviousState := 1, state := 0 }
    AMachineFsm := { PreviousState := 1, state := 0 } }

/-- An IPP with every field zero and its transmit machine in Off. -/
def zeroIpp : DRCPIpp :=
  { Id := 1
    NTTDRCPDU := false
    DRCPEnabled := false
    GatewayConversationTransmit := false
    PortConversationTransmit := false
    HomeGatewayVectorTransmit := false
    OtherGatewayVectorTransmit := false
    DRCPDUsTX := 0
    DRFHomeOperDRCPState := 0
    DRFHomeNetworkIPLSharingMethod := [0, 0, 0, 0]
    DRFHomeNetworkIPLIPLEncapDigest := List.replicate 16 0
    DRFHomeNetworkIPLIPLNetEncapDigest := List.replicate 16 0
    TxMachineFsm := { NewDrcpTxMachine with state := TxmStateOff }
    IppGatewayUpdate := false
    IppPortUpdate := false
    txBuilt := []
    log := [] }

/-- A platform in which the interface index of a port is the length of its
name and every port has the given MTU. -/
def envWithMtu (mtu : Nat) : DrcpEnv :=
  { GetIfIndexFromName := fun name => (name.length : Int)
    PortMtu := fun _ => mtu }

/-- An enabled IPP with a DRCPDU to send, in Off. -/
def readyIpp : DRCPIpp :=
  { zeroIpp with NTTDRCPDU := true, DRCPEnabled := true }

/-- An enabled IPP with a DRCPDU to send whose gateway vector transmit flag
makes the machine compare the length with the MTU. -/
def readyIppWithGatewayVector : DRCPIpp :=
  { readyIpp with HomeGatewayVectorTransmit := true }

/-- A two-system relay that transmits its own conversation vectors
(`DrniCommonMethods` false), attached to an aggregator with one distributing
port named "p1". -/
def relayWithOnePort : DistributedRelay :=
  { zeroRelay with a := some { DistributedPortNumList := ["p1"] } }

/-- A conversation vector in which conversations 0 and 1 are enabled. -/
def convZeroAndOne : Nat → Bool := fun c => c == 0 || c == 1

/-- A conversation vector in which only conversation 1 is enabled. -/
def convOneOnly : Nat → Bool := fun c => c == 1

/-- A conversation vector in which only conversation 3000 is enabled. -/
def convThreeThousand : Nat → Bool := fun c => c == 3000

/-- A two-system relay whose port conversation vector has conversations 0 and
1 enabled. -/
def relayWithPortConversations : DistributedRelay :=
  { zeroRelay with DrniPortalSystemPortConversation := convZeroAndOne }

/-- An IPP that transmits the port conversation vector only. -/
def portVectorIpp : DRCPIpp :=
  { readyIpp with PortConversationTransmit := true }

/-- The DRCPDU as `DrcpTxMachineOn` has built it when it compares the packet
length with the port MTU (source lines 141-325): Ethernet header, Portal Info,
Portal Configuration Info, conversation vector, DRCP State and Home Ports Info
TLVs; the Network/IPL sharing TLVs and the Terminator are added after the
comparison. -/
def DrcpTxMachineOnPktAtMtuCheck (env : DrcpEnv) (dr : DistributedRelay) (p : DRCPIpp)
    (pkt : Nat) : BuiltDRCPDU :=
  -- Ethernet + ethertype
  let b : BuiltDRCPDU := { drcp := DRCP.zero, pktLength := u32 14 }
  -- Portal Info TLV
  let b :=
    { b with
      drcp :=
        { b.drcp with
          PortalInfo :=
            { TlvTypeLength :=
                (DRCPTlvTypeLength.zero.SetTlv DRCPTLVTypePortalInfo).SetLength
                  DRCPTLVPortalInfoLength
              AggPriority := dr.DrniAggregatorPriority
              AggId := dr.DrniAggregatorId
              PortalPriority := dr.DrniPortalPriority
              PortalAddr := dr.DrniPortalAddr } }
      pktLength := u32 (b.pktLength + u32 (u32 DRCPTLVPortalInfoLength + u32 DRCPTlvAndLengthSize)) }
  -- Portal Configuration Info TLV
  let b :=
    { b with
      drcp :=
        { b.drcp with
          PortalConfigInfo :=
            { TlvTypeLength :=
                (DRCPTlvTypeLength.zero.SetTlv DRCPTLVTypePortalConfigInfo).SetLength
                  DRCPTLVPortalConfigurationInfoLength
              TopologyStatePortalSystemNum := dr.DrniPortalSystemNumber
              OperAggKey := dr.DRFHomeOperAggregatorKey
              PortAlgorithm := dr.DRVHomePortAlgorithm
              GatewayAlgorithm := dr.DRFHomeGatewayAlgorithm } }
      pktLength :=
        u32 (b.pktLength +
          u32 (u32 DRCPTLVPortalConfigurationInfoLength + u32 DRCPTlvAndLengthSize)) }
  -- conversation vector TLVs
  let b := conversationVectorTlvs dr p pkt b
  -- DRCP State TLV
  let b :=
    { b with
      drcp :=
        { b.drcp with
          State :=
            { TlvTypeLength :=
                (b.drcp.State.TlvTypeLength.SetTlv DRCPTLVTypeDRCPState).SetLength
                  DRCPTLVStateLength
              State := p.DRFHomeOperDRCPState } }
      pktLength := u32 (b.pktLength + u32 (u32 DRCPTLVStateLength + u32 DRCPTlvAndLengthSize)) }
  -- Home Ports Info TLV
  let homePortsInfo : DRCPHomePortsInfoTlv :=
    { TlvTypeLength := DRCPTlvTypeLength.zero.SetTlv DRCPTLVTypeHomePortsInfo
      AdminAggKey := dr.DRFHomeAdminAggregatorKey
      OperPartnerAggKey := dr.DRFHomeOperAggregatorKey
      ActiveHomePorts := [] }
  let homePortsInfoLength := 4
  let homePortsInfo :=
    { homePortsInfo with
      ActiveHomePorts := activeHomePorts env dr homePortsInfo.ActiveHomePorts }
  let homePortsInfoLength := homePortsInfoLength + homePortsInfo.ActiveHomePorts.length
  let homePortsInfo :=
    { homePortsInfo with
      TlvTypeLength := homePortsInfo.TlvTypeLength.SetLength homePortsInfoLength }
  { b with
    drcp := { b.drcp with HomePortsInfo := homePortsInfo }
    pktLength := u32 (b.pktLength + u32 (u32 homePortsInfoLength + u32 DRCPTlvAndLengthSize)) }

/-- An enabled IPP that compares the length with the MTU and shares the IPL
with the network (sharing method 0.0.0.1), so that the Network/IPL sharing
TLVs are added. -/
def iplSharingIpp : DRCPIpp :=
  { readyIppWithGatewayVector with DRFHomeNetworkIPLSharingMethod := [0, 0, 0, 1] }

/-- A three-system portal with `DrniCommonMethods` false. -/
def threeSystemRelay : DistributedRelay :=
  { zeroRelay with DrniThreeSystemPortal := true }

/-- An enabled IPP that transmits both conversation vectors. -/
def bothVectorsIpp : DRCPIpp :=
  { readyIpp with GatewayConversationTransmit := true, PortConversationTransmit := true }

/-! # DRNI Gateway and Aggregator machines (`protocol/drcp/gatwaymachine.go`,
`protocol/drcp/aggregatormachine.go`)

Both files refer to names that are declared nowhere in them (`dr`, `rxm`,
`ippid` in `setIPPPortUpdate`, the callback `DrcpAMachineDRNIPortUpdate`, which
is declared as `DrcpGMachineDRNIPortUpdate`); the embedding follows the
evident reading: `dr` is the relay the machine belongs to, and the rules of
the Aggregator machine use the callback declared under the other name. -/

def GMachineModuleStr : String := "DRNI Gateway Machine"
def AMachineModuleStr : String := "DRNI Aggregator Machine"

def GmStateNone : Nat := 1
def GmStateDRNIGatewayInitialize : Nat := 2
def GmStateDRNIGatewayUpdate : Nat := 3
def GmStatePsGatewayUpdate : Nat := 4

def GmEventBegin : Nat := 1
def GmEventGatewayConversationUpdate : Nat := 2
def GmEventNotIppAllGatewayUpdate : Nat := 3

def AmStateNone : Nat := 1
def AmStateDRNIPortInitialize : Nat := 2
def AmStateDRNIPortUpdate : Nat := 3
def AmStatePsPortUpdate : Nat := 4

def AmEventBegin : Nat := 1
def AmEventPortConversationUpdate : Nat := 2
def AmEventNotIppAllPortUpdate : Nat := 3

/-- Modelled from the spec: the declaration of `MAX_GATEWAY_CONVERSATION` is
missing; Conversation IDs are 12 bits wide (0..4095). -/
def MAX_GATEWAY_CONVERSATION : Nat := 4096

/-- Go `NewDrcpGMachine`. -/
def NewDrcpGMachine : GMachine :=
  { PreviousState := GmStateNone, state := 0 }

/-- Go `NewDrcpAMachine`. -/
def NewDrcpAMachine : AMachine :=
  { PreviousState := AmStateNone, state := 0 }

/-- Modelled from the spec: the declaration of the package-level
`DRCPIppDBList` is missing; it enumerates all IPPs, held by pointer, so that an
assignment to an IPP in a `range` loop changes the IPP in the list. What the
Gateway and Aggregator machines act on: the relay `dr` they belong to, that
list, and the debug log. -/
structure RelaySystem where
  dr : DistributedRelay
  DRCPIppDBList : List DRCPIpp
  log : List DrcpLogEntry

/-- Go `DrcpGmLog`. -/
def DrcpGmLog (s : RelaySystem) (entry : DrcpLogEntry) : RelaySystem :=
  { s with log := s.log ++ [entry] }

/-- Go `DrcpAmLog`. -/
def DrcpAmLog (s : RelaySystem) (entry : DrcpLogEntry) : RelaySystem :=
  { s with log := s.log ++ [entry] }

/-- The loop `for i := 0; i < MAX_GATEWAY_CONVERSATION; i++ { vector[i] = false }`
at index `i` with `n` passes left. -/
def clearConversationLoop : Nat → Nat → (Nat → Bool) → (Nat → Bool)
  | 0, _, vector => vector
  | n + 1, i, vector =>
    clearConversationLoop n (i + 1) (fun c => if c = i then false else vector c)

/-! ## gatwaymachine.go -/

/-- Go `IppAllGatewayUpdateCheck`: sets `dr.IppAllGatewayUpdate` when an IPP of
the intra-portal link list has `IppGatewayUpdate` set, and returns
`dr.IppAllGatewayUpdate`. -/
def IppAllGatewayUpdateCheck (s : RelaySystem) : RelaySystem × Bool :=
  let dr :=
    s.dr.DrniIntraPortalLinkList.foldl
      (fun dr ippid =>
        s.DRCPIppDBList.foldl
          (fun dr ipp =>
            if ipp.Id == ippid then
              if ipp.IppGatewayUpdate then
                { dr with IppAllGatewayUpdate := true }
              else
                dr
            else
              dr)
          dr)
      s.dr
  ({ s with dr := dr }, dr.IppAllGatewayUpdate)

/-- Go `initializeDRNIGatewayConversation`. -/
def initializeDRNIGatewayConversation (s : RelaySystem) : RelaySystem :=
  { s with
    dr :=
      { s.dr with
        DrniPortalSystemGatewayConversation :=
          clearConversationLoop MAX_GATEWAY_CONVERSATION 0
            s.dr.DrniPortalSystemGatewayConversation } }

/-- Go `GMachine.updatePortalState`: the body is a TODO comment. -/
def GMachine_updatePortalState (s : RelaySystem) : RelaySystem :=
  -- TODO need to understand the logic better
  s

/-- Go `setIPPGatewayUpdate`. -/
def setIPPGatewayUpdate (s : RelaySystem) : RelaySystem :=
  { s with
    DRCPIppDBList :=
      s.dr.DrniIntraPortalLinkList.foldl
        (fun db ippid =>
          db.map (fun ipp =>
            if ipp.Id == ippid then { ipp with IppGatewayUpdate := true } else ipp))
        s.DRCPIppDBList }

/-- Go `setGatewayConversation`: `for i := 0; i < 4096; i++ { }`, the body of
the loop being a TODO comment that describes the computation; with `n` passes
left. -/
def setGatewayConversationLoop : Nat → RelaySystem → RelaySystem
  | 0, s => s
  | n + 1, s =>
    -- TODO
    setGatewayConversationLoop n s

/-- Go `setGatewayConversation`. -/
def setGatewayConversation (s : RelaySystem) : RelaySystem :=
  setGatewayConversationLoop 4096 s

/-- Go `updatePortalSystemGatewayConversation`: the whole body is commented
out. -/
def updatePortalSystemGatewayConversation (s : RelaySystem) : RelaySystem :=
  s

/-- Callback of a Gateway or Aggregator machine rule. -/
abbrev RelayCallback := RelaySystem → RelaySystem × Nat

/-- Go `DrcpGMachineDRNIGatewayInitialize`: entry action of
DRNI_GATEWAY_INITIALIZE. -/
def DrcpGMachineDRNIGatewayInitialize (s : RelaySystem) : RelaySystem × Nat :=
  let s := initializeDRNIGatewayConversation s
  let s := { s with dr := { s.dr with GatewayConversationUpdate := false } }
  (s, GmStateDRNIGatewayInitialize)

/-- Go `DrcpGMachineDRNIGatewayUpdate`: entry action of DRNI_GATEWAY_UPDATE. -/
def DrcpGMachineDRNIGatewayUpdate (s : RelaySystem) : RelaySystem × Nat :=
  let s := { s with dr := { s.dr with GatewayConversationUpdate := false } }
  let s := GMachine_updatePortalState s
  let s := setIPPGatewayUpdate s
  let s := setGatewayConversation s
  -- next State
  (s, GmStateDRNIGatewayUpdate)

/-- Go `DrcpGMachinePSGatewayUpdate`: entry action of PS_GATEWAY_UPDATE. -/
def DrcpGMachinePSGatewayUpdate (s : RelaySystem) : RelaySystem × Nat :=
  let s := updatePortalSystemGatewayConversation s
  -- next State
  (s, GmStateDRNIGatewayUpdate)

/-- Modelled from the spec: `fsm.Ruleset` (package `utils/fsm`) is missing; a
rules table mapping (state, event) to a callback, most recent rule first. -/
abbrev RelayRuleset := List ((Nat × Nat) × RelayCallback)

/-- Modelled from the spec: `Ruleset.AddRule` is missing; it stores the
callback under the key (state, event). -/
def RelayRuleset.AddRule (rules : RelayRuleset) (s e : Nat) (cb : RelayCallback) :
    RelayRuleset :=
  ((s, e), cb) :: rules

/-- Lookup of the callback stored under (state, event). -/
def RelayRuleset.find (rules : RelayRuleset) (s e : Nat) : Option RelayCallback :=
  match rules with
  | [] => none
  | (k, cb) :: rest => if k = (s, e) then some cb else RelayRuleset.find rest s e

/-- Go `DrcpGMachineFSMBuild`: the rules of the Gateway machine, in source
order. -/
def DrcpGMachineRules : RelayRuleset :=
  let rules : RelayRuleset := []
  -- BEGIN -> DRNI GATEWAY INITIALIZE
  let rules := rules.AddRule GmStateNone GmEventBegin DrcpGMachineDRNIGatewayInitialize
  let rules := rules.AddRule GmStateDRNIGatewayUpdate GmEventBegin
    DrcpGMachineDRNIGatewayInitialize
  let rules := rules.AddRule GmStatePsGatewayUpdate GmEventBegin
    DrcpGMachineDRNIGatewayInitialize
  -- GATEWAY CONVERSATION UPDATE  > DRNI GATEWAY UPDATE
  let rules := rules.AddRule GmStateDRNIGatewayInitialize GmEventGatewayConversationUpdate
    DrcpGMachineDRNIGatewayUpdate
  let rules := rules.AddRule GmStateDRNIGatewayUpdate GmEventGatewayConversationUpdate
    DrcpGMachineDRNIGatewayUpdate
  let rules := rules.AddRule GmStatePsGatewayUpdate GmEventGatewayConversationUpdate
    DrcpGMachineDRNIGatewayUpdate
  -- NOT IPP ALL GATEWAY UPDATE  > PS GATEWAY UPDATE
  let rules := rules.AddRule GmStateDRNIGatewayUpdate GmEventNotIppAllGatewayUpdate
    DrcpGMachinePSGatewayUpdate
  rules

/-- Modelled from the spec: `fsm.Machine.ProcessEvent` (package `utils/fsm`) is
missing; when the rules hold a callback for the current state and the event it
is run and the state it returns becomes the current state, otherwise the
machine is left as it is and an error is returned. -/
def GProcessEvent (s : RelaySystem) (e : Nat) : RelaySystem × Lacp.FsmOutcome :=
  match DrcpGMachineRules.find s.dr.GMachineFsm.state e with
  | none => (s, Lacp.FsmOutcome.invalidTransition)
  | some cb =>
    match cb s with
    | (s, next) =>
      ({ s with dr := { s.dr with GMachineFsm := { s.dr.GMachineFsm with state := next } } },
        Lacp.FsmOutcome.transitioned)

/-- Go `DrcpGMachineMain`, the body of the `select` arm for an event read from
an open `GmEvents` channel: the event is processed; when that succeeded and
`GatewayConversationUpdate` is set the update event is processed; when nothing
failed, the machine is in DRNI_GATEWAY_UPDATE and `IppAllGatewayUpdateCheck`
answers false, the not-all-updated event is processed; an error is logged. The
second component is the response sent on the event's response channel, if
any. -/
def GMachineMainEvent (s : RelaySystem) (event : MachineEvent) : RelaySystem × Option String :=
  match GProcessEvent s event.E with
  | (s, rv) =>
    -- post state processing
    match (if rv == Lacp.FsmOutcome.transitioned && s.dr.GatewayConversationUpdate then
        GProcessEvent s GmEventGatewayConversationUpdate
      else (s, rv)) with
    | (s, rv) =>
      match (if rv == Lacp.FsmOutcome.transitioned &&
            s.dr.GMachineFsm.state == GmStateDRNIGatewayUpdate then
          match IppAllGatewayUpdateCheck s with
          | (s, all) =>
            if !all then GProcessEvent s GmEventNotIppAllGatewayUpdate else (s, rv)
        else (s, rv)) with
      | (s, rv) =>
        let s :=
          if rv != Lacp.FsmOutcome.transitioned then
            DrcpGmLog s (DrcpLogEntry.eventError event.Src s.dr.GMachineFsm.state event.E)
          else
            s
        let response := if event.ResponseChan then some GMachineModuleStr else none
        (s, response)

/-! ## aggregatormachine.go -/

/-- Go `IppAllPortUpdateCheck`: sets `dr.IppAllPortUpdate` when an IPP of the
intra-portal link list has `IppPortUpdate` set, and returns
`dr.IppAllPortUpdate`. -/
def IppAllPortUpdateCheck (s : RelaySystem) : RelaySystem × Bool :=
  let dr :=
    s.dr.DrniIntraPortalLinkList.foldl
      (fun dr ippid =>
        s.DRCPIppDBList.foldl
          (fun dr ipp =>
            if ipp.Id == ippid then
              if ipp.IppPortUpdate then
                { dr with IppAllPortUpdate := true }
              else
                dr
            else
              dr)
          dr)
      s.dr
  ({ s with dr := dr }, dr.IppAllPortUpdate)

/-- Go `initializeDRNIPortConversation`. -/
def initializeDRNIPortConversation (s : RelaySystem) : RelaySystem :=
  { s with
    dr :=
      { s.dr with
        DrniPortalSystemPortConversation :=
          clearConversationLoop MAX_GATEWAY_CONVERSATION 0
            s.dr.DrniPortalSystemPortConversation } }

/-- Go `AMachine.updatePortalState`: the body is a TODO comment. -/
def AMachine_updatePortalState (s : RelaySystem) : RelaySystem :=
  -- TODO need to understand the logic better
  s

/-- Go `setIPPPortUpdate` (the loop variable is named `ipplink` and the
comparison reads `ippid`). -/
def setIPPPortUpdate (s : RelaySystem) : RelaySystem :=
  { s with
    DRCPIppDBList :=
      s.dr.DrniIntraPortalLinkList.foldl
        (fun db ippid =>
          db.map (fun ipp =>
            if ipp.Id == ippid then { ipp with IppPortUpdate := true } else ipp))
        s.DRCPIppDBList }

/-- Go `setPortConversation`: `for i := 0; i < 4096; i++ { }`, the body of the
loop being a TODO comment; with `n` passes left. -/
def setPortConversationLoop : Nat → RelaySystem → RelaySystem
  | 0, s => s
  | n + 1, s =>
    -- TODO
    setPortConversationLoop n s

/-- Go `setPortConversation`. -/
def setPortConversation (s : RelaySystem) : RelaySystem :=
  setPortConversationLoop 4096 s

/-- Go `updatePortalSystemPortConversation`: the whole body is commented out. -/
def updatePortalSystemPortConversation (s : RelaySystem) : RelaySystem :=
  s

/-- Go `DrcpAMachineDRNIPortInitialize`: entry action of DRNI_PORT_INITIALIZE. -/
def DrcpAMachineDRNIPortInitialize (s : RelaySystem) : RelaySystem × Nat :=
  let s := initializeDRNIPortConversation s
  let s := { s with dr := { s.dr with PortConversationUpdate := false } }
  (s, AmStateDRNIPortInitialize)

/-- Go `DrcpAMachineDRNIPortUpdate` (declared as `DrcpGMachineDRNIPortUpdate`
on `*AMachine`): entry action of DRNI_PORT_UPDATE. -/
def DrcpAMachineDRNIPortUpdate (s : RelaySystem) : RelaySystem × Nat :=
  let s := { s with dr := { s.dr with PortConversationUpdate := false } }
  let s := AMachine_updatePortalState s
  let s := setIPPPortUpdate s
  let s := setPortConversation s
  -- next State
  (s, AmStateDRNIPortUpdate)

/-- Go `DrcpAMachinePSPortUpdate`: entry action of PS_PORT_UPDATE. -/
def DrcpAMachinePSPortUpdate (s : RelaySystem) : RelaySystem × Nat :=
  let s := updatePortalSystemPortConversation s
  -- next State
  (s, AmStateDRNIPortUpdate)

/-- Go `DrcpAMachineFSMBuild`: the rules of the Aggregator machine, in source
order. -/
def DrcpAMachineRules : RelayRuleset :=
  let rules : RelayRuleset := []
  -- BEGIN -> DRNI PORT INITIALIZE
  let rules := rules.AddRule AmStateNone AmEventBegin DrcpAMachineDRNIPortInitialize
  let rules := rules.AddRule AmStateDRNIPortUpdate AmEventBegin DrcpAMachineDRNIPortInitialize
  let rules := rules.AddRule AmStatePsPortUpdate AmEventBegin DrcpAMachineDRNIPortInitialize
  -- PORT CONVERSATION UPDATE  > DRNI PORT UPDATE
  let rules := rules.AddRule AmStateDRNIPortInitialize AmEventPortConversationUpdate
    DrcpAMachineDRNIPortUpdate
  let rules := rules.AddRule AmStateDRNIPortUpdate AmEventPortConversationUpdate
    DrcpAMachineDRNIPortUpdate
  let rules := rules.AddRule AmStatePsPortUpdate AmEventPortConversationUpdate
    DrcpAMachineDRNIPortUpdate
  -- NOT IPP ALL GATEWAY UPDATE  > PS PORT UPDATE
  let rules := rules.AddRule AmStateDRNIPortUpdate AmEventNotIppAllPortUpdate
    DrcpAMachinePSPortUpdate
  rules

/-- Modelled from the spec: `fsm.Machine.ProcessEvent` (package `utils/fsm`) is
missing; as `GProcessEvent`, on the Aggregator machine. -/
def AProcessEvent (s : RelaySystem) (e : Nat) : RelaySystem × Lacp.FsmOutcome :=
  match DrcpAMachineRules.find s.dr.AMachineFsm.state e with
  | none => (s, Lacp.FsmOutcome.invalidTransition)
  | some cb =>
    match cb s with
    | (s, next) =>
      ({ s with dr := { s.dr with AMachineFsm := { s.dr.AMachineFsm with state := next } } },
        Lacp.FsmOutcome.transitioned)

/-- Go `DrcpAMachineMain`, the body of the `select` arm for an event read from
an open `AmEvents` channel; as `GMachineMainEvent`, with
`PortConversationUpdate`, DRNI_PORT_UPDATE and `IppAllPortUpdateCheck`. -/
def AMachineMainEvent (s : RelaySystem) (event : MachineEvent) : RelaySystem × Option String :=
  match AProcessEvent s event.E with
  | (s, rv) =>
    -- post state processing
    match (if rv == Lacp.FsmOutcome.transitioned && s.dr.PortConversationUpdate then
        AProcessEvent s AmEventPortConversationUpdate
      else (s, rv)) with
    | (s, rv) =>
      match (if rv == Lacp.FsmOutcome.transitioned &&
            s.dr.AMachineFsm.state == AmStateDRNIPortUpdate then
          match IppAllPortUpdateCheck s with
          | (s, all) =>
            if !all then AProcessEvent s AmEventNotIppAllPortUpdate else (s, rv)
        else (s, rv)) with
      | (s, rv) =>
        let s :=
          if rv != Lacp.FsmOutcome.transitioned then
            DrcpAmLog s (DrcpLogEntry.eventError event.Src s.dr.AMachineFsm.state event.E)
          else
            s
        let response := if event.ResponseChan then some AMachineModuleStr else none
        (s, response)

/-! ## The specification's Gateway Conversation -/

/-- Specification side of `setGatewayConversation`: the Portal System Number
chosen for Conversation ID `c`, the first (highest priority) entry of
`aDrniConvAdminGateway[c]` among the Portal Systems whose Gateway Vector in
`DrniPortalSystemState` has `c` enabled; 0 when there is none. -/
def specGatewayConversation (dr : DistributedRelay) (c : Nat) : Nat :=
  ((dr.aDrniConvAdminGateway c).find? (fun n => dr.DrniPortalSystemStateGatewayVector n c)).getD 0

/-! ## Concrete relays and IPP lists used to evaluate the two machines -/

/-- The IPP with the given id, everything else zero. -/
def ippWithId (id : Nat) : DRCPIpp :=
  { zeroIpp with Id := id }

/-- A relay whose intra-portal links are IPPs 1 and 2, in a package with IPPs
1, 2 and 3, none of them with an update flag set; both machines in None. -/
def twoLinkSystem : RelaySystem :=
  { dr :=
      { zeroRelay with
        DrniIntraPortalLinkList := [1, 2]
        GMachineFsm := { NewDrcpGMachine with state := GmStateNone }
        AMachineFsm := { NewDrcpAMachine with state := AmStateNone } }
    DRCPIppDBList := [ippWithId 1, ippWithId 2, ippWithId 3]
    log := [] }

/-- As `twoLinkSystem`, with every entry of both Portal System conversation
vectors true and both update flags of the relay set. -/
def dirtySystem : RelaySystem :=
  { twoLinkSystem with
    dr :=
      { twoLinkSystem.dr with
        DrniPortalSystemGatewayConversation := fun _ => true
        DrniPortalSystemPortConversation := fun _ => true
        GatewayConversationUpdate := true
        PortConversationUpdate := true } }

/-- As `twoLinkSystem`, with both machines in their Update state and
`IppAllGatewayUpdate`, `IppAllPortUpdate` false. -/
def updateStateSystem : RelaySystem :=
  { twoLinkSystem with
    dr :=
      { twoLinkSystem.dr with
        GMachineFsm := { NewDrcpGMachine with state := GmStateDRNIGatewayUpdate }
        AMachineFsm := { NewDrcpAMachine with state := AmStateDRNIPortUpdate } } }

/-- As `twoLinkSystem`, with `IppAllGatewayUpdate` and `IppAllPortUpdate` left
true by an earlier check; no IPP has an update flag set. -/
def staleAllUpdateSystem : RelaySystem :=
  { twoLinkSystem with
    dr := { twoLinkSystem.dr with IppAllGatewayUpdate := true, IppAllPortUpdate := true } }

/-- A two-system portal with `aDrniConvAdminGateway[100] = [1, 2]`, the
Gateway Vector of Portal System 1 enabling Conversation ID 100 and that of
Portal System 2 not; `Drni_Gateway_Conversation` is all zero. -/
def convAdminSystemOne : RelaySystem :=
  { twoLinkSystem with
    dr :=
      { twoLinkSystem.dr with
        aDrniConvAdminGateway := fun c => if c == 100 then [1, 2] else []
        DrniPortalSystemStateGatewayVector := fun n c => n == 1 && c == 100
        GatewayConversationUpdate := true
        GMachineFsm := { NewDrcpGMachine with state := GmStateDRNIGatewayInitialize } } }

/-- As `convAdminSystemOne`, with the Gateway Vector of Portal System 2
enabling Conversation ID 100 and that of Portal System 1 not. -/
def convAdminSystemTwo : RelaySystem :=
  { convAdminSystemOne with
    dr :=
      { convAdminSystemOne.dr with
        DrniPortalSystemStateGatewayVector := fun n c => n == 2 && c == 100 } }

end Drcp

/-! # Theorems -/

namespace Lacp

/-! ## Helper lemmas -/

/-- Masking with a single bit gives zero or that bit. -/
theorem land_two_pow_cases (a k : Nat) : a &&& 2 ^ k = 0 ∨ a &&& 2 ^ k = 2 ^ k := by
  by_cases h : a.testBit k
  · right
    apply Nat.eq_of_testBit_eq
    intro i
    by_cases hi : k = i
    · subst hi; simp [h]
    · simp [Nat.testBit_two_pow, hi]
  · left
    apply Nat.eq_of_testBit_eq
    intro i
    by_cases hi : k = i
    · subst hi; simp [h]
    · simp [Nat.testBit_two_pow, hi]

/-- Two bytes agree under a single-bit mask exactly when `LacpStateIsSet`
gives the same answer for that bit on both. -/
theorem land_two_pow_eq_iff (a b k : Nat) :
    a &&& 2 ^ k = b &&& 2 ^ k ↔ LacpStateIsSet a (2 ^ k) = LacpStateIsSet b (2 ^ k) := by
  have hpos : 0 < 2 ^ k := Nat.two_pow_pos k
  unfold LacpStateIsSet
  rcases land_two_pow_cases a k with ha | ha <;> rcases land_two_pow_cases b k with hb | hb
  all_goals simp [ha, hb]
  all_goals omega

/-- The unused value of a state-bit helper call leaves the port as it is. -/
theorem recordPDU_eq (p : LaAggPort) (lacpPduInfo : LacpPdu) :
    recordPDU p lacpPduInfo = { p with partnerOper := lacpPduInfo.actor.info } := by
  unfold recordPDU LacpCopyLacpPortInfo
  simp only []
  split <;> rfl

theorem recordDefault_eq (p : LaAggPort) :
    recordDefault p = { p with partnerOper := p.partnerAdmin } := by
  rfl

/-- The exit condition of NO PERIODIC never holds: with `lacpEnabled = true`
passed as `lacpDisabled`, `LacpModeGet` answers `LacpModeOn`. -/
theorem LacpPtxIsNoPeriodicExitCondition_eq_false (p : LaAggPort) :
    LacpPtxIsNoPeriodicExitCondition p = false := by
  unfold LacpPtxIsNoPeriodicExitCondition
  cases h : p.lacpEnabled <;> simp [LacpModeGet, LacpModeOn, LacpModeActive]

/-- What `updateSelected` does to `aggSelected`. -/
theorem updateSelected_aggSelected (p : LaAggPort) (lacpPduInfo : LacpPdu) :
    (updateSelected p lacpPduInfo).aggSelected =
      if LacpLacpPortInfoIsEqual lacpPduInfo.actor.info p.partnerOper LacpStateAggregationBit
          = true
      then p.aggSelected else LacpAggUnSelected := by
  unfold updateSelected
  by_cases h : LacpLacpPortInfoIsEqual lacpPduInfo.actor.info p.partnerOper
      LacpStateAggregationBit = true
  · simp [h]
  · simp only [h, if_false]
    simp only [Bool.not_eq_true] at h
    simp [h]

/-- The comparison on the Aggregation bit, field by field. -/
theorem LacpLacpPortInfoIsEqual_aggregation_iff (a b : LacpPortInfo) :
    LacpLacpPortInfoIsEqual a b LacpStateAggregationBit = true ↔
      (a.port = b.port ∧ a.portPri = b.portPri ∧ a.systemId = b.systemId ∧
        a.systemPriority = b.systemPriority ∧ a.key = b.key ∧
        LacpStateIsSet a.state LacpStateAggregationBit
          = LacpStateIsSet b.state LacpStateAggregationBit) := by
  have hbit := land_two_pow_eq_iff a.state b.state 2
  have h4 : LacpStateAggregationBit = 2 ^ 2 := by decide
  rw [h4]
  unfold LacpLacpPortInfoIsEqual
  simp only [Bool.and_eq_true, beq_iff_eq]
  rw [hbit]
  tauto

/-- Logging only touches the log. -/
theorem LacpRxmLog_eq (p : LaAggPort) (msg : String) :
    LacpRxmLog p msg =
      { p with log := if p.rxMachineFsm.logEna = true then p.log ++ [msg] else p.log } := by
  unfold LacpRxmLog
  split <;> rfl

/-- Processing an event for which the rule table holds a callback. -/
theorem RxProcessEvent_of_find {p : LaAggPort} {e : Nat} {cb : Callback}
    (data : Option LacpPdu) (hf : LacpRxMachineRules.find p.rxMachineFsm.state e = some cb) :
    RxProcessEvent p e data =
      match cb p data with
      | none => none
      | some (q, next) =>
        some ({ q with rxMachineFsm := { q.rxMachineFsm with state := next } },
              FsmOutcome.transitioned) := by
  unfold RxProcessEvent
  rw [hf]

/-- Processing an event for which the rule table holds no callback. -/
theorem RxProcessEvent_of_find_none {p : LaAggPort} {e : Nat}
    (data : Option LacpPdu) (hf : LacpRxMachineRules.find p.rxMachineFsm.state e = none) :
    RxProcessEvent p e data = some (p, FsmOutcome.invalidTransition) := by
  unfold RxProcessEvent
  rw [hf]

/-- The only states with a rule for the current-while expiry event are Current
and Expired. -/
theorem find_currentWhileTimerExpired_none (s : Nat) (hc : s ≠ LacpRxmStateCurrent)
    (he : s ≠ LacpRxmStateExpired) :
    LacpRxMachineRules.find s LacpRxmEventCurrentWhileTimerExpired = none := by
  have hc2 : ¬ (7 = s) := fun h => hc h.symm
  have he2 : ¬ (4 = s) := fun h => he h.symm
  simp only [LacpRxMachineRules, Ruleset.AddRule, Ruleset.find, Prod.mk.injEq, LacpRxmStateNone,
    LacpRxmStateInitialize, LacpRxmStatePortDisabled, LacpRxmStateExpired,
    LacpRxmStateLacpDisabled, LacpRxmStateDefaulted, LacpRxmStateCurrent,
    LacpRxmEventBegin, LacpRxmEventUnconditionalFallthrough,
    LacpRxmEventNotPortEnabledAndNotPortMoved, LacpRxmEventPortMoved,
    LacpRxmEventPortEnabledAndLacpEnabled, LacpRxmEventPortEnabledAndLacpDisabled,
    LacpRxmEventCurrentWhileTimerExpired, LacpRxmEventLacpEnabled, LacpRxmEventLacpPktRx]
  simp [hc2, he2]

/-- The main loop's event arm when the event has a rule that does not lead to
INITIALIZE. -/
theorem LacpRxMachineMainEvent_of_step {p q : LaAggPort} {e : Nat} {o : FsmOutcome}
    (hstep : RxProcessEvent p e none = some (q, o))
    (hs : q.rxMachineFsm.state ≠ LacpRxmStateInitialize) :
    LacpRxMachineMainEvent p e = some q := by
  unfold LacpRxMachineMainEvent
  rw [hstep]
  simp [hs]

/-! ## Periodic transmit machine: exit from NO PERIODIC -/

/-- C1: on a port whose periodic machine is in NoPeriodic with lacpEnabled and
portEnabled true and the Actor Activity bit set, the specification expects
`LacpPtxIsNoPeriodicExitCondition` to be true; the code answers false (it hands
`lacpEnabled` to the `lacpDisabled` parameter of `LacpModeGet`, which then
answers `LacpModeOn`), and an event processed in that state leaves the machine
in NoPeriodic instead of falling through to FastPeriodic. -/
theorem C1_exit_condition_false_on_active_port :
    activeNoPeriodicPort.PtxMachineFsm.state = LacpPtxmStateNoPeriodic ∧
    activeNoPeriodicPort.lacpEnabled = true ∧
    activeNoPeriodicPort.portEnabled = true ∧
    LacpStateIsSet activeNoPeriodicPort.actorOper.state LacpStateActivityBit = true ∧
    LacpModeGet activeNoPeriodicPort.actorOper.state activeNoPeriodicPort.lacpEnabled
      = LacpModeOn ∧
    LacpPtxIsNoPeriodicExitCondition activeNoPeriodicPort = false ∧
    (LacpPtxMachineMainEvent activeNoPeriodicPort
        { e := LacpPtxmEventPeriodicTimerExpired, src := "", responseChan := false }).map
      (fun r => r.1.PtxMachineFsm.state) = some LacpPtxmStateNoPeriodic := by
  decide

/-! ## Receive machine: sub-algorithms -/

/-- C2: `updateNTT` compares the PDU's Partner Info with the port's Partner
operational block, not with the Actor operational block: for a PDU whose
Partner Info equals the Actor operational info (on all fields and the four
compared state bits) it returns true, and for a PDU whose Partner Info differs
from the Actor operational info but repeats the recorded Partner it returns
false. -/
theorem C2_updateNTT_compares_with_partnerOper :
    (LacpLacpPortInfoIsEqual agreeingPdu.partner.info convergedPort.actorOper nttStateCompare
        = true ∧
      updateNTT convergedPort agreeingPdu = true) ∧
    (LacpLacpPortInfoIsEqual disagreeingPdu.partner.info convergedPort.actorOper nttStateCompare
        = false ∧
      updateNTT convergedPort disagreeingPdu = false) := by
  decide

/-- C3: after `recordPDU` the Partner operational Sync bit is the Sync bit of the
PDU's Actor state, whatever the matching condition says: for a PDU with Actor
Sync, Aggregation and Activity set whose Partner Info is not the local
information, conditions (1) and (2) both fail, yet the Partner Sync bit is set
after the call. -/
theorem C3_recordPDU_sync_set_though_condition_fails :
    LacpStateIsSet disagreeingPdu.actor.info.state LacpStateSyncBit = true ∧
    LacpStateIsSet disagreeingPdu.actor.info.state LacpStateAggregationBit = true ∧
    LacpStateIsSet disagreeingPdu.actor.info.state LacpStateActivityBit = true ∧
    LacpLacpPortInfoIsEqual disagreeingPdu.partner.info convergedPort.actorOper
      LacpStateAggregationBit = false ∧
    LacpStateIsSet (recordPDU convergedPort disagreeingPdu).partnerOper.state LacpStateSyncBit
      = true := by
  decide

/-- C4: `recordPDU` is idempotent on the Partner operational block (and on the
whole port record): applying it twice with the same LACPDU gives what applying
it once gives. -/
theorem C4_recordPDU_idempotent (p : LaAggPort) (X : LacpPdu) :
    (recordPDU (recordPDU p X) X).partnerOper = (recordPDU p X).partnerOper ∧
    recordPDU (recordPDU p X) X = recordPDU p X := by
  simp [recordPDU_eq]

/-- C5: entry to Current on an LACPDU always completes, and afterwards
`aggSelected` is Unselected when the PDU's Actor Info differs from the Partner
operational info held before the PDU was recorded on port number, port
priority, system id, system priority, key or the Aggregation bit, and is
unchanged when they agree on all six; the Partner operational block afterwards
is the PDU's Actor Info, so the comparison was made against the old values. -/
theorem C5_current_updateSelected_against_old_partner (p : LaAggPort) (pdu : LacpPdu) :
    ∃ q, LacpRxMachineCurrent p (some pdu) = some (q, LacpRxmStateCurrent) ∧
      q.partnerOper = pdu.actor.info ∧
      q.aggSelected =
        if pdu.actor.info.port = p.partnerOper.port ∧
           pdu.actor.info.portPri = p.partnerOper.portPri ∧
           pdu.actor.info.systemId = p.partnerOper.systemId ∧
           pdu.actor.info.systemPriority = p.partnerOper.systemPriority ∧
           pdu.actor.info.key = p.partnerOper.key ∧
           LacpStateIsSet pdu.actor.info.state LacpStateAggregationBit
             = LacpStateIsSet p.partnerOper.state LacpStateAggregationBit
        then p.aggSelected else LacpAggUnSelected := by
  have hlog : (LacpRxmLog p "RXM: Current Enter").partnerOper = p.partnerOper ∧
      (LacpRxmLog p "RXM: Current Enter").aggSelected = p.aggSelected := by
    unfold LacpRxmLog; split <;> simp
  refine ⟨_, rfl, ?_, ?_⟩
  · simp only [recordPDU_eq, CurrentWhileTimerStart]
    split <;> rfl
  · have hq : ∀ q0 : LaAggPort,
        (if (updateNTT q0 pdu == true) = true then
            { CurrentWhileTimerStart
                (recordPDU (if LacpActorSystemLacpVersion ≥ 2 then recordVersionNumber q0 pdu
                  else q0) pdu) with
              txMachineFsm :=
                { TxmEvents :=
                    (CurrentWhileTimerStart
                      (recordPDU (if LacpActorSystemLacpVersion ≥ 2 then
                        recordVersionNumber q0 pdu else q0) pdu)).txMachineFsm.TxmEvents
                      ++ [LacpTxmEventNtt] } }
          else
            CurrentWhileTimerStart
              (recordPDU (if LacpActorSystemLacpVersion ≥ 2 then recordVersionNumber q0 pdu
                else q0) pdu)).aggSelected = q0.aggSelected := by
      intro q0
      have hv : ¬ (LacpActorSystemLacpVersion ≥ 2) := by decide
      simp only [hv, if_false, recordPDU_eq, CurrentWhileTimerStart]
      split <;> rfl
    refine (hq _).trans ?_
    rw [updateSelected_aggSelected, hlog.1, hlog.2]
    by_cases h : LacpLacpPortInfoIsEqual pdu.actor.info p.partnerOper LacpStateAggregationBit = true
    · rw [if_pos h, if_pos ((LacpLacpPortInfoIsEqual_aggregation_iff _ _).1 h)]
    · rw [if_neg h, if_neg (fun hc => h ((LacpLacpPortInfoIsEqual_aggregation_iff _ _).2 hc))]

/-! ## Receive machine: entry actions and the current-while timer -/

/-- C6: entry to Current starts the current-while timer with whatever interval
is stored in the machine and never sets one: a port that comes from Expired
(interval 3 s) and receives an LACPDU whose Actor state asks for the long
timeout (Timeout bit clear) has, after entry to Current, a Partner operational
Timeout bit that is clear and a current-while timer running at 3 s, not at the
90 s the specification expects. -/
theorem C6_current_entry_keeps_short_timeout_for_long_partner :
    (LacpRxMachineMainPktRx expiredPort agreeingPdu).map
        (fun q => q.rxMachineFsm.state) = some LacpRxmStateCurrent ∧
    (LacpRxMachineMainPktRx expiredPort agreeingPdu).map
        (fun q => LacpStateIsSet q.partnerOper.state LacpStateTimeoutBit) = some false ∧
    (LacpRxMachineMainPktRx expiredPort agreeingPdu).map
        (fun q => q.rxMachineFsm.currentWhileTimer) = some (some LacpShortTimeoutTime) ∧
    LacpShortTimeoutTime ≠ LacpLongTimeoutTime := by
  decide

/-- C7: the Actor operational Expired bit does not follow the receive machine:
entry to Expired on a port whose Actor state has the bit clear leaves it clear,
and entry to Initialize, LacpDisabled, Defaulted and Current on a port whose
Actor state has the bit set leaves it set (the values returned by
`LacpStateSet` and `LacpStateClear` are not stored). -/
theorem C7_expired_bit_not_updated_by_entry_actions :
    LacpStateIsSet freshPort.actorOper.state LacpStateExpiredBit = false ∧
    (LacpRxMachineExpired freshPort none).map
        (fun r => LacpStateIsSet r.1.actorOper.state LacpStateExpiredBit) = some false ∧
    LacpStateIsSet syncedExpiredBitPort.actorOper.state LacpStateExpiredBit = true ∧
    (LacpRxMachineInitialize syncedExpiredBitPort none).map
        (fun r => LacpStateIsSet r.1.actorOper.state LacpStateExpiredBit) = some true ∧
    (LacpRxMachineLacpDisabled syncedExpiredBitPort none).map
        (fun r => LacpStateIsSet r.1.actorOper.state LacpStateExpiredBit) = some true ∧
    (LacpRxMachineDefaulted syncedExpiredBitPort none).map
        (fun r => LacpStateIsSet r.1.actorOper.state LacpStateExpiredBit) = some true ∧
    (LacpRxMachineCurrent syncedExpiredBitPort (some agreeingPdu)).map
        (fun r => LacpStateIsSet r.1.actorOper.state LacpStateExpiredBit) = some true := by
  decide

/-- C8: on a port whose Partner operational state has Sync set and Timeout
clear, entry to PortDisabled leaves Sync set, and entry to Expired leaves Sync
set and Timeout clear (the values returned by `LacpStateClear` and
`LacpStateSet` are not stored). -/
theorem C8_partner_sync_timeout_not_updated_by_entry_actions :
    LacpStateIsSet syncedExpiredBitPort.partnerOper.state LacpStateSyncBit = true ∧
    LacpStateIsSet syncedExpiredBitPort.partnerOper.state LacpStateTimeoutBit = false ∧
    (LacpRxMachinePortDisabled syncedExpiredBitPort none).map
        (fun r => LacpStateIsSet r.1.partnerOper.state LacpStateSyncBit) = some true ∧
    (LacpRxMachineExpired syncedExpiredBitPort none).map
        (fun r => LacpStateIsSet r.1.partnerOper.state LacpStateSyncBit) = some true ∧
    (LacpRxMachineExpired syncedExpiredBitPort none).map
        (fun r => LacpStateIsSet r.1.partnerOper.state LacpStateTimeoutBit) = some false := by
  decide

/-- C9: from Current, the current-while timer expiry event is accepted and
leads to Expired with the current-while interval (and the running timer) at
`LacpShortTimeoutTime` = 3 s; from the resulting port a second expiry event is
accepted and leads to Defaulted; and the rule table has no rule for the expiry
event in any state other than Current and Expired, where processing the event
leaves the port untouched. -/
theorem C9_current_while_expiry_transitions (p : LaAggPort)
    (h : p.rxMachineFsm.state = LacpRxmStateCurrent) :
    (∃ p1 p2,
      RxProcessEvent p LacpRxmEventCurrentWhileTimerExpired none
        = some (p1, FsmOutcome.transitioned) ∧
      LacpRxMachineMainEvent p LacpRxmEventCurrentWhileTimerExpired = some p1 ∧
      p1.rxMachineFsm.state = LacpRxmStateExpired ∧
      p1.rxMachineFsm.currentWhileTimerTimeout = LacpShortTimeoutTime ∧
      p1.rxMachineFsm.currentWhileTimer = some LacpShortTimeoutTime ∧
      LacpShortTimeoutTime = 3 * Second ∧
      RxProcessEvent p1 LacpRxmEventCurrentWhileTimerExpired none
        = some (p2, FsmOutcome.transitioned) ∧
      LacpRxMachineMainEvent p1 LacpRxmEventCurrentWhileTimerExpired = some p2 ∧
      p2.rxMachineFsm.state = LacpRxmStateDefaulted) ∧
    (∀ s : Nat, s ≠ LacpRxmStateCurrent → s ≠ LacpRxmStateExpired →
      (LacpRxMachineRules.find s LacpRxmEventCurrentWhileTimerExpired).isNone = true) ∧
    (∀ q : LaAggPort, q.rxMachineFsm.state ≠ LacpRxmStateCurrent →
      q.rxMachineFsm.state ≠ LacpRxmStateExpired →
      RxProcessEvent q LacpRxmEventCurrentWhileTimerExpired none
        = some (q, FsmOutcome.invalidTransition)) := by
  have hfindC : LacpRxMachineRules.find p.rxMachineFsm.state
      LacpRxmEventCurrentWhileTimerExpired = some LacpRxMachineExpired := by
    rw [h]; rfl
  have hstep1 := RxProcessEvent_of_find none hfindC
  simp only [LacpRxMachineExpired, LacpRxmLog_eq, CurrentWhileTimerTimeoutSet,
    CurrentWhileTimerStart] at hstep1
  obtain ⟨p1, hp1, hs1, ht1, hr1⟩ : ∃ p1,
      RxProcessEvent p LacpRxmEventCurrentWhileTimerExpired none
        = some (p1, FsmOutcome.transitioned) ∧
      p1.rxMachineFsm.state = LacpRxmStateExpired ∧
      p1.rxMachineFsm.currentWhileTimerTimeout = LacpShortTimeoutTime ∧
      p1.rxMachineFsm.currentWhileTimer = some LacpShortTimeoutTime :=
    ⟨_, hstep1, rfl, rfl, rfl⟩
  have hfindE : LacpRxMachineRules.find p1.rxMachineFsm.state
      LacpRxmEventCurrentWhileTimerExpired = some LacpRxMachineDefaulted := by
    rw [hs1]; rfl
  have hstep2 := RxProcessEvent_of_find none hfindE
  simp only [LacpRxMachineDefaulted] at hstep2
  refine ⟨⟨p1, _, hp1, ?_, hs1, ht1, hr1, by decide, hstep2, ?_, rfl⟩, ?_, ?_⟩
  · exact LacpRxMachineMainEvent_of_step hp1 (by rw [hs1]; decide)
  · refine LacpRxMachineMainEvent_of_step hstep2 ?_
    show LacpRxmStateDefaulted ≠ LacpRxmStateInitialize
    decide
  · intro s hc he
    rw [find_currentWhileTimerExpired_none s hc he]
    rfl
  · intro q hc he
    exact RxProcessEvent_of_find_none none (find_currentWhileTimerExpired_none _ hc he)

/-- C9 at a concrete port: `convergedPort` is in Current. -/
theorem C9_current_while_expiry_transitions_witness :
    convergedPort.rxMachineFsm.state = LacpRxmStateCurrent ∧
    ((∃ p1 p2,
      RxProcessEvent convergedPort LacpRxmEventCurrentWhileTimerExpired none
        = some (p1, FsmOutcome.transitioned) ∧
      LacpRxMachineMainEvent convergedPort LacpRxmEventCurrentWhileTimerExpired = some p1 ∧
      p1.rxMachineFsm.state = LacpRxmStateExpired ∧
      p1.rxMachineFsm.currentWhileTimerTimeout = LacpShortTimeoutTime ∧
      p1.rxMachineFsm.currentWhileTimer = some LacpShortTimeoutTime ∧
      LacpShortTimeoutTime = 3 * Second ∧
      RxProcessEvent p1 LacpRxmEventCurrentWhileTimerExpired none
        = some (p2, FsmOutcome.transitioned) ∧
      LacpRxMachineMainEvent p1 LacpRxmEventCurrentWhileTimerExpired = some p2 ∧
      p2.rxMachineFsm.state = LacpRxmStateDefaulted) ∧
    (∀ s : Nat, s ≠ LacpRxmStateCurrent → s ≠ LacpRxmStateExpired →
      (LacpRxMachineRules.find s LacpRxmEventCurrentWhileTimerExpired).isNone = true) ∧
    (∀ q : LaAggPort, q.rxMachineFsm.state ≠ LacpRxmStateCurrent →
      q.rxMachineFsm.state ≠ LacpRxmStateExpired →
      RxProcessEvent q LacpRxmEventCurrentWhileTimerExpired none
        = some (q, FsmOutcome.invalidTransition))) :=
  ⟨by decide, C9_current_while_expiry_transitions convergedPort (by decide)⟩

/-- C10: after `recordDefault` the Partner operational block is the Partner
administrative block as it is, and the Actor state is untouched: with a
Partner administrative state whose Sync bit is clear and an Actor state whose
Defaulted bit is clear, both bits are still clear after the call (the values
returned by `LacpStateSet` are not stored). -/
theorem C10_recordDefault_sets_no_bits :
    LacpStateIsSet freshPort.partnerAdmin.state LacpStateSyncBit = false ∧
    LacpStateIsSet freshPort.actorOper.state LacpStateDefaultedBit = false ∧
    (recordDefault freshPort).partnerOper = freshPort.partnerAdmin ∧
    LacpStateIsSet (recordDefault freshPort).partnerOper.state LacpStateSyncBit = false ∧
    LacpStateIsSet (recordDefault freshPort).actorOper.state LacpStateDefaultedBit = false := by
  decide


/-! ## Helper lemmas: what the entry actions change -/

/-- What `updateDefaultSelected` changes. -/
theorem updateDefaultSelected_eq (p : LaAggPort) :
    updateDefaultSelected p =
      { p with
        aggSelected :=
          if LacpLacpPortInfoIsEqual p.partnerAdmin p.partnerOper LacpStateAggregationBit = true
          then p.aggSelected else LacpAggUnSelected } := by
  unfold updateDefaultSelected
  by_cases h : LacpLacpPortInfoIsEqual p.partnerAdmin p.partnerOper
      LacpStateAggregationBit = true
  · simp [h]
  · simp only [h, if_false]
    simp only [Bool.not_eq_true] at h
    simp [h]

/-- What `updateSelected` changes. -/
theorem updateSelected_eq (p : LaAggPort) (lacpPduInfo : LacpPdu) :
    updateSelected p lacpPduInfo =
      { p with
        aggSelected :=
          if LacpLacpPortInfoIsEqual lacpPduInfo.actor.info p.partnerOper
              LacpStateAggregationBit = true
          then p.aggSelected else LacpAggUnSelected } := by
  unfold updateSelected
  by_cases h : LacpLacpPortInfoIsEqual lacpPduInfo.actor.info p.partnerOper
      LacpStateAggregationBit = true
  · simp [h]
  · simp only [h, if_false]
    simp only [Bool.not_eq_true] at h
    simp [h]

/-- Entry to INITIALIZE, field by field. -/
theorem LacpRxMachineInitialize_eq (p : LaAggPort) (data : Option LacpPdu) :
    LacpRxMachineInitialize p data =
      some ({ p with
              log := if p.rxMachineFsm.logEna = true then p.log ++ ["RXM: Initialize Enter"]
                     else p.log
              aggId := 0
              muxMachineFsm := { p.muxMachineFsm with waitWhileTimer := none }
              aggSelected := LacpAggUnSelected
              portMoved := false }, LacpRxmStateInitialize) := by
  simp only [LacpRxMachineInitialize, LacpRxmLog_eq, WaitWhileTimerStop]

/-- Entry to PORT_DISABLED, field by field. -/
theorem LacpRxMachinePortDisabled_eq (p : LaAggPort) (data : Option LacpPdu) :
    LacpRxMachinePortDisabled p data =
      some ({ p with
              log := if p.rxMachineFsm.logEna = true then p.log ++ ["RXM: Port Disable Enter"]
                     else p.log }, LacpRxmStatePortDisabled) := by
  simp only [LacpRxMachinePortDisabled, LacpRxmLog_eq]

/-- Entry to EXPIRED, field by field. -/
theorem LacpRxMachineExpired_eq (p : LaAggPort) (data : Option LacpPdu) :
    LacpRxMachineExpired p data =
      some ({ p with
              log := if p.rxMachineFsm.logEna = true then p.log ++ ["RXM: Expired Enter"]
                     else p.log
              rxMachineFsm :=
                { p.rxMachineFsm with
                  currentWhileTimerTimeout := LacpShortTimeoutTime
                  currentWhileTimer := some LacpShortTimeoutTime } }, LacpRxmStateExpired) := by
  simp only [LacpRxMachineExpired, LacpRxmLog_eq, CurrentWhileTimerTimeoutSet,
    CurrentWhileTimerStart]

/-- Entry to LACP_DISABLED, field by field. -/
theorem LacpRxMachineLacpDisabled_eq (p : LaAggPort) (data : Option LacpPdu) :
    LacpRxMachineLacpDisabled p data =
      some ({ p with
              log := if p.rxMachineFsm.logEna = true then p.log ++ ["RXM: Lacp Disabled Enter"]
                     else p.log
              aggSelected := LacpAggUnSelected
              partnerOper := p.partnerAdmin }, LacpRxmStateLacpDisabled) := by
  simp only [LacpRxMachineLacpDisabled, LacpRxmLog_eq, recordDefault_eq]

/-- Entry to DEFAULTED, field by field. -/
theorem LacpRxMachineDefaulted_eq (p : LaAggPort) (data : Option LacpPdu) :
    LacpRxMachineDefaulted p data =
      some ({ p with
              log := if p.rxMachineFsm.logEna = true then p.log ++ ["RXM: Defaulted Enter"]
                     else p.log
              aggSelected :=
                if LacpLacpPortInfoIsEqual p.partnerAdmin p.partnerOper
                    LacpStateAggregationBit = true
                then p.aggSelected else LacpAggUnSelected
              partnerOper := p.partnerAdmin }, LacpRxmStateDefaulted) := by
  simp only [LacpRxMachineDefaulted, LacpRxmLog_eq, updateDefaultSelected_eq, recordDefault_eq]

/-- Entry to CURRENT on an LACPDU, field by field. -/
theorem LacpRxMachineCurrent_eq (p : LaAggPort) (pdu : LacpPdu) :
    LacpRxMachineCurrent p (some pdu) =
      some ({ p with
              log := if p.rxMachineFsm.logEna = true then p.log ++ ["RXM: Current Enter"]
                     else p.log
              aggSelected :=
                if LacpLacpPortInfoIsEqual pdu.actor.info p.partnerOper
                    LacpStateAggregationBit = true
                then p.aggSelected else LacpAggUnSelected
              partnerOper := pdu.actor.info
              rxMachineFsm :=
                { p.rxMachineFsm with
                  currentWhileTimer := some p.rxMachineFsm.currentWhileTimerTimeout }
              txMachineFsm :=
                { TxmEvents :=
                    if LacpLacpPortInfoIsEqual pdu.partner.info p.partnerOper nttStateCompare
                        = true
                    then p.txMachineFsm.TxmEvents
                    else p.txMachineFsm.TxmEvents ++ [LacpTxmEventNtt] } },
            LacpRxmStateCurrent) := by
  have hv : ¬ (LacpActorSystemLacpVersion ≥ 2) := by decide
  simp only [LacpRxMachineCurrent, LacpRxmLog_eq, updateSelected_eq, recordPDU_eq, updateNTT,
    CurrentWhileTimerStart, hv, if_false]
  by_cases h : LacpLacpPortInfoIsEqual pdu.partner.info p.partnerOper nttStateCompare = true
  · simp [h]
  · simp only [Bool.not_eq_true] at h
    simp [h]

/-! ## Receive machine: Defaulted and Initialize -/

/-- C11: entry to Defaulted always completes; `updateDefaultSelected` is
evaluated against the Partner operational block held before the entry, so
afterwards `aggSelected` is Unselected when the Partner administrative info
differs from that block on port number, port priority, system id, system
priority, key or the Aggregation bit and is unchanged otherwise; in both cases
the Partner operational port number, port priority, system id, system priority
and key afterwards are the Partner administrative ones. -/
theorem C11_defaulted_updateDefaultSelected_then_recordDefault (p : LaAggPort)
    (data : Option LacpPdu) :
    ∃ q, LacpRxMachineDefaulted p data = some (q, LacpRxmStateDefaulted) ∧
      (q.aggSelected =
        if p.partnerAdmin.port = p.partnerOper.port ∧
           p.partnerAdmin.portPri = p.partnerOper.portPri ∧
           p.partnerAdmin.systemId = p.partnerOper.systemId ∧
           p.partnerAdmin.systemPriority = p.partnerOper.systemPriority ∧
           p.partnerAdmin.key = p.partnerOper.key ∧
           LacpStateIsSet p.partnerAdmin.state LacpStateAggregationBit
             = LacpStateIsSet p.partnerOper.state LacpStateAggregationBit
        then p.aggSelected else LacpAggUnSelected) ∧
      q.partnerOper.port = p.partnerAdmin.port ∧
      q.partnerOper.portPri = p.partnerAdmin.portPri ∧
      q.partnerOper.systemId = p.partnerAdmin.systemId ∧
      q.partnerOper.systemPriority = p.partnerAdmin.systemPriority ∧
      q.partnerOper.key = p.partnerAdmin.key := by
  refine ⟨_, LacpRxMachineDefaulted_eq p data, ?_, rfl, rfl, rfl, rfl, rfl⟩
  show (if LacpLacpPortInfoIsEqual p.partnerAdmin p.partnerOper LacpStateAggregationBit = true
      then p.aggSelected else LacpAggUnSelected) = _
  by_cases h : LacpLacpPortInfoIsEqual p.partnerAdmin p.partnerOper LacpStateAggregationBit = true
  · rw [if_pos h, if_pos ((LacpLacpPortInfoIsEqual_aggregation_iff _ _).1 h)]
  · rw [if_neg h, if_neg (fun hc => h ((LacpLacpPortInfoIsEqual_aggregation_iff _ _).2 hc))]

/-- C12: entry to Initialize always completes, and afterwards the owning
aggregator id is 0, `aggSelected` is Unselected and `portMoved` is false,
whatever the port was before. -/
theorem C12_initialize_detaches_and_unselects (p : LaAggPort) (data : Option LacpPdu) :
    ∃ q, LacpRxMachineInitialize p data = some (q, LacpRxmStateInitialize) ∧
      q.aggId = 0 ∧ q.aggSelected = LacpAggUnSelected ∧ q.portMoved = false :=
  ⟨_, LacpRxMachineInitialize_eq p data, rfl, rfl, rfl⟩

/-! ## Helper lemmas: the rule tables -/

/-- The states with a rule for Begin in the receive machine. -/
theorem find_begin (s : Nat) :
    LacpRxMachineRules.find s LacpRxmEventBegin =
      if s = LacpRxmStateNone ∨ s = LacpRxmStatePortDisabled ∨ s = LacpRxmStateLacpDisabled ∨
         s = LacpRxmStateDefaulted ∨ s = LacpRxmStateCurrent
      then some LacpRxMachineInitialize else none := by
  simp only [LacpRxMachineRules, Ruleset.AddRule, Ruleset.find, Prod.mk.injEq, LacpRxmStateNone,
    LacpRxmStateInitialize, LacpRxmStatePortDisabled, LacpRxmStateExpired,
    LacpRxmStateLacpDisabled, LacpRxmStateDefaulted, LacpRxmStateCurrent,
    LacpRxmEventBegin, LacpRxmEventUnconditionalFallthrough,
    LacpRxmEventNotPortEnabledAndNotPortMoved, LacpRxmEventPortMoved,
    LacpRxmEventPortEnabledAndLacpEnabled, LacpRxmEventPortEnabledAndLacpDisabled,
    LacpRxmEventCurrentWhileTimerExpired, LacpRxmEventLacpEnabled, LacpRxmEventLacpPktRx]
  simp only [OfNat.ofNat_ne_one, and_false, if_false, and_true, Nat.reduceEqDiff]
  split_ifs <;> first | rfl | omega

/-- The states with a rule for a received LACPDU. -/
theorem find_pktRx (s : Nat) :
    LacpRxMachineRules.find s LacpRxmEventLacpPktRx =
      if s = LacpRxmStateExpired ∨ s = LacpRxmStateDefaulted ∨ s = LacpRxmStateCurrent
      then some LacpRxMachineCurrent else none := by
  simp only [LacpRxMachineRules, Ruleset.AddRule, Ruleset.find, Prod.mk.injEq, LacpRxmStateNone,
    LacpRxmStateInitialize, LacpRxmStatePortDisabled, LacpRxmStateExpired,
    LacpRxmStateLacpDisabled, LacpRxmStateDefaulted, LacpRxmStateCurrent,
    LacpRxmEventBegin, LacpRxmEventUnconditionalFallthrough,
    LacpRxmEventNotPortEnabledAndNotPortMoved, LacpRxmEventPortMoved,
    LacpRxmEventPortEnabledAndLacpEnabled, LacpRxmEventPortEnabledAndLacpDisabled,
    LacpRxmEventCurrentWhileTimerExpired, LacpRxmEventLacpEnabled, LacpRxmEventLacpPktRx]
  simp only [and_false, if_false, and_true, Nat.reduceEqDiff]
  split_ifs <;> first | rfl | omega

/-- A rule whose callback always ends in `t` gives a transition to `t`. -/
theorem RxTransition_of_find {s e t : Nat} {cb : Callback}
    (hf : LacpRxMachineRules.find s e = some cb)
    (hcb : ∀ p : LaAggPort, ∃ q, cb p none = some (q, t)) : RxTransition s e t := by
  intro p hs
  obtain ⟨q, hq⟩ := hcb p
  have hstep := RxProcessEvent_of_find (p := p) none (hs ▸ hf)
  rw [hq] at hstep
  exact ⟨_, hstep, rfl⟩

/-! ## Receive machine: the rule table -/

/-- The event arm of the main loop never leaves the receive machine in
INITIALIZE: when the event processed ends there, the unconditional
fall-through takes it on to PORT_DISABLED. -/
theorem LacpRxMachineMainEvent_leaves_initialize (p q : LaAggPort) (e : Nat)
    (h : LacpRxMachineMainEvent p e = some q) :
    q.rxMachineFsm.state ≠ LacpRxmStateInitialize := by
  unfold LacpRxMachineMainEvent at h
  cases hs : RxProcessEvent p e none with
  | none => rw [hs] at h; cases h
  | some r =>
    obtain ⟨p1, o⟩ := r
    rw [hs] at h
    simp only [] at h
    by_cases hi : p1.rxMachineFsm.state = LacpRxmStateInitialize
    · have hf : LacpRxMachineRules.find p1.rxMachineFsm.state
          LacpRxmEventUnconditionalFallthrough = some LacpRxMachinePortDisabled := by
        rw [hi]; rfl
      have hb : (p1.rxMachineFsm.state == LacpRxmStateInitialize) = true := by
        rw [hi]; rfl
      rw [hb, if_pos rfl, RxProcessEvent_of_find none hf, LacpRxMachinePortDisabled_eq] at h
      cases h
      show LacpRxmStatePortDisabled ≠ LacpRxmStateInitialize
      decide
    · have hb : (p1.rxMachineFsm.state == LacpRxmStateInitialize) = false := by
        simpa using hi
      rw [hb] at h
      cases h
      exact hi

/-- C13: in Expired a Begin event is not accepted. The block of the rule table
headed BEGIN -> INIT registers Begin for None, PortDisabled, LacpDisabled,
Defaulted and Current and omits Expired, so in a port whose receive machine is
in Expired (`attachedExpiredPort`, attached to aggregator 1 and Selected)
processing Begin reports an invalid transition and leaves the port as it was,
through `ProcessEvent` and through the event arm of the main loop: the machine
is still in Expired and the port still attached and Selected, where the
specification has it in Initialize. Such a port is reached by the table's own
rules: `distributingPort` (in Current) goes to Expired when the current-while
timer expires, and a Begin after that leaves it in Expired, attached and
Selected. -/
theorem C13_begin_rejected_in_expired :
    LacpRxMachineRules.find LacpRxmStateNone LacpRxmEventBegin
      = some LacpRxMachineInitialize ∧
    LacpRxMachineRules.find LacpRxmStatePortDisabled LacpRxmEventBegin
      = some LacpRxMachineInitialize ∧
    LacpRxMachineRules.find LacpRxmStateLacpDisabled LacpRxmEventBegin
      = some LacpRxMachineInitialize ∧
    LacpRxMachineRules.find LacpRxmStateDefaulted LacpRxmEventBegin
      = some LacpRxMachineInitialize ∧
    LacpRxMachineRules.find LacpRxmStateCurrent LacpRxmEventBegin
      = some LacpRxMachineInitialize ∧
    LacpRxMachineRules.find LacpRxmStateExpired LacpRxmEventBegin = none ∧
    attachedExpiredPort.rxMachineFsm.state = LacpRxmStateExpired ∧
    attachedExpiredPort.aggId = 1 ∧
    attachedExpiredPort.aggSelected = LacpAggSelected ∧
    RxProcessEvent attachedExpiredPort LacpRxmEventBegin none
      = some (attachedExpiredPort, FsmOutcome.invalidTransition) ∧
    LacpRxMachineMainEvent attachedExpiredPort LacpRxmEventBegin = some attachedExpiredPort ∧
    LacpRxmStateExpired ≠ LacpRxmStateInitialize ∧
    (RxProcessEvents distributingPort [(LacpRxmEventCurrentWhileTimerExpired, none)]).map
        (fun q => (q.rxMachineFsm.state, q.aggId, q.aggSelected))
      = some (LacpRxmStateExpired, 1, LacpAggSelected) ∧
    (RxProcessEvents distributingPort
        [(LacpRxmEventCurrentWhileTimerExpired, none), (LacpRxmEventBegin, none)]).map
        (fun q => (q.rxMachineFsm.state, q.aggId, q.aggSelected))
      = some (LacpRxmStateExpired, 1, LacpAggSelected) := by
  refine ⟨rfl, rfl, rfl, rfl, rfl, rfl, rfl, rfl, rfl, ?_, ?_, ?_, ?_, ?_⟩ <;> decide

/-- C14: the enablement transitions of the receive machine. PortDisabled goes
to Expired on PortEnabledAndLacpEnabled, to LacpDisabled on
PortEnabledAndLacpDisabled and to Initialize on PortMoved; LacpDisabled goes to
PortDisabled on LacpEnabled; NotPortEnabledAndNotPortMoved takes each of
Expired, LacpDisabled, Defaulted and Current to PortDisabled. -/
theorem C14_enablement_transitions :
    RxTransition LacpRxmStatePortDisabled LacpRxmEventPortEnabledAndLacpEnabled
      LacpRxmStateExpired ∧
    RxTransition LacpRxmStatePortDisabled LacpRxmEventPortEnabledAndLacpDisabled
      LacpRxmStateLacpDisabled ∧
    RxTransition LacpRxmStatePortDisabled LacpRxmEventPortMoved LacpRxmStateInitialize ∧
    RxTransition LacpRxmStateLacpDisabled LacpRxmEventLacpEnabled LacpRxmStatePortDisabled ∧
    RxTransition LacpRxmStateExpired LacpRxmEventNotPortEnabledAndNotPortMoved
      LacpRxmStatePortDisabled ∧
    RxTransition LacpRxmStateLacpDisabled LacpRxmEventNotPortEnabledAndNotPortMoved
      LacpRxmStatePortDisabled ∧
    RxTransition LacpRxmStateDefaulted LacpRxmEventNotPortEnabledAndNotPortMoved
      LacpRxmStatePortDisabled ∧
    RxTransition LacpRxmStateCurrent LacpRxmEventNotPortEnabledAndNotPortMoved
      LacpRxmStatePortDisabled := by
  have hE : ∀ p : LaAggPort, ∃ q, LacpRxMachineExpired p none = some (q, LacpRxmStateExpired) :=
    fun p => ⟨_, LacpRxMachineExpired_eq p none⟩
  have hL : ∀ p : LaAggPort,
      ∃ q, LacpRxMachineLacpDisabled p none = some (q, LacpRxmStateLacpDisabled) :=
    fun p => ⟨_, LacpRxMachineLacpDisabled_eq p none⟩
  have hI : ∀ p : LaAggPort,
      ∃ q, LacpRxMachineInitialize p none = some (q, LacpRxmStateInitialize) :=
    fun p => ⟨_, LacpRxMachineInitialize_eq p none⟩
  have hP : ∀ p : LaAggPort,
      ∃ q, LacpRxMachinePortDisabled p none = some (q, LacpRxmStatePortDisabled) :=
    fun p => ⟨_, LacpRxMachinePortDisabled_eq p none⟩
  exact ⟨RxTransition_of_find rfl hE, RxTransition_of_find rfl hL, RxTransition_of_find rfl hI,
    RxTransition_of_find rfl hP, RxTransition_of_find rfl hP, RxTransition_of_find rfl hP,
    RxTransition_of_find rfl hP, RxTransition_of_find rfl hP⟩

/-- C14 at concrete ports: a port in PortDisabled on PortEnabledAndLacpEnabled,
and `convergedPort` (in Current) on NotPortEnabledAndNotPortMoved. -/
theorem C14_enablement_transitions_witness :
    (∃ q, RxProcessEvent (portInRxState LacpRxmStatePortDisabled)
        LacpRxmEventPortEnabledAndLacpEnabled none = some (q, FsmOutcome.transitioned) ∧
      q.rxMachineFsm.state = LacpRxmStateExpired) ∧
    (∃ q, RxProcessEvent convergedPort
        LacpRxmEventNotPortEnabledAndNotPortMoved none = some (q, FsmOutcome.transitioned) ∧
      q.rxMachineFsm.state = LacpRxmStatePortDisabled) :=
  ⟨C14_enablement_transitions.1 (portInRxState LacpRxmStatePortDisabled) rfl,
   C14_enablement_transitions.2.2.2.2.2.2.2 convergedPort rfl⟩

/-- C15: a received LACPDU moves the receive machine to Current from each of
Expired, Defaulted and Current (the Current entry action runs on the packet);
in every other state the rule table has no rule for the packet event, the
event is reported invalid and the whole port record, the machine state
included, is left as it was. -/
theorem C15_pktRx_moves_to_current_or_is_ignored (p : LaAggPort) (pkt : LacpPdu) :
    ((p.rxMachineFsm.state = LacpRxmStateExpired ∨
      p.rxMachineFsm.state = LacpRxmStateDefaulted ∨
      p.rxMachineFsm.state = LacpRxmStateCurrent) →
      ∃ q, RxProcessEvent p LacpRxmEventLacpPktRx (some pkt)
          = some (q, FsmOutcome.transitioned) ∧
        LacpRxMachineMainPktRx p pkt = some q ∧
        q.rxMachineFsm.state = LacpRxmStateCurrent) ∧
    (¬ (p.rxMachineFsm.state = LacpRxmStateExpired ∨
        p.rxMachineFsm.state = LacpRxmStateDefaulted ∨
        p.rxMachineFsm.state = LacpRxmStateCurrent) →
      LacpRxMachineRules.find p.rxMachineFsm.state LacpRxmEventLacpPktRx = none ∧
      RxProcessEvent p LacpRxmEventLacpPktRx (some pkt)
        = some (p, FsmOutcome.invalidTransition) ∧
      LacpRxMachineMainPktRx p pkt = some p) := by
  constructor
  · intro h
    have hf : LacpRxMachineRules.find p.rxMachineFsm.state LacpRxmEventLacpPktRx
        = some LacpRxMachineCurrent := by
      rw [find_pktRx, if_pos h]
    have hstep := RxProcessEvent_of_find (p := p) (some pkt) hf
    rw [LacpRxMachineCurrent_eq] at hstep
    refine ⟨_, hstep, ?_, rfl⟩
    unfold LacpRxMachineMainPktRx
    rw [hstep]
  · intro h
    have hf : LacpRxMachineRules.find p.rxMachineFsm.state LacpRxmEventLacpPktRx = none := by
      rw [find_pktRx, if_neg h]
    have hstep := RxProcessEvent_of_find_none (p := p) (some pkt) hf
    refine ⟨hf, hstep, ?_⟩
    unfold LacpRxMachineMainPktRx
    rw [hstep]

/-- C15 at concrete ports: `expiredPort` (in Expired) moves to Current, and a
port in PortDisabled is left as it was. -/
theorem C15_pktRx_moves_to_current_or_is_ignored_witness :
    (∃ q, RxProcessEvent expiredPort LacpRxmEventLacpPktRx (some agreeingPdu)
          = some (q, FsmOutcome.transitioned) ∧
        LacpRxMachineMainPktRx expiredPort agreeingPdu = some q ∧
        q.rxMachineFsm.state = LacpRxmStateCurrent) ∧
    (LacpRxMachineRules.find (portInRxState LacpRxmStatePortDisabled).rxMachineFsm.state
        LacpRxmEventLacpPktRx = none ∧
      RxProcessEvent (portInRxState LacpRxmStatePortDisabled) LacpRxmEventLacpPktRx
        (some agreeingPdu)
        = some (portInRxState LacpRxmStatePortDisabled, FsmOutcome.invalidTransition) ∧
      LacpRxMachineMainPktRx (portInRxState LacpRxmStatePortDisabled) agreeingPdu
        = some (portInRxState LacpRxmStatePortDisabled)) :=
  ⟨(C15_pktRx_moves_to_current_or_is_ignored expiredPort agreeingPdu).1 (by decide),
   (C15_pktRx_moves_to_current_or_is_ignored (portInRxState LacpRxmStatePortDisabled)
      agreeingPdu).2 (by decide)⟩

/-- C16: processing one Begin event in the event arm of the receive machine's
main loop, from any state that has a rule for Begin, ends in PortDisabled:
the Begin transition runs the Initialize entry action and enters Initialize,
and the loop then applies the unconditional fall-through, which runs the
PortDisabled entry action. -/
theorem C16_begin_event_ends_in_portDisabled (p : LaAggPort)
    (h : (LacpRxMachineRules.find p.rxMachineFsm.state LacpRxmEventBegin).isSome = true) :
    ∃ q1 q,
      RxProcessEvent p LacpRxmEventBegin none = some (q1, FsmOutcome.transitioned) ∧
      q1.rxMachineFsm.state = LacpRxmStateInitialize ∧
      RxProcessEvent q1 LacpRxmEventUnconditionalFallthrough none
        = some (q, FsmOutcome.transitioned) ∧
      LacpRxMachineMainEvent p LacpRxmEventBegin = some q ∧
      q.rxMachineFsm.state = LacpRxmStatePortDisabled := by
  have hf : LacpRxMachineRules.find p.rxMachineFsm.state LacpRxmEventBegin
      = some LacpRxMachineInitialize := by
    rw [find_begin] at h ⊢
    split_ifs at h ⊢
    · rfl
    · simp at h
  have hstep := RxProcessEvent_of_find (p := p) none hf
  rw [LacpRxMachineInitialize_eq] at hstep
  obtain ⟨q1, hq1, hs1⟩ : ∃ q1,
      RxProcessEvent p LacpRxmEventBegin none = some (q1, FsmOutcome.transitioned) ∧
      q1.rxMachineFsm.state = LacpRxmStateInitialize := ⟨_, hstep, rfl⟩
  have hf2 : LacpRxMachineRules.find q1.rxMachineFsm.state LacpRxmEventUnconditionalFallthrough
      = some LacpRxMachinePortDisabled := by
    rw [hs1]; rfl
  have hstep2 := RxProcessEvent_of_find (p := q1) none hf2
  rw [LacpRxMachinePortDisabled_eq] at hstep2
  refine ⟨q1, _, hq1, hs1, hstep2, ?_, rfl⟩
  unfold LacpRxMachineMainEvent
  rw [hq1]
  simp only [hs1, beq_self_eq_true, if_true]
  rw [hstep2]

/-- C16 at a concrete port: `convergedPort` is in Current, which has a rule for
Begin. -/
theorem C16_begin_event_ends_in_portDisabled_witness :
    ∃ q1 q,
      RxProcessEvent convergedPort LacpRxmEventBegin none
        = some (q1, FsmOutcome.transitioned) ∧
      q1.rxMachineFsm.state = LacpRxmStateInitialize ∧
      RxProcessEvent q1 LacpRxmEventUnconditionalFallthrough none
        = some (q, FsmOutcome.transitioned) ∧
      LacpRxMachineMainEvent convergedPort LacpRxmEventBegin = some q ∧
      q.rxMachineFsm.state = LacpRxmStatePortDisabled :=
  C16_begin_event_ends_in_portDisabled convergedPort rfl

/-! ## Receive machine: invariants across the entry actions -/

/-- C17: every entry action of the receive machine (Initialize, PortDisabled,
Expired, LacpDisabled, Defaulted, and Current on an LACPDU) completes and
preserves the invariant that the Actor operational Defaulted and Expired bits
are not both set. -/
theorem C17_entry_actions_preserve_defaulted_expired_exclusive (p : LaAggPort)
    (data : Option LacpPdu) (pdu : LacpPdu) (h : DefaultedExpiredExclusive p) :
    (∃ q, LacpRxMachineInitialize p data = some (q, LacpRxmStateInitialize) ∧
      DefaultedExpiredExclusive q) ∧
    (∃ q, LacpRxMachinePortDisabled p data = some (q, LacpRxmStatePortDisabled) ∧
      DefaultedExpiredExclusive q) ∧
    (∃ q, LacpRxMachineExpired p data = some (q, LacpRxmStateExpired) ∧
      DefaultedExpiredExclusive q) ∧
    (∃ q, LacpRxMachineLacpDisabled p data = some (q, LacpRxmStateLacpDisabled) ∧
      DefaultedExpiredExclusive q) ∧
    (∃ q, LacpRxMachineDefaulted p data = some (q, LacpRxmStateDefaulted) ∧
      DefaultedExpiredExclusive q) ∧
    (∃ q, LacpRxMachineCurrent p (some pdu) = some (q, LacpRxmStateCurrent) ∧
      DefaultedExpiredExclusive q) :=
  ⟨⟨_, LacpRxMachineInitialize_eq p data, h⟩,
   ⟨_, LacpRxMachinePortDisabled_eq p data, h⟩,
   ⟨_, LacpRxMachineExpired_eq p data, h⟩,
   ⟨_, LacpRxMachineLacpDisabled_eq p data, h⟩,
   ⟨_, LacpRxMachineDefaulted_eq p data, h⟩,
   ⟨_, LacpRxMachineCurrent_eq p pdu, h⟩⟩

/-- C17 at a concrete port and LACPDU. -/
theorem C17_entry_actions_preserve_defaulted_expired_exclusive_witness :
    (∃ q, LacpRxMachineInitialize convergedPort none = some (q, LacpRxmStateInitialize) ∧
      DefaultedExpiredExclusive q) ∧
    (∃ q, LacpRxMachinePortDisabled convergedPort none = some (q, LacpRxmStatePortDisabled) ∧
      DefaultedExpiredExclusive q) ∧
    (∃ q, LacpRxMachineExpired convergedPort none = some (q, LacpRxmStateExpired) ∧
      DefaultedExpiredExclusive q) ∧
    (∃ q, LacpRxMachineLacpDisabled convergedPort none = some (q, LacpRxmStateLacpDisabled) ∧
      DefaultedExpiredExclusive q) ∧
    (∃ q, LacpRxMachineDefaulted convergedPort none = some (q, LacpRxmStateDefaulted) ∧
      DefaultedExpiredExclusive q) ∧
    (∃ q, LacpRxMachineCurrent convergedPort (some agreeingPdu)
        = some (q, LacpRxmStateCurrent) ∧
      DefaultedExpiredExclusive q) :=
  C17_entry_actions_preserve_defaulted_expired_exclusive convergedPort none agreeingPdu
    (by decide)

/-- C18 (as stated, refuted): the Initialize entry action does not preserve the
invariant. `distributingPort` is attached to aggregator 1 with Sync,
Collecting and Distributing set, so the invariant holds; after entry to
Initialize the aggregator id is 0 and the Distributing bit is still set, so it
does not. -/
theorem C18_initialize_breaks_distributing_invariant :
    DistributingAttached distributingPort ∧
    (LacpRxMachineInitialize distributingPort none).map
        (fun r => LacpStateIsSet r.1.actorOper.state LacpStateDistributingBit) = some true ∧
    (LacpRxMachineInitialize distributingPort none).map (fun r => r.1.aggId) = some 0 ∧
    (LacpRxMachineInitialize distributingPort none).map
        (fun r => decide (DistributingAttached r.1)) = some false := by
  decide

/-- C18 (amended): each of the entry actions PortDisabled, Expired,
LacpDisabled, Defaulted and Current completes and preserves the invariant that
a port whose Actor Distributing bit is set has Collecting and Sync set and a
non-zero aggregator id; Initialize sets the aggregator id to 0 and leaves the
Actor state as it is, so after it the invariant holds exactly when the Actor
Distributing bit is clear. -/
theorem C18_entry_actions_and_distributing_invariant (p : LaAggPort)
    (data : Option LacpPdu) (pdu : LacpPdu) (h : DistributingAttached p) :
    (∃ q, LacpRxMachinePortDisabled p data = some (q, LacpRxmStatePortDisabled) ∧
      DistributingAttached q) ∧
    (∃ q, LacpRxMachineExpired p data = some (q, LacpRxmStateExpired) ∧
      DistributingAttached q) ∧
    (∃ q, LacpRxMachineLacpDisabled p data = some (q, LacpRxmStateLacpDisabled) ∧
      DistributingAttached q) ∧
    (∃ q, LacpRxMachineDefaulted p data = some (q, LacpRxmStateDefaulted) ∧
      DistributingAttached q) ∧
    (∃ q, LacpRxMachineCurrent p (some pdu) = some (q, LacpRxmStateCurrent) ∧
      DistributingAttached q) ∧
    (∃ q, LacpRxMachineInitialize p data = some (q, LacpRxmStateInitialize) ∧
      q.aggId = 0 ∧ q.actorOper = p.actorOper ∧
      (DistributingAttached q ↔
        LacpStateIsSet p.actorOper.state LacpStateDistributingBit = false)) := by
  refine ⟨⟨_, LacpRxMachinePortDisabled_eq p data, h⟩,
    ⟨_, LacpRxMachineExpired_eq p data, h⟩,
    ⟨_, LacpRxMachineLacpDisabled_eq p data, h⟩,
    ⟨_, LacpRxMachineDefaulted_eq p data, h⟩,
    ⟨_, LacpRxMachineCurrent_eq p pdu, h⟩,
    ⟨_, LacpRxMachineInitialize_eq p data, rfl, rfl, ?_⟩⟩
  unfold DistributingAttached
  simp only [ne_eq, not_true_eq_false, and_false, imp_false, Bool.not_eq_true]

/-- C18 (amended) at a concrete port and LACPDU: `distributingPort`. -/
theorem C18_entry_actions_and_distributing_invariant_witness :
    (∃ q, LacpRxMachinePortDisabled distributingPort none
        = some (q, LacpRxmStatePortDisabled) ∧ DistributingAttached q) ∧
    (∃ q, LacpRxMachineExpired distributingPort none = some (q, LacpRxmStateExpired) ∧
      DistributingAttached q) ∧
    (∃ q, LacpRxMachineLacpDisabled distributingPort none
        = some (q, LacpRxmStateLacpDisabled) ∧ DistributingAttached q) ∧
    (∃ q, LacpRxMachineDefaulted distributingPort none = some (q, LacpRxmStateDefaulted) ∧
      DistributingAttached q) ∧
    (∃ q, LacpRxMachineCurrent distributingPort (some agreeingPdu)
        = some (q, LacpRxmStateCurrent) ∧ DistributingAttached q) ∧
    (∃ q, LacpRxMachineInitialize distributingPort none = some (q, LacpRxmStateInitialize) ∧
      q.aggId = 0 ∧ q.actorOper = distributingPort.actorOper ∧
      (DistributingAttached q ↔
        LacpStateIsSet distributingPort.actorOper.state LacpStateDistributingBit = false)) :=
  C18_entry_actions_and_distributing_invariant distributingPort none agreeingPdu (by decide)

/-! ## Periodic transmit machine: the rule table -/

/-- Processing an event for which the periodic machine's rule table holds a
callback. -/
theorem PtxProcessEvent_of_find {p : LaAggPort} {e : Nat} {cb : Callback}
    (data : Option LacpPdu) (hf : LacpPtxMachineRules.find p.PtxMachineFsm.state e = some cb) :
    PtxProcessEvent p e data =
      match cb p data with
      | none => none
      | some (q, next) =>
        some ({ q with PtxMachineFsm := { q.PtxMachineFsm with state := next } },
              FsmOutcome.transitioned) := by
  unfold PtxProcessEvent
  rw [hf]

/-- Processing an event for which the periodic machine's rule table holds no
callback. -/
theorem PtxProcessEvent_of_find_none {p : LaAggPort} {e : Nat}
    (data : Option LacpPdu) (hf : LacpPtxMachineRules.find p.PtxMachineFsm.state e = none) :
    PtxProcessEvent p e data = some (p, FsmOutcome.invalidTransition) := by
  unfold PtxProcessEvent
  rw [hf]

/-- The states with a rule for the periodic timer expiry. -/
theorem ptx_find_periodicTimerExpired (s : Nat) :
    LacpPtxMachineRules.find s LacpPtxmEventPeriodicTimerExpired =
      if s = LacpPtxmStateFastPeriodic ∨ s = LacpPtxmStateSlowPeriodic
      then some LacpPtxMachinePeriodicTx else none := by
  simp only [LacpPtxMachineRules, Ruleset.AddRule, Ruleset.find, Prod.mk.injEq,
    LacpPtxmStateNone, LacpPtxmStateNoPeriodic, LacpPtxmStateFastPeriodic,
    LacpPtxmStateSlowPeriodic, LacpPtxmStatePeriodicTx, LacpPtxmEventBegin,
    LacpPtxmEventLacpDisabled, LacpPtxmEventNotPortEnabled,
    LacpPtxmEventActorPartnerOperActivityPassiveMode, LacpPtxmEventUnconditionalFallthrough,
    LacpPtxmEventPartnerOperStateTimeoutLong, LacpPtxmEventPeriodicTimerExpired,
    LacpPtxmEventPartnerOperStateTimeoutShort]
  simp only [and_false, if_false, and_true, Nat.reduceEqDiff]
  split_ifs <;> first | rfl | omega

/-- C19: in each state of the periodic transmit machine (None, NoPeriodic,
FastPeriodic, SlowPeriodic, PeriodicTx), after processing one of the events
Begin, LacpDisabled, NotPortEnabled or ActorPartnerOperActivityPassiveMode the
machine is in NoPeriodic; from every state but NoPeriodic this is a transition
through the NoPeriodic entry action, after which the periodic timer is
stopped (in NoPeriodic itself the event has no rule and the port is left as it
was). -/
theorem C19_events_leading_to_noPeriodic (p : LaAggPort) (e : Nat)
    (hs : p.PtxMachineFsm.state = LacpPtxmStateNone ∨
          p.PtxMachineFsm.state = LacpPtxmStateNoPeriodic ∨
          p.PtxMachineFsm.state = LacpPtxmStateFastPeriodic ∨
          p.PtxMachineFsm.state = LacpPtxmStateSlowPeriodic ∨
          p.PtxMachineFsm.state = LacpPtxmStatePeriodicTx)
    (he : e = LacpPtxmEventBegin ∨ e = LacpPtxmEventLacpDisabled ∨
          e = LacpPtxmEventNotPortEnabled ∨
          e = LacpPtxmEventActorPartnerOperActivityPassiveMode) :
    ∃ q o, PtxProcessEvent p e none = some (q, o) ∧
      q.PtxMachineFsm.state = LacpPtxmStateNoPeriodic ∧
      (p.PtxMachineFsm.state ≠ LacpPtxmStateNoPeriodic →
        LacpPtxMachineRules.find p.PtxMachineFsm.state e = some LacpPtxMachineNoPeriodic ∧
        o = FsmOutcome.transitioned ∧
        q.PtxMachineFsm.periodicTxTimer = none) ∧
      (p.PtxMachineFsm.state = LacpPtxmStateNoPeriodic →
        o = FsmOutcome.invalidTransition ∧ q = p) := by
  by_cases hn : p.PtxMachineFsm.state = LacpPtxmStateNoPeriodic
  · have hf : LacpPtxMachineRules.find p.PtxMachineFsm.state e = none := by
      rw [hn]
      rcases he with he | he | he | he <;> (subst he; rfl)
    exact ⟨p, _, PtxProcessEvent_of_find_none none hf, hn, fun hc => absurd hn hc,
      fun _ => ⟨rfl, rfl⟩⟩
  · have hf : LacpPtxMachineRules.find p.PtxMachineFsm.state e
        = some LacpPtxMachineNoPeriodic := by
      rcases hs with hs | hs | hs | hs | hs
      · rw [hs]; rcases he with he | he | he | he <;> (subst he; rfl)
      · exact absurd hs hn
      · rw [hs]; rcases he with he | he | he | he <;> (subst he; rfl)
      · rw [hs]; rcases he with he | he | he | he <;> (subst he; rfl)
      · rw [hs]; rcases he with he | he | he | he <;> (subst he; rfl)
    have hstep := PtxProcessEvent_of_find (p := p) none hf
    simp only [LacpPtxMachineNoPeriodic, PeriodicTimerStop] at hstep
    exact ⟨_, _, hstep, rfl, fun _ => ⟨hf, rfl, rfl⟩, fun hc => absurd hc hn⟩

/-- C19 at a concrete port and event: a port in FastPeriodic with the timer
running, on Begin. -/
theorem C19_events_leading_to_noPeriodic_witness :
    ∃ q o, PtxProcessEvent (portInPtxState LacpPtxmStateFastPeriodic) LacpPtxmEventBegin none
        = some (q, o) ∧
      q.PtxMachineFsm.state = LacpPtxmStateNoPeriodic ∧
      ((portInPtxState LacpPtxmStateFastPeriodic).PtxMachineFsm.state
          ≠ LacpPtxmStateNoPeriodic →
        LacpPtxMachineRules.find (portInPtxState LacpPtxmStateFastPeriodic).PtxMachineFsm.state
          LacpPtxmEventBegin = some LacpPtxMachineNoPeriodic ∧
        o = FsmOutcome.transitioned ∧
        q.PtxMachineFsm.periodicTxTimer = none) ∧
      ((portInPtxState LacpPtxmStateFastPeriodic).PtxMachineFsm.state
          = LacpPtxmStateNoPeriodic →
        o = FsmOutcome.invalidTransition ∧ q = portInPtxState LacpPtxmStateFastPeriodic) :=
  C19_events_leading_to_noPeriodic (portInPtxState LacpPtxmStateFastPeriodic)
    LacpPtxmEventBegin (by decide) (by decide)

/-- C20: from FastPeriodic and from SlowPeriodic a PeriodicTimerExpired event
moves the periodic transmit machine to PeriodicTx and appends exactly one Ntt
event to the transmit machine's queue (also through the main loop, which adds
no fall-through); no other state has a rule for PeriodicTimerExpired, and
there the event leaves the port, the queue included, as it was. -/
theorem C20_periodic_timer_expired_sends_one_ntt (p : LaAggPort) (src : String)
    (responseChan : Bool)
    (h : p.PtxMachineFsm.state = LacpPtxmStateFastPeriodic ∨
         p.PtxMachineFsm.state = LacpPtxmStateSlowPeriodic) :
    (∃ q, PtxProcessEvent p LacpPtxmEventPeriodicTimerExpired none
        = some (q, FsmOutcome.transitioned) ∧
      LacpPtxMachineMainEvent p
          { e := LacpPtxmEventPeriodicTimerExpired, src := src, responseChan := responseChan }
        = some (q, none) ∧
      q.PtxMachineFsm.state = LacpPtxmStatePeriodicTx ∧
      q.txMachineFsm.TxmEvents = p.txMachineFsm.TxmEvents ++ [LacpTxmEventNtt]) ∧
    (∀ s : Nat, s ≠ LacpPtxmStateFastPeriodic → s ≠ LacpPtxmStateSlowPeriodic →
      LacpPtxMachineRules.find s LacpPtxmEventPeriodicTimerExpired = none) ∧
    (∀ r : LaAggPort, r.PtxMachineFsm.state ≠ LacpPtxmStateFastPeriodic →
      r.PtxMachineFsm.state ≠ LacpPtxmStateSlowPeriodic →
      PtxProcessEvent r LacpPtxmEventPeriodicTimerExpired none
        = some (r, FsmOutcome.invalidTransition)) := by
  have hnone : ∀ s : Nat, s ≠ LacpPtxmStateFastPeriodic → s ≠ LacpPtxmStateSlowPeriodic →
      LacpPtxMachineRules.find s LacpPtxmEventPeriodicTimerExpired = none := by
    intro s h1 h2
    rw [ptx_find_periodicTimerExpired, if_neg]
    rintro (hc | hc)
    · exact h1 hc
    · exact h2 hc
  have hf : LacpPtxMachineRules.find p.PtxMachineFsm.state LacpPtxmEventPeriodicTimerExpired
      = some LacpPtxMachinePeriodicTx := by
    rw [ptx_find_periodicTimerExpired, if_pos h]
  have hstep := PtxProcessEvent_of_find (p := p) none hf
  simp only [LacpPtxMachinePeriodicTx] at hstep
  refine ⟨⟨_, hstep, ?_, rfl, rfl⟩, hnone, ?_⟩
  · unfold LacpPtxMachineMainEvent
    simp only [hstep, LacpPtxIsNoPeriodicExitCondition_eq_false]
    rfl
  · intro r h1 h2
    exact PtxProcessEvent_of_find_none none (hnone _ h1 h2)

/-- C20 at a concrete port: a port in SlowPeriodic with an empty transmit
queue. -/
theorem C20_periodic_timer_expired_sends_one_ntt_witness :
    ∃ q, PtxProcessEvent (portInPtxState LacpPtxmStateSlowPeriodic)
        LacpPtxmEventPeriodicTimerExpired none = some (q, FsmOutcome.transitioned) ∧
      LacpPtxMachineMainEvent (portInPtxState LacpPtxmStateSlowPeriodic)
          { e := LacpPtxmEventPeriodicTimerExpired, src := "", responseChan := false }
        = some (q, none) ∧
      q.PtxMachineFsm.state = LacpPtxmStatePeriodicTx ∧
      q.txMachineFsm.TxmEvents
        = (portInPtxState LacpPtxmStateSlowPeriodic).txMachineFsm.TxmEvents
            ++ [LacpTxmEventNtt] :=
  (C20_periodic_timer_expired_sends_one_ntt (portInPtxState LacpPtxmStateSlowPeriodic) ""
    false (by decide)).1


/-! ## Periodic transmit machine: timeout changes, intervals, passive ports -/

/-- A rule of the periodic machine whose callback always ends in `t` gives a
transition to `t`. -/
theorem PtxTransition_of_find {s e t : Nat} {cb : Callback}
    (hf : LacpPtxMachineRules.find s e = some cb)
    (hcb : ∀ p : LaAggPort, ∃ q, cb p none = some (q, t)) : PtxTransition s e t := by
  intro p hs
  obtain ⟨q, hq⟩ := hcb p
  have hstep := PtxProcessEvent_of_find (p := p) none (hs ▸ hf)
  rw [hq] at hstep
  exact ⟨_, hstep, rfl⟩

/-- The only event with a rule in NO PERIODIC is the fall-through. -/
theorem ptx_find_noPeriodic (e : Nat) :
    LacpPtxMachineRules.find LacpPtxmStateNoPeriodic e =
      if e = LacpPtxmEventUnconditionalFallthrough then some LacpPtxMachineFastPeriodic
      else none := by
  simp only [LacpPtxMachineRules, Ruleset.AddRule, Ruleset.find, Prod.mk.injEq,
    LacpPtxmStateNone, LacpPtxmStateNoPeriodic, LacpPtxmStateFastPeriodic,
    LacpPtxmStateSlowPeriodic, LacpPtxmStatePeriodicTx, LacpPtxmEventBegin,
    LacpPtxmEventLacpDisabled, LacpPtxmEventNotPortEnabled,
    LacpPtxmEventActorPartnerOperActivityPassiveMode, LacpPtxmEventUnconditionalFallthrough,
    LacpPtxmEventPartnerOperStateTimeoutLong, LacpPtxmEventPeriodicTimerExpired,
    LacpPtxmEventPartnerOperStateTimeoutShort]
  simp only [false_and, if_false, true_and, Nat.reduceEqDiff]
  split_ifs <;> first | rfl | omega

/-- C21 (as stated, refuted): from SlowPeriodic a PartnerOperStateTimeoutShort
event does not lead to FastPeriodic. The rule for it runs the PeriodicTx entry
action: the machine ends in PeriodicTx and one Ntt is sent. -/
theorem C21_slow_timeout_short_goes_to_periodicTx :
    (PtxProcessEvent (portInPtxState LacpPtxmStateSlowPeriodic)
        LacpPtxmEventPartnerOperStateTimeoutShort none).map
      (fun r => (r.1.PtxMachineFsm.state, r.1.txMachineFsm.TxmEvents, r.2))
      = some (LacpPtxmStatePeriodicTx, [LacpTxmEventNtt], FsmOutcome.transitioned) ∧
    LacpPtxmStatePeriodicTx ≠ LacpPtxmStateFastPeriodic ∧
    ¬ PtxTransition LacpPtxmStateSlowPeriodic LacpPtxmEventPartnerOperStateTimeoutShort
        LacpPtxmStateFastPeriodic := by
  refine ⟨by decide, by decide, ?_⟩
  intro h
  obtain ⟨q, hq, hs⟩ := h (portInPtxState LacpPtxmStateSlowPeriodic) rfl
  have hev : (PtxProcessEvent (portInPtxState LacpPtxmStateSlowPeriodic)
      LacpPtxmEventPartnerOperStateTimeoutShort none).map
      (fun r => r.1.PtxMachineFsm.state) = some LacpPtxmStatePeriodicTx := by decide
  rw [hq] at hev
  simp only [Option.map_some', Option.some.injEq] at hev
  rw [hs] at hev
  exact absurd hev (by decide)

/-- C21 (amended): from FastPeriodic a PartnerOperStateTimeoutLong event leads
to SlowPeriodic; from SlowPeriodic a PartnerOperStateTimeoutShort event leads
to PeriodicTx, and from PeriodicTx the same event leads on to FastPeriodic
(and PartnerOperStateTimeoutLong back to SlowPeriodic). -/
theorem C21_timeout_change_transitions :
    PtxTransition LacpPtxmStateFastPeriodic LacpPtxmEventPartnerOperStateTimeoutLong
      LacpPtxmStateSlowPeriodic ∧
    PtxTransition LacpPtxmStateSlowPeriodic LacpPtxmEventPartnerOperStateTimeoutShort
      LacpPtxmStatePeriodicTx ∧
    PtxTransition LacpPtxmStatePeriodicTx LacpPtxmEventPartnerOperStateTimeoutShort
      LacpPtxmStateFastPeriodic ∧
    PtxTransition LacpPtxmStatePeriodicTx LacpPtxmEventPartnerOperStateTimeoutLong
      LacpPtxmStateSlowPeriodic := by
  have hF : ∀ p : LaAggPort,
      ∃ q, LacpPtxMachineFastPeriodic p none = some (q, LacpPtxmStateFastPeriodic) :=
    fun p => ⟨_, rfl⟩
  have hS : ∀ p : LaAggPort,
      ∃ q, LacpPtxMachineSlowPeriodic p none = some (q, LacpPtxmStateSlowPeriodic) :=
    fun p => ⟨_, rfl⟩
  have hT : ∀ p : LaAggPort,
      ∃ q, LacpPtxMachinePeriodicTx p none = some (q, LacpPtxmStatePeriodicTx) :=
    fun p => ⟨_, rfl⟩
  exact ⟨PtxTransition_of_find rfl hS, PtxTransition_of_find rfl hT,
    PtxTransition_of_find rfl hF, PtxTransition_of_find rfl hS⟩

/-- C21 (amended) at concrete ports: a port in FastPeriodic on
PartnerOperStateTimeoutLong and a port in SlowPeriodic on
PartnerOperStateTimeoutShort. -/
theorem C21_timeout_change_transitions_witness :
    (∃ q, PtxProcessEvent (portInPtxState LacpPtxmStateFastPeriodic)
        LacpPtxmEventPartnerOperStateTimeoutLong none = some (q, FsmOutcome.transitioned) ∧
      q.PtxMachineFsm.state = LacpPtxmStateSlowPeriodic) ∧
    (∃ q, PtxProcessEvent (portInPtxState LacpPtxmStateSlowPeriodic)
        LacpPtxmEventPartnerOperStateTimeoutShort none = some (q, FsmOutcome.transitioned) ∧
      q.PtxMachineFsm.state = LacpPtxmStatePeriodicTx) :=
  ⟨C21_timeout_change_transitions.1 (portInPtxState LacpPtxmStateFastPeriodic) rfl,
   C21_timeout_change_transitions.2.1 (portInPtxState LacpPtxmStateSlowPeriodic) rfl⟩

/-- C22: entry to FastPeriodic always completes and leaves the periodic
interval at 1 s with the timer started at that interval; entry to SlowPeriodic
likewise at 30 s, whatever the interval was before; the short and long receive
timeouts, 3 s and 90 s, are three times these intervals. -/
theorem C22_periodic_intervals (p : LaAggPort) (data : Option LacpPdu) :
    (∃ q, LacpPtxMachineFastPeriodic p data = some (q, LacpPtxmStateFastPeriodic) ∧
      q.PtxMachineFsm.PeriodicTxTimerInterval = 1 * Second ∧
      q.PtxMachineFsm.periodicTxTimer = some (1 * Second)) ∧
    (∃ q, LacpPtxMachineSlowPeriodic p data = some (q, LacpPtxmStateSlowPeriodic) ∧
      q.PtxMachineFsm.PeriodicTxTimerInterval = 30 * Second ∧
      q.PtxMachineFsm.periodicTxTimer = some (30 * Second)) ∧
    LacpFastPeriodicTime = 1 * Second ∧
    LacpSlowPeriodicTime = 30 * Second ∧
    LacpShortTimeoutTime = 3 * Second ∧
    LacpLongTimeoutTime = 90 * Second ∧
    LacpShortTimeoutTime = 3 * LacpFastPeriodicTime ∧
    LacpLongTimeoutTime = 3 * LacpSlowPeriodicTime := by
  refine ⟨⟨_, rfl, ?_, ?_⟩, ⟨_, rfl, ?_, ?_⟩, ?_, ?_, ?_, ?_, ?_, ?_⟩ <;> rfl

/-- C23 (as stated, refuted): a periodic machine in NoPeriodic on a port with
both ends Passive does not stay in NoPeriodic after every event. The exit
condition is false, but the rule table has a rule from NoPeriodic for the
UnconditionalFallthrough event, and when that event arrives on the event
channel the machine moves to FastPeriodic. -/
theorem C23_fallthrough_event_leaves_noPeriodic :
    LacpStateIsSet passiveNoPeriodicPort.actorOper.state LacpStateActivityBit = false ∧
    LacpStateIsSet passiveNoPeriodicPort.partnerOper.state LacpStateActivityBit = false ∧
    passiveNoPeriodicPort.PtxMachineFsm.state = LacpPtxmStateNoPeriodic ∧
    LacpPtxIsNoPeriodicExitCondition passiveNoPeriodicPort = false ∧
    (LacpPtxMachineMainEvent passiveNoPeriodicPort
        { e := LacpPtxmEventUnconditionalFallthrough, src := "", responseChan := false }).map
      (fun r => r.1.PtxMachineFsm.state) = some LacpPtxmStateFastPeriodic := by
  decide

/-- C23 (amended): when neither the Actor nor the Partner operational state has
the Activity bit set, `LacpPtxIsNoPeriodicExitCondition` is false for every
value of `lacpEnabled` and `portEnabled`, and a periodic machine in NoPeriodic
is left in NoPeriodic, with the port as it was, by the main loop after every
event other than UnconditionalFallthrough. -/
theorem C23_passive_port_stays_in_noPeriodic (p : LaAggPort) (event : LacpMachineEvent)
    (hA : LacpStateIsSet p.actorOper.state LacpStateActivityBit = false)
    (hP : LacpStateIsSet p.partnerOper.state LacpStateActivityBit = false)
    (hs : p.PtxMachineFsm.state = LacpPtxmStateNoPeriodic)
    (he : event.e ≠ LacpPtxmEventUnconditionalFallthrough) :
    (∀ lacpEnabled portEnabled : Bool,
      LacpPtxIsNoPeriodicExitCondition
        { p with lacpEnabled := lacpEnabled, portEnabled := portEnabled } = false) ∧
    ∃ response, LacpPtxMachineMainEvent p event = some (p, response) ∧
      p.PtxMachineFsm.state = LacpPtxmStateNoPeriodic := by
  have _ := hA
  have _ := hP
  refine ⟨fun _ _ => LacpPtxIsNoPeriodicExitCondition_eq_false _, ?_⟩
  have hf : LacpPtxMachineRules.find p.PtxMachineFsm.state event.e = none := by
    rw [hs, ptx_find_noPeriodic, if_neg he]
  have hstep := PtxProcessEvent_of_find_none (p := p) none hf
  unfold LacpPtxMachineMainEvent
  simp only [hstep, LacpPtxIsNoPeriodicExitCondition_eq_false, Bool.false_eq_true, if_false]
  split_ifs
  · exact ⟨_, rfl, hs⟩
  · exact ⟨_, rfl, hs⟩

/-- C23 (amended) at a concrete port and event: the passive port on Begin. -/
theorem C23_passive_port_stays_in_noPeriodic_witness :
    (∀ lacpEnabled portEnabled : Bool,
      LacpPtxIsNoPeriodicExitCondition
        { passiveNoPeriodicPort with
          lacpEnabled := lacpEnabled, portEnabled := portEnabled } = false) ∧
    ∃ response,
      LacpPtxMachineMainEvent passiveNoPeriodicPort
        { e := LacpPtxmEventBegin, src := "", responseChan := true }
        = some (passiveNoPeriodicPort, response) ∧
      passiveNoPeriodicPort.PtxMachineFsm.state = LacpPtxmStateNoPeriodic :=
  C23_passive_port_stays_in_noPeriodic passiveNoPeriodicPort
    { e := LacpPtxmEventBegin, src := "", responseChan := true }
    (by decide) (by decide) (by decide) (by decide)

/-! ## The state bits -/

/-- C24: the eight named state bits are, in the order Activity, Timeout,
Aggregation, Sync, Collecting, Distributing, Defaulted, Expired, the single-bit
masks 0x01, 0x02, 0x04, 0x08, 0x10, 0x20, 0x40, 0x80; they are pairwise distinct
and their OR is 0xFF. -/
theorem C24_state_bits :
    [LacpStateActivityBit, LacpStateTimeoutBit, LacpStateAggregationBit, LacpStateSyncBit,
      LacpStateCollectingBit, LacpStateDistributingBit, LacpStateDefaultedBit,
      LacpStateExpiredBit]
      = [0x01, 0x02, 0x04, 0x08, 0x10, 0x20, 0x40, 0x80] ∧
    [LacpStateActivityBit, LacpStateTimeoutBit, LacpStateAggregationBit, LacpStateSyncBit,
      LacpStateCollectingBit, LacpStateDistributingBit, LacpStateDefaultedBit,
      LacpStateExpiredBit]
      = (List.range 8).map (fun k => 2 ^ k) ∧
    [LacpStateActivityBit, LacpStateTimeoutBit, LacpStateAggregationBit, LacpStateSyncBit,
      LacpStateCollectingBit, LacpStateDistributingBit, LacpStateDefaultedBit,
      LacpStateExpiredBit].Nodup ∧
    (LacpStateActivityBit ||| LacpStateTimeoutBit ||| LacpStateAggregationBit |||
      LacpStateSyncBit ||| LacpStateCollectingBit ||| LacpStateDistributingBit |||
      LacpStateDefaultedBit ||| LacpStateExpiredBit) = 0xFF := by
  decide

/-! ## Receive machine: selection and the Actor state across the entry actions -/

/-- A callback found in a rules table is one of its entries. -/
theorem Ruleset_find_mem (rules : Ruleset) (s e : Nat) (cb : Callback)
    (h : rules.find s e = some cb) : ((s, e), cb) ∈ rules := by
  induction rules with
  | nil => simp [Ruleset.find] at h
  | cons r rest ih =>
    obtain ⟨k, c⟩ := r
    unfold Ruleset.find at h
    split_ifs at h with hk
    · cases h
      subst hk
      exact List.mem_cons_self _ _
    · exact List.mem_cons_of_mem _ (ih h)

/-- Every callback of the receive machine rules is one of the six entry
actions. -/
theorem LacpRxMachineRules_callbacks (s e : Nat) (cb : Callback)
    (h : LacpRxMachineRules.find s e = some cb) :
    cb = LacpRxMachineInitialize ∨ cb = LacpRxMachinePortDisabled ∨
    cb = LacpRxMachineExpired ∨ cb = LacpRxMachineLacpDisabled ∨
    cb = LacpRxMachineDefaulted ∨ cb = LacpRxMachineCurrent := by
  have hm := Ruleset_find_mem _ _ _ _ h
  simp only [LacpRxMachineRules, Ruleset.AddRule, List.mem_cons, Prod.mk.injEq,
    List.mem_nil_iff, or_false] at hm
  rcases hm with hm | hm | hm | hm | hm | hm | hm | hm | hm | hm | hm | hm | hm | hm | hm |
    hm | hm | hm | hm
  all_goals first
    | exact Or.inl hm.2
    | exact Or.inr (Or.inl hm.2)
    | exact Or.inr (Or.inr (Or.inl hm.2))
    | exact Or.inr (Or.inr (Or.inr (Or.inl hm.2)))
    | exact Or.inr (Or.inr (Or.inr (Or.inr (Or.inl hm.2))))
    | exact Or.inr (Or.inr (Or.inr (Or.inr (Or.inr hm.2))))

/-- Entry to CURRENT without an LACPDU panics. -/
theorem LacpRxMachineCurrent_none (p : LaAggPort) : LacpRxMachineCurrent p none = none := rfl

/-- No callback of the receive machine rules raises `aggSelected` to Selected. -/
theorem rx_callback_aggSelected (s e : Nat) (cb : Callback)
    (hf : LacpRxMachineRules.find s e = some cb) (p : LaAggPort) (data : Option LacpPdu)
    (q : LaAggPort) (next : Nat) (h : cb p data = some (q, next)) :
    q.aggSelected = LacpAggUnSelected ∨ q.aggSelected = p.aggSelected := by
  rcases LacpRxMachineRules_callbacks s e cb hf with hc | hc | hc | hc | hc | hc <;> subst hc
  · rw [LacpRxMachineInitialize_eq] at h
    cases h; exact Or.inl rfl
  · rw [LacpRxMachinePortDisabled_eq] at h
    cases h; exact Or.inr rfl
  · rw [LacpRxMachineExpired_eq] at h
    cases h; exact Or.inr rfl
  · rw [LacpRxMachineLacpDisabled_eq] at h
    cases h; exact Or.inl rfl
  · rw [LacpRxMachineDefaulted_eq] at h
    cases h
    show (if _ then _ else _) = _ ∨ (if _ then _ else _) = _
    split_ifs
    · exact Or.inr rfl
    · exact Or.inl rfl
  · cases data with
    | none => rw [LacpRxMachineCurrent_none] at h; cases h
    | some pdu =>
      rw [LacpRxMachineCurrent_eq] at h
      cases h
      show (if _ then _ else _) = _ ∨ (if _ then _ else _) = _
      split_ifs
      · exact Or.inr rfl
      · exact Or.inl rfl

/-- One `ProcessEvent` of the receive machine leaves `aggSelected` as it was or
Unselected. -/
theorem RxProcessEvent_aggSelected (p : LaAggPort) (e : Nat) (data : Option LacpPdu)
    (q : LaAggPort) (o : FsmOutcome) (h : RxProcessEvent p e data = some (q, o)) :
    q.aggSelected = LacpAggUnSelected ∨ q.aggSelected = p.aggSelected := by
  cases hf : LacpRxMachineRules.find p.rxMachineFsm.state e with
  | none =>
    rw [RxProcessEvent_of_find_none data hf] at h
    cases h
    exact Or.inr rfl
  | some cb =>
    rw [RxProcessEvent_of_find data hf] at h
    cases hc : cb p data with
    | none => rw [hc] at h; cases h
    | some r =>
      obtain ⟨q1, next⟩ := r
      rw [hc] at h
      cases h
      exact rx_callback_aggSelected _ _ cb hf p data q1 next hc

/-- A sequence of receive machine events never raises `aggSelected` to
Selected. -/
theorem RxProcessEvents_not_selected (events : List (Nat × Option LacpPdu)) :
    ∀ (p q : LaAggPort), p.aggSelected ≠ LacpAggSelected → RxProcessEvents p events = some q →
      q.aggSelected ≠ LacpAggSelected := by
  induction events with
  | nil =>
    intro p q hp h
    cases h
    exact hp
  | cons ev rest ih =>
    intro p q hp h
    obtain ⟨e, data⟩ := ev
    unfold RxProcessEvents at h
    cases hs : RxProcessEvent p e data with
    | none => rw [hs] at h; cases h
    | some r =>
      obtain ⟨p1, o⟩ := r
      rw [hs] at h
      refine ih p1 q ?_ h
      rcases RxProcessEvent_aggSelected p e data p1 o hs with h1 | h1
      · rw [h1]; decide
      · rw [h1]; exact hp

/-- C37: no entry action of the receive machine sets `aggSelected` to Selected.
Entry to Initialize and to LacpDisabled leaves it Unselected; entry to
PortDisabled and to Expired leaves it as it was; entry to Defaulted and to
Current (on an LACPDU) leaves it Unselected or as it was. Hence a port that is
not Selected is not Selected after any sequence of events processed by the
receive machine. -/
theorem C37_rx_never_raises_selected (p : LaAggPort) (data : Option LacpPdu) (pdu : LacpPdu)
    (events : List (Nat × Option LacpPdu)) (q : LaAggPort) :
    (∃ r, LacpRxMachineInitialize p data = some (r, LacpRxmStateInitialize) ∧
      r.aggSelected = LacpAggUnSelected) ∧
    (∃ r, LacpRxMachineLacpDisabled p data = some (r, LacpRxmStateLacpDisabled) ∧
      r.aggSelected = LacpAggUnSelected) ∧
    (∃ r, LacpRxMachinePortDisabled p data = some (r, LacpRxmStatePortDisabled) ∧
      r.aggSelected = p.aggSelected) ∧
    (∃ r, LacpRxMachineExpired p data = some (r, LacpRxmStateExpired) ∧
      r.aggSelected = p.aggSelected) ∧
    (∃ r, LacpRxMachineDefaulted p data = some (r, LacpRxmStateDefaulted) ∧
      (r.aggSelected = LacpAggUnSelected ∨ r.aggSelected = p.aggSelected)) ∧
    (∃ r, LacpRxMachineCurrent p (some pdu) = some (r, LacpRxmStateCurrent) ∧
      (r.aggSelected = LacpAggUnSelected ∨ r.aggSelected = p.aggSelected)) ∧
    (p.aggSelected ≠ LacpAggSelected → RxProcessEvents p events = some q →
      q.aggSelected ≠ LacpAggSelected) := by
  refine ⟨⟨_, LacpRxMachineInitialize_eq p data, rfl⟩,
    ⟨_, LacpRxMachineLacpDisabled_eq p data, rfl⟩,
    ⟨_, LacpRxMachinePortDisabled_eq p data, rfl⟩,
    ⟨_, LacpRxMachineExpired_eq p data, rfl⟩,
    ⟨_, LacpRxMachineDefaulted_eq p data, ?_⟩,
    ⟨_, LacpRxMachineCurrent_eq p pdu, ?_⟩,
    RxProcessEvents_not_selected events p q⟩
  · show (if _ then _ else _) = _ ∨ (if _ then _ else _) = _
    split_ifs
    · exact Or.inr rfl
    · exact Or.inl rfl
  · show (if _ then _ else _) = _ ∨ (if _ then _ else _) = _
    split_ifs
    · exact Or.inr rfl
    · exact Or.inl rfl

/-- C37 at a concrete port: `standbyPort` (on standby, in CURRENT) receives an
LACPDU that disagrees with its Partner operational info and then the
current-while timer expires; afterwards it is Unselected. -/
theorem C37_rx_never_raises_selected_witness :
    standbyPort.aggSelected ≠ LacpAggSelected ∧
    ∃ q, RxProcessEvents standbyPort
        [(LacpRxmEventLacpPktRx, some disagreeingPdu),
         (LacpRxmEventCurrentWhileTimerExpired, none)] = some q ∧
      q.rxMachineFsm.state = LacpRxmStateExpired ∧
      q.aggSelected = LacpAggUnSelected ∧
      q.aggSelected ≠ LacpAggSelected :=
  ⟨by decide, _, rfl, by decide, by decide,
    (C37_rx_never_raises_selected standbyPort none disagreeingPdu
      [(LacpRxmEventLacpPktRx, some disagreeingPdu),
       (LacpRxmEventCurrentWhileTimerExpired, none)] _).2.2.2.2.2.2 (by decide) rfl⟩

/-- C38: every entry action of the receive machine (Initialize, PortDisabled,
Expired, LacpDisabled, Defaulted, and Current on an LACPDU) completes and
leaves the Actor operational Port Info, and so its state byte, exactly as it
was, and so do `recordPDU` and `recordDefault`: the values returned by
`LacpStateSet` and `LacpStateClear` are not stored. -/
theorem C38_rx_leaves_actor_state_unchanged (p : LaAggPort) (data : Option LacpPdu)
    (pdu : LacpPdu) :
    (∃ q, LacpRxMachineInitialize p data = some (q, LacpRxmStateInitialize) ∧
      q.actorOper = p.actorOper ∧ q.actorOper.state = p.actorOper.state) ∧
    (∃ q, LacpRxMachinePortDisabled p data = some (q, LacpRxmStatePortDisabled) ∧
      q.actorOper = p.actorOper ∧ q.actorOper.state = p.actorOper.state) ∧
    (∃ q, LacpRxMachineExpired p data = some (q, LacpRxmStateExpired) ∧
      q.actorOper = p.actorOper ∧ q.actorOper.state = p.actorOper.state) ∧
    (∃ q, LacpRxMachineLacpDisabled p data = some (q, LacpRxmStateLacpDisabled) ∧
      q.actorOper = p.actorOper ∧ q.actorOper.state = p.actorOper.state) ∧
    (∃ q, LacpRxMachineDefaulted p data = some (q, LacpRxmStateDefaulted) ∧
      q.actorOper = p.actorOper ∧ q.actorOper.state = p.actorOper.state) ∧
    (∃ q, LacpRxMachineCurrent p (some pdu) = some (q, LacpRxmStateCurrent) ∧
      q.actorOper = p.actorOper ∧ q.actorOper.state = p.actorOper.state) ∧
    (recordPDU p pdu).actorOper = p.actorOper ∧
    (recordPDU p pdu).actorOper.state = p.actorOper.state ∧
    (recordDefault p).actorOper = p.actorOper ∧
    (recordDefault p).actorOper.state = p.actorOper.state := by
  refine ⟨⟨_, LacpRxMachineInitialize_eq p data, rfl, rfl⟩,
    ⟨_, LacpRxMachinePortDisabled_eq p data, rfl, rfl⟩,
    ⟨_, LacpRxMachineExpired_eq p data, rfl, rfl⟩,
    ⟨_, LacpRxMachineLacpDisabled_eq p data, rfl, rfl⟩,
    ⟨_, LacpRxMachineDefaulted_eq p data, rfl, rfl⟩,
    ⟨_, LacpRxMachineCurrent_eq p pdu, rfl, rfl⟩, ?_, ?_, ?_, ?_⟩
  · rw [recordPDU_eq]
  · rw [recordPDU_eq]
  · rw [recordDefault_eq]
  · rw [recordDefault_eq]

/-! ## defs.go: the LACP mode of a port -/

/-- The Activity bit of a state byte masked to its Activity bit. -/
theorem LacpStateIsSet_activity_mask (state : Nat) :
    LacpStateIsSet (state &&& LacpStateActivityBit) LacpStateActivityBit
      = LacpStateIsSet state LacpStateActivityBit := by
  unfold LacpStateIsSet
  have h : LacpStateActivityBit &&& LacpStateActivityBit = LacpStateActivityBit := by decide
  rw [Nat.land_assoc, h]

/-- C39: `LacpModeGet state lacpDisabled` is `LacpModeOn` exactly when
`lacpDisabled` is true; with `lacpDisabled` false it is `LacpModeActive` when
the Activity bit of `state` is set and `LacpModePassive` otherwise; and it
depends on no other bit of `state`: it is the same for `state` and for `state`
masked to its Activity bit. -/
theorem C39_LacpModeGet_mode (state : Nat) (lacpDisabled : Bool) :
    (LacpModeGet state lacpDisabled = LacpModeOn ↔ lacpDisabled = true) ∧
    LacpModeGet state false =
      (if LacpStateIsSet state LacpStateActivityBit = true then LacpModeActive
       else LacpModePassive) ∧
    LacpModeGet state true = LacpModeOn ∧
    LacpModeGet state lacpDisabled
      = LacpModeGet (state &&& LacpStateActivityBit) lacpDisabled := by
  refine ⟨?_, ?_, rfl, ?_⟩
  · cases lacpDisabled
    · unfold LacpModeGet
      cases LacpStateIsSet state LacpStateActivityBit <;> decide
    · exact ⟨fun _ => rfl, fun _ => rfl⟩
  · unfold LacpModeGet
    cases LacpStateIsSet state LacpStateActivityBit <;> rfl
  · unfold LacpModeGet
    rw [LacpStateIsSet_activity_mask]

end Lacp

namespace Drcp

/-! ## Helper lemmas: the packing loop -/

/-- Reading a list after one assignment. -/
theorem getElem?_set_getD (l : List Nat) (i k a : Nat) (h : i < l.length) :
    (l.set i a)[k]?.getD 0 = if k = i then a else l[k]?.getD 0 := by
  simp only [List.getElem?_set]
  by_cases hk : k = i
  · subst hk
    simp [h]
  · have hk2 : ¬ i = k := fun hc => hk hc.symm
    simp [hk, hk2]

/-- One pass of the packing loop keeps the length of the vector, writes the
packed octet of quartet `i` to octet `i` and leaves the other octets. -/
theorem packQuartet_spec (conv : Nat → Bool) (i : Nat) (vector : List Nat)
    (hi : i < vector.length) :
    (packQuartet conv i (4 * i) vector).length = vector.length ∧
    ∀ k, (packQuartet conv i (4 * i) vector).getD k 0 =
      if k = i then packedOctet conv (vector.getD i 0) i else vector.getD k 0 := by
  unfold packQuartet packedOctet
  cases h0 : conv (4 * i) <;> cases h1 : conv (4 * i + 1) <;> cases h2 : conv (4 * i + 2) <;>
    cases h3 : conv (4 * i + 3) <;>
    refine ⟨by simp, fun k => ?_⟩ <;>
    by_cases hk : k = i <;>
    simp [getElem?_set_getD, hi, hk]

/-- What the packing loop started at octet `i` with `n` passes left does to a
vector that has room for them: it keeps the length, and octet `k` is the packed
octet of quartet `k` for `i ≤ k < i + n` and untouched otherwise. -/
theorem packConversationVectorLoop_spec (conv : Nat → Bool) (n : Nat) :
    ∀ (i : Nat) (vector : List Nat), i + n ≤ vector.length →
      (packConversationVectorLoop conv n i (4 * i) vector).length = vector.length ∧
      ∀ k, (packConversationVectorLoop conv n i (4 * i) vector).getD k 0 =
        if i ≤ k ∧ k < i + n then packedOctet conv (vector.getD k 0) k else vector.getD k 0 := by
  induction n with
  | zero =>
    intro i vector _
    refine ⟨rfl, fun k => ?_⟩
    have : ¬ (i ≤ k ∧ k < i + 0) := by omega
    simp only [packConversationVectorLoop, this, if_false]
  | succ n ih =>
    intro i vector hlen
    have hi : i < vector.length := by omega
    obtain ⟨hql, hqg⟩ := packQuartet_spec conv i vector hi
    have hstep : packConversationVectorLoop conv (n + 1) i (4 * i) vector =
        packConversationVectorLoop conv n (i + 1) (4 * (i + 1))
          (packQuartet conv i (4 * i) vector) := rfl
    obtain ⟨hl, hg⟩ := ih (i + 1) (packQuartet conv i (4 * i) vector) (by rw [hql]; omega)
    rw [hstep]
    refine ⟨hl.trans hql, fun k => ?_⟩
    rw [hg k, hqg k]
    by_cases hk : k = i
    · subst hk
      have h1 : ¬ (k + 1 ≤ k ∧ k < k + 1 + n) := by omega
      have h2 : k ≤ k ∧ k < k + (n + 1) := by omega
      simp only [h1, h2, if_false, if_true, and_self]
    · by_cases hr : i + 1 ≤ k ∧ k < i + 1 + n
      · have h2 : i ≤ k ∧ k < i + (n + 1) := by omega
        simp only [hr, h2, hk, if_true, if_false, and_self]
      · have h2 : ¬ (i ≤ k ∧ k < i + (n + 1)) := by omega
        simp only [hr, h2, hk, if_false]

/-- The packing loop of the transmit machine on a 512-octet vector: octet `k`
becomes the packed octet of quartet `k`. -/
theorem packConversationVector_getD (conv : Nat → Bool) (vector : List Nat)
    (hlen : vector.length = 512) (k : Nat) (hk : k < 512) :
    (packConversationVector conv vector).getD k 0 = packedOctet conv (vector.getD k 0) k := by
  have h := (packConversationVectorLoop_spec conv 512 0 vector (by omega)).2 k
  have hc : 0 ≤ k ∧ k < 0 + 512 := by omega
  rw [if_pos hc] at h
  exact h

/-- The packing loop keeps the length of the vector. -/
theorem packConversationVector_length (conv : Nat → Bool) (vector : List Nat)
    (hlen : vector.length = 512) : (packConversationVector conv vector).length = 512 := by
  have h := (packConversationVectorLoop_spec conv 512 0 vector (by omega)).1
  exact h.trans hlen

/-- The zero vector has 512 octets. -/
theorem zeroVector_length : zeroVector.length = 512 := by
  simp only [zeroVector, List.length_replicate]

/-- Every entry of a list of zeros reads as 0. -/
theorem replicate_zero_getD (n k : Nat) : (List.replicate n 0).getD k 0 = 0 := by
  by_cases hk : k < n
  · simp [List.getD_eq_getElem?_getD, List.getElem?_replicate, hk]
  · simp [List.getD_eq_getElem?_getD, List.getElem?_replicate, hk]

/-- Every octet of the zero vector is 0. -/
theorem zeroVector_getD (k : Nat) : zeroVector.getD k 0 = 0 :=
  replicate_zero_getD 512 k

/-- The packed form of a conversation vector is determined by its packed
octets. -/
theorem packConversationVector_ext (c1 c2 : Nat → Bool)
    (h : ∀ k, k < 512 → packedOctet c1 0 k = packedOctet c2 0 k) :
    packConversationVector c1 zeroVector = packConversationVector c2 zeroVector := by
  have hz := zeroVector_length
  apply List.ext_getElem
  · rw [packConversationVector_length c1 _ hz, packConversationVector_length c2 _ hz]
  · intro k hk1 hk2
    have hk : k < 512 := by rw [packConversationVector_length c1 _ hz] at hk1; exact hk1
    have e1 := packConversationVector_getD c1 zeroVector hz k hk
    have e2 := packConversationVector_getD c2 zeroVector hz k hk
    rw [List.getD_eq_getElem _ _ hk1, zeroVector_getD] at e1
    rw [List.getD_eq_getElem _ _ hk2, zeroVector_getD] at e2
    rw [e1, e2, h k hk]

/-- Two conversation vectors that agree on the conversations 0..2047 are packed
into the same 512 octets. -/
theorem packConversationVector_congr (c1 c2 : Nat → Bool)
    (h : ∀ c, c < 2048 → c1 c = c2 c) :
    packConversationVector c1 zeroVector = packConversationVector c2 zeroVector := by
  apply packConversationVector_ext
  intro k hk
  unfold packedOctet
  rw [h (4 * k + 3) (by omega), h (4 * k + 2) (by omega), h (4 * k + 1) (by omega),
    h (4 * k) (by omega)]

/-! ## Helper lemmas: the On entry action -/

/-- One pass of the packet loop counts one DRCPDU, appends one built DRCPDU and
leaves the flags and the machine state as they were. -/
theorem DrcpTxMachineOnPkt_effect (env : DrcpEnv) (dr : DistributedRelay) (p : DRCPIpp)
    (pkt : Nat) :
    (DrcpTxMachineOnPkt env dr p pkt).DRCPDUsTX = p.DRCPDUsTX + 1 ∧
    (∃ b, (DrcpTxMachineOnPkt env dr p pkt).txBuilt = p.txBuilt ++ [b]) ∧
    (DrcpTxMachineOnPkt env dr p pkt).TxMachineFsm = p.TxMachineFsm := by
  unfold DrcpTxMachineOnPkt
  simp only []
  split_ifs <;> exact ⟨rfl, ⟨_, rfl⟩, rfl⟩

/-- The On entry action always clears `NTTDRCPDU`, returns On and leaves the
machine record as it was. -/
theorem DrcpTxMachineOn_ntt (env : DrcpEnv) (dr : DistributedRelay) (p : DRCPIpp) :
    (DrcpTxMachineOn env dr p).1.NTTDRCPDU = false ∧
    (DrcpTxMachineOn env dr p).2 = TxmStateOn := ⟨rfl, rfl⟩

set_option maxRecDepth 8000 in
/-- One pass of the packet loop on an IPP that transmits the port conversation
vector only, in a two-system portal: the built DRCPDU carries the packed port
conversation vector. -/
theorem DrcpTxMachineOnPkt_portVector (env : DrcpEnv) (dr : DistributedRelay) (p : DRCPIpp)
    (pkt : Nat) (hG : p.GatewayConversationTransmit = false)
    (hP : p.PortConversationTransmit = true) (h3 : dr.DrniThreeSystemPortal = false) :
    ∃ b, (DrcpTxMachineOnPkt env dr p pkt).txBuilt = p.txBuilt ++ [b] ∧
      b.drcp.DRCP2PortConversationVectorTlv.Vector =
        packConversationVector dr.DrniPortalSystemPortConversation zeroVector := by
  unfold DrcpTxMachineOnPkt conversationVectorTlvs
  simp only [hG, hP, h3, Bool.false_and, Bool.and_false, Bool.not_false, if_true, if_false,
    Bool.false_eq_true]
  split_ifs <;> exact ⟨_, rfl, rfl⟩

/-- The On entry action, with the packet loop unrolled. -/
theorem DrcpTxMachineOn_fst (env : DrcpEnv) (dr : DistributedRelay) (p : DRCPIpp) :
    (DrcpTxMachineOn env dr p).1 =
      { (if (p.NTTDRCPDU && p.DRCPEnabled) = true then
           (if (p.GatewayConversationTransmit && p.PortConversationTransmit &&
                !dr.DrniCommonMethods) = true then
              DrcpTxMachineOnPkt env dr (DrcpTxMachineOnPkt env dr p 0) 1
            else DrcpTxMachineOnPkt env dr p 0)
         else p) with NTTDRCPDU := false } := by
  unfold DrcpTxMachineOn
  simp only []
  split_ifs <;> rfl

/-- Processing an event for which the transmit machine's rule table holds a
callback. -/
theorem TxProcessEvent_of_find (env : DrcpEnv) (dr : DistributedRelay) {p : DRCPIpp} {e : Nat}
    {cb : TxCallback} (hf : DrcpTxMachineRules.find p.TxMachineFsm.state e = some cb) :
    TxProcessEvent env dr p e =
      ({ (cb env dr p).1 with
          TxMachineFsm := { (cb env dr p).1.TxMachineFsm with state := (cb env dr p).2 } },
        Lacp.FsmOutcome.transitioned) := by
  unfold TxProcessEvent
  rw [hf]

/-! ## DRCP transmit machine: NTT, packet count, transitions -/

/-- C25 (as stated, refuted): on an IPP whose computed DRCPDU length (94 octets)
exceeds the egress MTU (64), the On entry action logs the oversize diagnostic
and still clears `NTTDRCPDU`; it is false after the entry action and after the
whole Ntt event (On, then the fall-through to Off). -/
theorem C25_ntt_cleared_on_oversize :
    (DrcpTxMachineOn (envWithMtu 64) relayWithOnePort readyIppWithGatewayVector).1.txBuilt.map
        (fun b => b.pktLength) = [94] ∧
    (envWithMtu 64).PortMtu readyIppWithGatewayVector.Id = 64 ∧
    (DrcpTxMachineOn (envWithMtu 64) relayWithOnePort readyIppWithGatewayVector).1.log
      = [DrcpLogEntry.oversize 94 64] ∧
    (DrcpTxMachineOn (envWithMtu 64) relayWithOnePort readyIppWithGatewayVector).1.NTTDRCPDU
      = false ∧
    (TxMachineMainEvent (envWithMtu 64) relayWithOnePort readyIppWithGatewayVector
        { E := TxmEventNtt, Src := "", ResponseChan := false }).1.NTTDRCPDU = false ∧
    (TxMachineMainEvent (envWithMtu 64) relayWithOnePort readyIppWithGatewayVector
        { E := TxmEventNtt, Src := "", ResponseChan := false }).1.TxMachineFsm.state
      = TxmStateOff := by
  decide

/-- C25 (amended): `NTTDRCPDU` is false after the On entry action and after the
Off entry action of the fall-through, for every platform, relay and IPP, and
so also when the computed DRCPDU length exceeds the IPP's egress MTU. -/
theorem C25_ntt_always_cleared (env : DrcpEnv) (dr : DistributedRelay) (p : DRCPIpp) :
    (DrcpTxMachineOn env dr p).1.NTTDRCPDU = false ∧
    (DrcpTxMachineOn env dr p).2 = TxmStateOn ∧
    (DrcpTxMachineOff env dr (DrcpTxMachineOn env dr p).1).1.NTTDRCPDU = false ∧
    (DrcpTxMachineOff env dr (DrcpTxMachineOn env dr p).1).2 = TxmStateOff :=
  ⟨rfl, rfl, rfl, rfl⟩

/-- C26: one execution of the On entry action builds, and counts in
`DRCPDUsTX`, exactly two DRCPDUs when `NTTDRCPDU`, `DRCPEnabled`,
`GatewayConversationTransmit` and `PortConversationTransmit` are true and
`DrniCommonMethods` is false, exactly one when `NTTDRCPDU` and `DRCPEnabled` are
true and that condition fails, and none when `NTTDRCPDU` or `DRCPEnabled` is
false. -/
theorem C26_on_entry_packet_count (env : DrcpEnv) (dr : DistributedRelay) (p : DRCPIpp) :
    ∃ built : List BuiltDRCPDU,
      (DrcpTxMachineOn env dr p).1.txBuilt = p.txBuilt ++ built ∧
      (DrcpTxMachineOn env dr p).1.DRCPDUsTX = p.DRCPDUsTX + built.length ∧
      built.length =
        if p.NTTDRCPDU = true ∧ p.DRCPEnabled = true then
          if p.GatewayConversationTransmit = true ∧ p.PortConversationTransmit = true ∧
              dr.DrniCommonMethods = false then 2
          else 1
        else 0 := by
  rw [DrcpTxMachineOn_fst]
  by_cases h1 : p.NTTDRCPDU = true ∧ p.DRCPEnabled = true
  · have h1b : (p.NTTDRCPDU && p.DRCPEnabled) = true := by simp [h1.1, h1.2]
    by_cases h2 : p.GatewayConversationTransmit = true ∧ p.PortConversationTransmit = true ∧
        dr.DrniCommonMethods = false
    · have h2b : (p.GatewayConversationTransmit && p.PortConversationTransmit &&
          !dr.DrniCommonMethods) = true := by simp [h2.1, h2.2.1, h2.2.2]
      obtain ⟨hc0, ⟨b0, hb0⟩, _⟩ := DrcpTxMachineOnPkt_effect env dr p 0
      obtain ⟨hc1, ⟨b1, hb1⟩, _⟩ :=
        DrcpTxMachineOnPkt_effect env dr (DrcpTxMachineOnPkt env dr p 0) 1
      refine ⟨[b0, b1], ?_, ?_, ?_⟩
      · rw [if_pos h1b, if_pos h2b, hb1, hb0]
        simp
      · rw [if_pos h1b, if_pos h2b, hc1, hc0]
        rfl
      · rw [if_pos h1, if_pos h2]
        rfl
    · have h2b : ¬ (p.GatewayConversationTransmit && p.PortConversationTransmit &&
          !dr.DrniCommonMethods) = true := by
        intro hc
        apply h2
        simpa [and_assoc] using hc
      obtain ⟨hc0, ⟨b0, hb0⟩, _⟩ := DrcpTxMachineOnPkt_effect env dr p 0
      refine ⟨[b0], ?_, ?_, ?_⟩
      · rw [if_pos h1b, if_neg h2b, hb0]
      · rw [if_pos h1b, if_neg h2b, hc0]
        rfl
      · rw [if_pos h1, if_neg h2]
        rfl
  · have h1b : ¬ (p.NTTDRCPDU && p.DRCPEnabled) = true := by
      intro hc
      apply h1
      simpa using hc
    refine ⟨[], ?_, ?_, ?_⟩
    · rw [if_neg h1b]
      simp
    · rw [if_neg h1b]
      rfl
    · rw [if_neg h1]
      rfl

/-- The main loop on an Ntt event in Off: On entry, then the fall-through. -/
theorem TxMachineMainEvent_ntt_off (env : DrcpEnv) (dr : DistributedRelay) (p : DRCPIpp)
    (src : String) (responseChan : Bool) (hs : p.TxMachineFsm.state = TxmStateOff) :
    (TxMachineMainEvent env dr p { E := TxmEventNtt, Src := src, ResponseChan := responseChan }).1
      = { (DrcpTxMachineOn env dr { p with NTTDRCPDU := true }).1 with
          TxMachineFsm :=
            { (DrcpTxMachineOn env dr { p with NTTDRCPDU := true }).1.TxMachineFsm with
              state := TxmStateOff } } := by
  have hf1 : DrcpTxMachineRules.find ({ p with NTTDRCPDU := true } : DRCPIpp).TxMachineFsm.state
      TxmEventNtt = some DrcpTxMachineOn := by
    show DrcpTxMachineRules.find p.TxMachineFsm.state TxmEventNtt = some DrcpTxMachineOn
    rw [hs]; rfl
  have e1 := TxProcessEvent_of_find env dr hf1
  have hf2 : DrcpTxMachineRules.find TxmStateOn TxmEventUnconditionalFallThrough
      = some DrcpTxMachineOff := rfl
  unfold TxMachineMainEvent
  simp only [beq_self_eq_true, if_true, e1]
  have e2 := TxProcessEvent_of_find env dr
    (p := { (DrcpTxMachineOn env dr { p with NTTDRCPDU := true }).1 with
            TxMachineFsm :=
              { (DrcpTxMachineOn env dr { p with NTTDRCPDU := true }).1.TxMachineFsm with
                state := (DrcpTxMachineOn env dr { p with NTTDRCPDU := true }).2 } })
    (e := TxmEventUnconditionalFallThrough) hf2
  rw [e2]
  rfl

/-- The main loop on a Begin event in None, On or Off: the Off entry action. -/
theorem TxMachineMainEvent_begin (env : DrcpEnv) (dr : DistributedRelay) (p : DRCPIpp)
    (src : String) (responseChan : Bool)
    (hs : p.TxMachineFsm.state = TxmStateNone ∨ p.TxMachineFsm.state = TxmStateOn ∨
      p.TxMachineFsm.state = TxmStateOff) :
    (TxMachineMainEvent env dr p
        { E := TxmEventBegin, Src := src, ResponseChan := responseChan }).1
      = { p with
          NTTDRCPDU := false
          TxMachineFsm := { p.TxMachineFsm with state := TxmStateOff } } := by
  have hf1 : DrcpTxMachineRules.find p.TxMachineFsm.state TxmEventBegin
      = some DrcpTxMachineOff := by
    rcases hs with hs | hs | hs <;> (rw [hs]; rfl)
  have e1 := TxProcessEvent_of_find env dr hf1
  unfold TxMachineMainEvent
  have hne : (TxmEventBegin == TxmEventNtt) = false := by decide
  simp only [hne, Bool.false_eq_true, if_false, e1]
  rfl

/-- C27: processing an Ntt event while the transmit machine is in Off runs the
On entry action (on the IPP with `NTTDRCPDU` set by the loop) and then the
unconditional fall-through, so the machine ends in Off with `NTTDRCPDU` false
and with the DRCPDUs of that On entry built; a Begin event from None, On or Off
likewise ends in Off with `NTTDRCPDU` false. -/
theorem C27_ntt_and_begin_end_in_off (env : DrcpEnv) (dr : DistributedRelay) (p : DRCPIpp)
    (src : String) (responseChan : Bool) :
    (p.TxMachineFsm.state = TxmStateOff →
      (TxMachineMainEvent env dr p
          { E := TxmEventNtt, Src := src, ResponseChan := responseChan }).1.TxMachineFsm.state
        = TxmStateOff ∧
      (TxMachineMainEvent env dr p
          { E := TxmEventNtt, Src := src, ResponseChan := responseChan }).1.NTTDRCPDU = false ∧
      (TxMachineMainEvent env dr p
          { E := TxmEventNtt, Src := src, ResponseChan := responseChan }).1.txBuilt
        = (DrcpTxMachineOn env dr { p with NTTDRCPDU := true }).1.txBuilt ∧
      (TxProcessEvent env dr { p with NTTDRCPDU := true } TxmEventNtt).1.TxMachineFsm.state
        = TxmStateOn) ∧
    ((p.TxMachineFsm.state = TxmStateNone ∨ p.TxMachineFsm.state = TxmStateOn ∨
        p.TxMachineFsm.state = TxmStateOff) →
      (TxMachineMainEvent env dr p
          { E := TxmEventBegin, Src := src, ResponseChan := responseChan }).1.TxMachineFsm.state
        = TxmStateOff ∧
      (TxMachineMainEvent env dr p
          { E := TxmEventBegin, Src := src, ResponseChan := responseChan }).1.NTTDRCPDU
        = false) := by
  constructor
  · intro hs
    have hf1 : DrcpTxMachineRules.find
        ({ p with NTTDRCPDU := true } : DRCPIpp).TxMachineFsm.state TxmEventNtt
        = some DrcpTxMachineOn := by
      show DrcpTxMachineRules.find p.TxMachineFsm.state TxmEventNtt = some DrcpTxMachineOn
      rw [hs]; rfl
    rw [TxMachineMainEvent_ntt_off env dr p src responseChan hs,
      TxProcessEvent_of_find env dr hf1]
    exact ⟨rfl, rfl, rfl, rfl⟩
  · intro hs
    rw [TxMachineMainEvent_begin env dr p src responseChan hs]
    exact ⟨rfl, rfl⟩

/-- C27 at concrete IPPs: `readyIpp` (in Off) on Ntt and on Begin. -/
theorem C27_ntt_and_begin_end_in_off_witness :
    ((TxMachineMainEvent (envWithMtu 1500) zeroRelay readyIpp
          { E := TxmEventNtt, Src := "", ResponseChan := false }).1.TxMachineFsm.state
        = TxmStateOff ∧
      (TxMachineMainEvent (envWithMtu 1500) zeroRelay readyIpp
          { E := TxmEventNtt, Src := "", ResponseChan := false }).1.NTTDRCPDU = false ∧
      (TxMachineMainEvent (envWithMtu 1500) zeroRelay readyIpp
          { E := TxmEventNtt, Src := "", ResponseChan := false }).1.txBuilt
        = (DrcpTxMachineOn (envWithMtu 1500) zeroRelay
            { readyIpp with NTTDRCPDU := true }).1.txBuilt ∧
      (TxProcessEvent (envWithMtu 1500) zeroRelay { readyIpp with NTTDRCPDU := true }
          TxmEventNtt).1.TxMachineFsm.state = TxmStateOn) ∧
    ((TxMachineMainEvent (envWithMtu 1500) zeroRelay readyIpp
          { E := TxmEventBegin, Src := "", ResponseChan := false }).1.TxMachineFsm.state
        = TxmStateOff ∧
      (TxMachineMainEvent (envWithMtu 1500) zeroRelay readyIpp
          { E := TxmEventBegin, Src := "", ResponseChan := false }).1.NTTDRCPDU = false) :=
  ⟨(C27_ntt_and_begin_end_in_off (envWithMtu 1500) zeroRelay readyIpp "" false).1 rfl,
   (C27_ntt_and_begin_end_in_off (envWithMtu 1500) zeroRelay readyIpp "" false).2
     (Or.inr (Or.inr rfl))⟩

/-! ## DRCP transmit machine: conversation vector packing, Home Ports Info -/

/-- C28: the packing loop assigns each bit to the octet instead of OR-ing it
in. With conversations 0 and 1 both enabled, octet 0 of the packed vector is
4 (only the bit of conversation 1): bit 3, the bit of conversation 0, is clear
although conversation 0 is enabled. The 2P Port Conversation Vector TLV the
transmit machine builds from that vector carries this octet. -/
theorem C28_packing_overwrites_earlier_bits :
    convZeroAndOne (4 * 0 + 0) = true ∧
    (packConversationVector convZeroAndOne zeroVector).getD 0 0 = 4 ∧
    (4 : Nat) &&& (8 >>> 0) = 0 ∧
    (∃ b, (DrcpTxMachineOnPkt (envWithMtu 1500) relayWithPortConversations portVectorIpp
          0).txBuilt = [b] ∧
      b.drcp.DRCP2PortConversationVectorTlv.Vector.getD 0 0 = 4) := by
  have h4 : (packConversationVector convZeroAndOne zeroVector).getD 0 0 = 4 := by
    rw [packConversationVector_getD convZeroAndOne zeroVector zeroVector_length 0 (by decide)]
    decide
  refine ⟨by decide, h4, by decide, ?_⟩
  obtain ⟨b, hb, hv⟩ := DrcpTxMachineOnPkt_portVector (envWithMtu 1500)
    relayWithPortConversations portVectorIpp 0 rfl rfl rfl
  refine ⟨b, hb, ?_⟩
  rw [hv]
  exact h4

/-- C29: the packing is not injective. The vector with conversations 0 and 1
enabled and the vector with only conversation 1 enabled differ at conversation
0 and are packed into the same 512 octets (the bit of conversation 0 is
overwritten); the vector with only conversation 3000 enabled and the empty
vector differ at conversation 3000 and are packed into the same 512 octets
(the loop reads conversations 0..2047 only). -/
theorem C29_packing_not_injective :
    convZeroAndOne 0 ≠ convOneOnly 0 ∧
    packConversationVector convZeroAndOne zeroVector
      = packConversationVector convOneOnly zeroVector ∧
    convThreeThousand 3000 ≠ (fun _ => false) 3000 ∧
    packConversationVector convThreeThousand zeroVector
      = packConversationVector (fun _ => false) zeroVector := by
  refine ⟨by decide, ?_, by decide, ?_⟩
  · apply packConversationVector_ext
    intro k hk
    by_cases h0 : k = 0
    · subst h0
      decide
    · have e0 : ∀ c, 4 ≤ c → convZeroAndOne c = false := by
        intro c hc
        have h1 : c ≠ 0 := by omega
        have h2 : c ≠ 1 := by omega
        simp [convZeroAndOne, h1, h2]
      have e1 : ∀ c, 4 ≤ c → convOneOnly c = false := by
        intro c hc
        have h2 : c ≠ 1 := by omega
        simp [convOneOnly, h2]
      unfold packedOctet
      rw [e0 (4 * k + 3) (by omega), e0 (4 * k + 2) (by omega), e0 (4 * k + 1) (by omega),
        e0 (4 * k) (by omega), e1 (4 * k + 3) (by omega), e1 (4 * k + 2) (by omega),
        e1 (4 * k + 1) (by omega), e1 (4 * k) (by omega)]
  · apply packConversationVector_congr
    intro c hc
    have h1 : c ≠ 3000 := by omega
    simp [convThreeThousand, h1]

/-- C30: the length the transmit machine writes into the Home Ports Info TLV is
4 plus the number of active home ports, not 6 plus four times that number:
with one active home port it writes 5 (and adds 5 + 2 to the packet length,
which is 14 + 20 + 48 + 5 + 7 = 94), with none it writes 4. -/
theorem C30_home_ports_info_length :
    (DrcpTxMachineOn (envWithMtu 1500) relayWithOnePort readyIpp).1.txBuilt.map
        (fun b => (b.drcp.HomePortsInfo.ActiveHomePorts.length,
          b.drcp.HomePortsInfo.TlvTypeLength.length, b.pktLength)) = [(1, 5, 94)] ∧
    (DrcpTxMachineOn (envWithMtu 1500) zeroRelay readyIpp).1.txBuilt.map
        (fun b => (b.drcp.HomePortsInfo.ActiveHomePorts.length,
          b.drcp.HomePortsInfo.TlvTypeLength.length, b.pktLength)) = [(0, 4, 93)] ∧
    (5 : Nat) ≠ 6 + 4 * 1 ∧ (4 : Nat) ≠ 6 + 4 * 0 := by
  decide

/-! ## DRCP transmit machine: the MTU comparison, three-system portals -/

/-- The DRCPDU built up to the MTU comparison does not depend on the transmit
counter. -/
theorem DrcpTxMachineOnPktAtMtuCheck_counter (env : DrcpEnv) (dr : DistributedRelay)
    (p : DRCPIpp) (pkt n : Nat) :
    DrcpTxMachineOnPktAtMtuCheck env dr { p with DRCPDUsTX := n } pkt
      = DrcpTxMachineOnPktAtMtuCheck env dr p pkt := rfl

/-- One pass of the packet loop through the MTU comparison, in terms of the
IPP with its transmit counter incremented. -/
theorem DrcpTxMachineOnPkt_mtu_counted (env : DrcpEnv) (dr : DistributedRelay) (p : DRCPIpp)
    (pkt : Nat) :
    (DrcpTxMachineOnPkt env dr p pkt).log =
      (if (p.HomeGatewayVectorTransmit = true ∨ p.OtherGatewayVectorTransmit = true) ∧
          (DrcpTxMachineOnPktAtMtuCheck env dr { p with DRCPDUsTX := p.DRCPDUsTX + 1 }
            pkt).pktLength > env.PortMtu p.Id
       then p.log ++ [DrcpLogEntry.oversize
          (DrcpTxMachineOnPktAtMtuCheck env dr { p with DRCPDUsTX := p.DRCPDUsTX + 1 }
            pkt).pktLength (env.PortMtu p.Id)]
       else p.log) ∧
    ∃ b, (DrcpTxMachineOnPkt env dr p pkt).txBuilt = p.txBuilt ++ [b] ∧
      b.pktLength =
        if p.DRFHomeNetworkIPLSharingMethod ≠ [0, 0, 0, 0] then
          u32 (u32 ((DrcpTxMachineOnPktAtMtuCheck env dr
                { p with DRCPDUsTX := p.DRCPDUsTX + 1 } pkt).pktLength +
              u32 (u32 DRCPTLVNetworkIPLSharingMethodLength + u32 DRCPTlvAndLengthSize)) +
            u32 (u32 DRCPTLVNetworkIPLSharingEncapsulationLength + u32 DRCPTlvAndLengthSize))
        else (DrcpTxMachineOnPktAtMtuCheck env dr { p with DRCPDUsTX := p.DRCPDUsTX + 1 }
          pkt).pktLength := by
  unfold DrcpTxMachineOnPkt DrcpTxMachineOnPktAtMtuCheck
  simp only [DrcpTxmLog, Bool.and_eq_true, Bool.or_eq_true, decide_eq_true_eq, bne_iff_ne, ne_eq]
  split_ifs <;> first
    | exact ⟨rfl, _, rfl, rfl⟩
    | omega

/-- One pass of the packet loop through the MTU comparison: the diagnostic is
logged exactly when a gateway vector transmit flag is set and the length built
so far exceeds the port MTU; the Network/IPL sharing TLVs are added to the
length afterwards. -/
theorem DrcpTxMachineOnPkt_mtu (env : DrcpEnv) (dr : DistributedRelay) (p : DRCPIpp)
    (pkt : Nat) :
    (DrcpTxMachineOnPkt env dr p pkt).log =
      (if (p.HomeGatewayVectorTransmit = true ∨ p.OtherGatewayVectorTransmit = true) ∧
          (DrcpTxMachineOnPktAtMtuCheck env dr p pkt).pktLength > env.PortMtu p.Id
       then p.log ++ [DrcpLogEntry.oversize
          (DrcpTxMachineOnPktAtMtuCheck env dr p pkt).pktLength (env.PortMtu p.Id)]
       else p.log) ∧
    ∃ b, (DrcpTxMachineOnPkt env dr p pkt).txBuilt = p.txBuilt ++ [b] ∧
      b.pktLength =
        if p.DRFHomeNetworkIPLSharingMethod ≠ [0, 0, 0, 0] then
          u32 (u32 ((DrcpTxMachineOnPktAtMtuCheck env dr p pkt).pktLength +
              u32 (u32 DRCPTLVNetworkIPLSharingMethodLength + u32 DRCPTlvAndLengthSize)) +
            u32 (u32 DRCPTLVNetworkIPLSharingEncapsulationLength + u32 DRCPTlvAndLengthSize))
        else (DrcpTxMachineOnPktAtMtuCheck env dr p pkt).pktLength := by
  have h := DrcpTxMachineOnPkt_mtu_counted env dr p pkt
  rw [DrcpTxMachineOnPktAtMtuCheck_counter] at h
  exact h

/-- C31 (as stated, refuted): an oversize DRCPDU is counted and, unless a
gateway vector transmit flag is set, not reported. On `readyIpp` (both flags
clear) with a port MTU of 64 the DRCPDU built is 94 octets long, nothing is
logged, the DRCPDU is kept and `DRCPDUsTX` is incremented; with
`HomeGatewayVectorTransmit` set the diagnostic is logged and the DRCPDU is
still kept and counted; and on `iplSharingIpp` with a port MTU of 100 the
length compared is 94, the DRCPDU built is 139 octets long and nothing is
logged. -/
theorem C31_oversize_counted_and_unreported :
    (envWithMtu 64).PortMtu readyIpp.Id = 64 ∧
    (DrcpTxMachineOnPkt (envWithMtu 64) relayWithOnePort readyIpp 0).txBuilt.map
        (fun b => b.pktLength) = [94] ∧
    (DrcpTxMachineOnPkt (envWithMtu 64) relayWithOnePort readyIpp 0).log = [] ∧
    (DrcpTxMachineOnPkt (envWithMtu 64) relayWithOnePort readyIpp 0).DRCPDUsTX
      = readyIpp.DRCPDUsTX + 1 ∧
    (DrcpTxMachineOnPkt (envWithMtu 64) relayWithOnePort readyIppWithGatewayVector 0).log
      = [DrcpLogEntry.oversize 94 64] ∧
    (DrcpTxMachineOnPkt (envWithMtu 64) relayWithOnePort readyIppWithGatewayVector
        0).txBuilt.map (fun b => b.pktLength) = [94] ∧
    (DrcpTxMachineOnPkt (envWithMtu 64) relayWithOnePort readyIppWithGatewayVector 0).DRCPDUsTX
      = readyIppWithGatewayVector.DRCPDUsTX + 1 ∧
    (envWithMtu 100).PortMtu iplSharingIpp.Id = 100 ∧
    (DrcpTxMachineOnPktAtMtuCheck (envWithMtu 100) relayWithOnePort iplSharingIpp 0).pktLength
      = 94 ∧
    (DrcpTxMachineOnPkt (envWithMtu 100) relayWithOnePort iplSharingIpp 0).txBuilt.map
        (fun b => b.pktLength) = [139] ∧
    (DrcpTxMachineOnPkt (envWithMtu 100) relayWithOnePort iplSharingIpp 0).log = [] := by
  decide

/-- C31 (amended): for every DRCPDU the transmit machine builds, the oversize
diagnostic is logged exactly when `HomeGatewayVectorTransmit` or
`OtherGatewayVectorTransmit` is set and the length built up to and including
the Home Ports Info TLV exceeds the IPP's port MTU; the Network/IPL sharing
TLVs are added to the length after the comparison; and in every case the
DRCPDU is kept and counted in `DRCPDUsTX`. -/
theorem C31_oversize_diagnostic_gated_and_counted (env : DrcpEnv) (dr : DistributedRelay)
    (p : DRCPIpp) (pkt : Nat) :
    (DrcpTxMachineOnPkt env dr p pkt).DRCPDUsTX = p.DRCPDUsTX + 1 ∧
    (DrcpTxMachineOnPkt env dr p pkt).log =
      (if (p.HomeGatewayVectorTransmit = true ∨ p.OtherGatewayVectorTransmit = true) ∧
          (DrcpTxMachineOnPktAtMtuCheck env dr p pkt).pktLength > env.PortMtu p.Id
       then p.log ++ [DrcpLogEntry.oversize
          (DrcpTxMachineOnPktAtMtuCheck env dr p pkt).pktLength (env.PortMtu p.Id)]
       else p.log) ∧
    ∃ b, (DrcpTxMachineOnPkt env dr p pkt).txBuilt = p.txBuilt ++ [b] ∧
      b.pktLength =
        if p.DRFHomeNetworkIPLSharingMethod ≠ [0, 0, 0, 0] then
          u32 (u32 ((DrcpTxMachineOnPktAtMtuCheck env dr p pkt).pktLength +
              u32 (u32 DRCPTLVNetworkIPLSharingMethodLength + u32 DRCPTlvAndLengthSize)) +
            u32 (u32 DRCPTLVNetworkIPLSharingEncapsulationLength + u32 DRCPTlvAndLengthSize))
        else (DrcpTxMachineOnPktAtMtuCheck env dr p pkt).pktLength :=
  ⟨(DrcpTxMachineOnPkt_effect env dr p pkt).1, DrcpTxMachineOnPkt_mtu env dr p pkt⟩

/-- In a three-system portal the conversation vector `if` chain changes the
DRCPDU only for the second packet of a two-packet burst, where it sets the
header of the 2P Port Conversation Vector TLV. -/
theorem conversationVectorTlvs_threeSystem (dr : DistributedRelay) (p : DRCPIpp) (pkt : Nat)
    (b : BuiltDRCPDU) :
    conversationVectorTlvs { dr with DrniThreeSystemPortal := true } p pkt b =
      if (p.GatewayConversationTransmit && p.PortConversationTransmit &&
          !dr.DrniCommonMethods && pkt != 0) = true
      then setPortConversationVectorHeader b else b := by
  unfold conversationVectorTlvs
  cases p.GatewayConversationTransmit <;> cases p.PortConversationTransmit <;>
    cases dr.DrniCommonMethods <;> cases h : (pkt == 0) <;>
    simp [h, bne]

/-- C40: in a three-system portal the second packet of a two-packet burst
carries the header of the 2P Port Conversation Vector TLV. For every relay with
`DrniThreeSystemPortal` true the conversation vector step sets that header
(type, length 512, 514 octets added to the packet length) when
`GatewayConversationTransmit` and `PortConversationTransmit` are set,
`DrniCommonMethods` is false and the packet is not the first, and leaves the
DRCPDU as it is otherwise. On `threeSystemRelay` and `bothVectorsIpp` the first
packet is 93 octets long with no 2P TLV header and the second is 607 octets
long with the 2P Port Conversation Vector header set. -/
theorem C40_three_system_second_packet_has_port_vector_header (dr : DistributedRelay)
    (p : DRCPIpp) (pkt : Nat) (b : BuiltDRCPDU) :
    conversationVectorTlvs { dr with DrniThreeSystemPortal := true } p pkt b =
      (if (p.GatewayConversationTransmit && p.PortConversationTransmit &&
          !dr.DrniCommonMethods && pkt != 0) = true
       then setPortConversationVectorHeader b else b) ∧
    threeSystemRelay.DrniThreeSystemPortal = true ∧
    (DrcpTxMachineOn (envWithMtu 1500) threeSystemRelay bothVectorsIpp).1.txBuilt.map
        (fun b => (b.drcp.DRCP2PGatewayConversationVectorTlv.TlvTypeLength,
          b.drcp.DRCP2PortConversationVectorTlv.TlvTypeLength, b.pktLength))
      = [(DRCPTlvTypeLength.zero, DRCPTlvTypeLength.zero, 93),
         (DRCPTlvTypeLength.zero,
          { tlv := some DRCPTlvType.DRCPTLV2PPortConversationVector, length := 512 },
          93 + 514)] := by
  refine ⟨conversationVectorTlvs_threeSystem dr p pkt b, rfl, ?_⟩
  decide

/-! ## Helper lemmas: the Gateway and Aggregator machines -/

/-- The clearing loop sets the entries `i .. i + n - 1` to false and leaves the
others as they were. -/
theorem clearConversationLoop_spec (n : Nat) :
    ∀ (i : Nat) (vector : Nat → Bool) (c : Nat),
      clearConversationLoop n i vector c = if i ≤ c ∧ c < i + n then false else vector c := by
  induction n with
  | zero =>
    intro i vector c
    have h : ¬ (i ≤ c ∧ c < i + 0) := by omega
    rw [if_neg h]
    rfl
  | succ n ih =>
    intro i vector c
    show clearConversationLoop n (i + 1) (fun c => if c = i then false else vector c) c = _
    rw [ih]
    by_cases h1 : i + 1 ≤ c ∧ c < i + 1 + n
    · have h2 : i ≤ c ∧ c < i + (n + 1) := by omega
      rw [if_pos h1, if_pos h2]
    · rw [if_neg h1]
      by_cases h3 : c = i
      · have h2 : i ≤ c ∧ c < i + (n + 1) := by omega
        rw [if_pos h3, if_pos h2]
      · have h2 : ¬ (i ≤ c ∧ c < i + (n + 1)) := by omega
        rw [if_neg h3, if_neg h2]

/-- The empty loop of `setGatewayConversation` changes nothing. -/
theorem setGatewayConversationLoop_eq (n : Nat) (s : RelaySystem) :
    setGatewayConversationLoop n s = s := by
  induction n with
  | zero => rfl
  | succ n ih => exact ih

/-- The empty loop of `setPortConversation` changes nothing. -/
theorem setPortConversationLoop_eq (n : Nat) (s : RelaySystem) :
    setPortConversationLoop n s = s := by
  induction n with
  | zero => rfl
  | succ n ih => exact ih

/-- The nested loops of `setIPPGatewayUpdate`, IPP by IPP. -/
theorem setIPPGatewayUpdate_loop (ids : List Nat) :
    ∀ db : List DRCPIpp,
      ids.foldl
          (fun db ippid =>
            db.map (fun ipp =>
              if ipp.Id == ippid then { ipp with IppGatewayUpdate := true } else ipp))
          db
        = db.map (fun ipp =>
            if ipp.Id ∈ ids then { ipp with IppGatewayUpdate := true } else ipp) := by
  induction ids with
  | nil =>
    intro db
    simp
  | cons id ids ih =>
    intro db
    rw [List.foldl_cons, ih, List.map_map]
    apply List.map_congr_left
    intro ipp _
    by_cases h1 : ipp.Id = id
    · have hm : ipp.Id ∈ id :: ids := by rw [h1]; exact List.mem_cons_self _ _
      simp only [Function.comp, h1, beq_self_eq_true, if_true, List.mem_cons, true_or]
      split_ifs <;> rfl
    · have hb : (ipp.Id == id) = false := by simpa using h1
      simp only [Function.comp, hb, Bool.false_eq_true, if_false, List.mem_cons, h1, false_or]

/-- The nested loops of `setIPPPortUpdate`, IPP by IPP. -/
theorem setIPPPortUpdate_loop (ids : List Nat) :
    ∀ db : List DRCPIpp,
      ids.foldl
          (fun db ippid =>
            db.map (fun ipp =>
              if ipp.Id == ippid then { ipp with IppPortUpdate := true } else ipp))
          db
        = db.map (fun ipp =>
            if ipp.Id ∈ ids then { ipp with IppPortUpdate := true } else ipp) := by
  induction ids with
  | nil =>
    intro db
    simp
  | cons id ids ih =>
    intro db
    rw [List.foldl_cons, ih, List.map_map]
    apply List.map_congr_left
    intro ipp _
    by_cases h1 : ipp.Id = id
    · have hm : ipp.Id ∈ id :: ids := by rw [h1]; exact List.mem_cons_self _ _
      simp only [Function.comp, h1, beq_self_eq_true, if_true, List.mem_cons, true_or]
      split_ifs <;> rfl
    · have hb : (ipp.Id == id) = false := by simpa using h1
      simp only [Function.comp, hb, Bool.false_eq_true, if_false, List.mem_cons, h1, false_or]

/-- Entry to DRNI_GATEWAY_INITIALIZE: the Portal System gateway conversation
vector afterwards, entry by entry. -/
theorem DrcpGMachineDRNIGatewayInitialize_vector (s : RelaySystem) (c : Nat) :
    (DrcpGMachineDRNIGatewayInitialize s).1.dr.DrniPortalSystemGatewayConversation c =
      if c < MAX_GATEWAY_CONVERSATION then false
      else s.dr.DrniPortalSystemGatewayConversation c := by
  unfold DrcpGMachineDRNIGatewayInitialize initializeDRNIGatewayConversation
  simp only []
  rw [clearConversationLoop_spec]
  simp

/-- Entry to DRNI_PORT_INITIALIZE: the Portal System port conversation vector
afterwards, entry by entry. -/
theorem DrcpAMachineDRNIPortInitialize_vector (s : RelaySystem) (c : Nat) :
    (DrcpAMachineDRNIPortInitialize s).1.dr.DrniPortalSystemPortConversation c =
      if c < MAX_GATEWAY_CONVERSATION then false
      else s.dr.DrniPortalSystemPortConversation c := by
  unfold DrcpAMachineDRNIPortInitialize initializeDRNIPortConversation
  simp only []
  rw [clearConversationLoop_spec]
  simp

/-- Entry to DRNI_GATEWAY_UPDATE, field by field: the update flag of the relay
is cleared and `IppGatewayUpdate` is set on the IPPs of the intra-portal link
list; nothing else changes. -/
theorem DrcpGMachineDRNIGatewayUpdate_eq (s : RelaySystem) :
    DrcpGMachineDRNIGatewayUpdate s =
      ({ s with
          dr := { s.dr with GatewayConversationUpdate := false }
          DRCPIppDBList :=
            s.DRCPIppDBList.map (fun ipp =>
              if ipp.Id ∈ s.dr.DrniIntraPortalLinkList then
                { ipp with IppGatewayUpdate := true }
              else ipp) },
        GmStateDRNIGatewayUpdate) := by
  unfold DrcpGMachineDRNIGatewayUpdate setGatewayConversation
  simp only [setGatewayConversationLoop_eq, GMachine_updatePortalState, setIPPGatewayUpdate,
    setIPPGatewayUpdate_loop]

/-- Entry to DRNI_PORT_UPDATE, field by field. -/
theorem DrcpAMachineDRNIPortUpdate_eq (s : RelaySystem) :
    DrcpAMachineDRNIPortUpdate s =
      ({ s with
          dr := { s.dr with PortConversationUpdate := false }
          DRCPIppDBList :=
            s.DRCPIppDBList.map (fun ipp =>
              if ipp.Id ∈ s.dr.DrniIntraPortalLinkList then
                { ipp with IppPortUpdate := true }
              else ipp) },
        AmStateDRNIPortUpdate) := by
  unfold DrcpAMachineDRNIPortUpdate setPortConversation
  simp only [setPortConversationLoop_eq, AMachine_updatePortalState, setIPPPortUpdate,
    setIPPPortUpdate_loop]

/-- Processing an event for which the Gateway machine's rule table holds a
callback. -/
theorem GProcessEvent_of_find {s : RelaySystem} {e : Nat} {cb : RelayCallback}
    (hf : DrcpGMachineRules.find s.dr.GMachineFsm.state e = some cb) :
    GProcessEvent s e =
      ({ (cb s).1 with
          dr :=
            { (cb s).1.dr with
              GMachineFsm := { (cb s).1.dr.GMachineFsm with state := (cb s).2 } } },
        Lacp.FsmOutcome.transitioned) := by
  unfold GProcessEvent
  rw [hf]

/-- Processing an event for which the Aggregator machine's rule table holds a
callback. -/
theorem AProcessEvent_of_find {s : RelaySystem} {e : Nat} {cb : RelayCallback}
    (hf : DrcpAMachineRules.find s.dr.AMachineFsm.state e = some cb) :
    AProcessEvent s e =
      ({ (cb s).1 with
          dr :=
            { (cb s).1.dr with
              AMachineFsm := { (cb s).1.dr.AMachineFsm with state := (cb s).2 } } },
        Lacp.FsmOutcome.transitioned) := by
  unfold AProcessEvent
  rw [hf]

/-- The inner loop of `IppAllGatewayUpdateCheck` over the IPP list. -/
theorem IppAllGatewayUpdateCheck_inner (id : Nat) (db : List DRCPIpp) :
    ∀ dr : DistributedRelay,
      db.foldl
          (fun dr ipp =>
            if ipp.Id == id then
              if ipp.IppGatewayUpdate then { dr with IppAllGatewayUpdate := true } else dr
            else dr)
          dr
        = { dr with
            IppAllGatewayUpdate :=
              dr.IppAllGatewayUpdate ||
                db.any (fun ipp => ipp.Id == id && ipp.IppGatewayUpdate) } := by
  induction db with
  | nil =>
    intro dr
    simp only [List.foldl_nil, List.any_nil, Bool.or_false]
  | cons ipp db ih =>
    intro dr
    rw [List.foldl_cons, ih]
    cases h1 : (ipp.Id == id) <;> cases h2 : ipp.IppGatewayUpdate <;>
      simp [h1, h2]

/-- The loops of `IppAllGatewayUpdateCheck`: the relay afterwards. -/
theorem IppAllGatewayUpdateCheck_outer (db : List DRCPIpp) (ids : List Nat) :
    ∀ dr : DistributedRelay,
      ids.foldl
          (fun dr ippid =>
            db.foldl
              (fun dr ipp =>
                if ipp.Id == ippid then
                  if ipp.IppGatewayUpdate then { dr with IppAllGatewayUpdate := true } else dr
                else dr)
              dr)
          dr
        = { dr with
            IppAllGatewayUpdate :=
              dr.IppAllGatewayUpdate ||
                ids.any (fun ippid =>
                  db.any (fun ipp => ipp.Id == ippid && ipp.IppGatewayUpdate)) } := by
  induction ids with
  | nil =>
    intro dr
    simp only [List.foldl_nil, List.any_nil, Bool.or_false]
  | cons id ids ih =>
    intro dr
    rw [List.foldl_cons, IppAllGatewayUpdateCheck_inner, ih]
    simp only [List.any_cons, Bool.or_assoc]

/-- The inner loop of `IppAllPortUpdateCheck` over the IPP list. -/
theorem IppAllPortUpdateCheck_inner (id : Nat) (db : List DRCPIpp) :
    ∀ dr : DistributedRelay,
      db.foldl
          (fun dr ipp =>
            if ipp.Id == id then
              if ipp.IppPortUpdate then { dr with IppAllPortUpdate := true } else dr
            else dr)
          dr
        = { dr with
            IppAllPortUpdate :=
              dr.IppAllPortUpdate ||
                db.any (fun ipp => ipp.Id == id && ipp.IppPortUpdate) } := by
  induction db with
  | nil =>
    intro dr
    simp only [List.foldl_nil, List.any_nil, Bool.or_false]
  | cons ipp db ih =>
    intro dr
    rw [List.foldl_cons, ih]
    cases h1 : (ipp.Id == id) <;> cases h2 : ipp.IppPortUpdate <;>
      simp [h1, h2]

/-- The loops of `IppAllPortUpdateCheck`: the relay afterwards. -/
theorem IppAllPortUpdateCheck_outer (db : List DRCPIpp) (ids : List Nat) :
    ∀ dr : DistributedRelay,
      ids.foldl
          (fun dr ippid =>
            db.foldl
              (fun dr ipp =>
                if ipp.Id == ippid then
                  if ipp.IppPortUpdate then { dr with IppAllPortUpdate := true } else dr
                else dr)
              dr)
          dr
        = { dr with
            IppAllPortUpdate :=
              dr.IppAllPortUpdate ||
                ids.any (fun ippid =>
                  db.any (fun ipp => ipp.Id == ippid && ipp.IppPortUpdate)) } := by
  induction ids with
  | nil =>
    intro dr
    simp only [List.foldl_nil, List.any_nil, Bool.or_false]
  | cons id ids ih =>
    intro dr
    rw [List.foldl_cons, IppAllPortUpdateCheck_inner, ih]
    simp only [List.any_cons, Bool.or_assoc]

/-! ## DRNI Gateway and Aggregator machines: Begin, Update, PS Update -/

/-- C32: for every relay, entry to DRNI_GATEWAY_INITIALIZE sets every entry
(Conversation IDs 0..4095) of `DrniPortalSystemGatewayConversation` to false
and clears `GatewayConversationUpdate`, and entry to DRNI_PORT_INITIALIZE sets
every entry of `DrniPortalSystemPortConversation` to false and clears
`PortConversationUpdate`; a Begin event is accepted by the Gateway machine in
None, DRNI_GATEWAY_UPDATE and PS_GATEWAY_UPDATE and by the Aggregator machine in
None, DRNI_PORT_UPDATE and PS_PORT_UPDATE, and leaves the machine in its
Initialize state with the vector cleared and the update flag false. -/
theorem C32_begin_clears_portal_system_conversations (s : RelaySystem) :
    ((DrcpGMachineDRNIGatewayInitialize s).2 = GmStateDRNIGatewayInitialize ∧
      (∀ c, c < MAX_GATEWAY_CONVERSATION →
        (DrcpGMachineDRNIGatewayInitialize s).1.dr.DrniPortalSystemGatewayConversation c
          = false) ∧
      (DrcpGMachineDRNIGatewayInitialize s).1.dr.GatewayConversationUpdate = false) ∧
    ((DrcpAMachineDRNIPortInitialize s).2 = AmStateDRNIPortInitialize ∧
      (∀ c, c < MAX_GATEWAY_CONVERSATION →
        (DrcpAMachineDRNIPortInitialize s).1.dr.DrniPortalSystemPortConversation c = false) ∧
      (DrcpAMachineDRNIPortInitialize s).1.dr.PortConversationUpdate = false) ∧
    ((s.dr.GMachineFsm.state = GmStateNone ∨ s.dr.GMachineFsm.state = GmStateDRNIGatewayUpdate ∨
        s.dr.GMachineFsm.state = GmStatePsGatewayUpdate) →
      (GProcessEvent s GmEventBegin).2 = Lacp.FsmOutcome.transitioned ∧
      (GProcessEvent s GmEventBegin).1.dr.GMachineFsm.state = GmStateDRNIGatewayInitialize ∧
      (∀ c, c < MAX_GATEWAY_CONVERSATION →
        (GProcessEvent s GmEventBegin).1.dr.DrniPortalSystemGatewayConversation c = false) ∧
      (GProcessEvent s GmEventBegin).1.dr.GatewayConversationUpdate = false) ∧
    ((s.dr.AMachineFsm.state = AmStateNone ∨ s.dr.AMachineFsm.state = AmStateDRNIPortUpdate ∨
        s.dr.AMachineFsm.state = AmStatePsPortUpdate) →
      (AProcessEvent s AmEventBegin).2 = Lacp.FsmOutcome.transitioned ∧
      (AProcessEvent s AmEventBegin).1.dr.AMachineFsm.state = AmStateDRNIPortInitialize ∧
      (∀ c, c < MAX_GATEWAY_CONVERSATION →
        (AProcessEvent s AmEventBegin).1.dr.DrniPortalSystemPortConversation c = false) ∧
      (AProcessEvent s AmEventBegin).1.dr.PortConversationUpdate = false) := by
  refine ⟨⟨rfl, ?_, rfl⟩, ⟨rfl, ?_, rfl⟩, ?_, ?_⟩
  · intro c hc
    rw [DrcpGMachineDRNIGatewayInitialize_vector, if_pos hc]
  · intro c hc
    rw [DrcpAMachineDRNIPortInitialize_vector, if_pos hc]
  · intro hs
    have hf : DrcpGMachineRules.find s.dr.GMachineFsm.state GmEventBegin
        = some DrcpGMachineDRNIGatewayInitialize := by
      rcases hs with hs | hs | hs <;> (rw [hs]; rfl)
    rw [GProcessEvent_of_find hf]
    refine ⟨rfl, rfl, ?_, rfl⟩
    intro c hc
    simp only []
    rw [DrcpGMachineDRNIGatewayInitialize_vector, if_pos hc]
  · intro hs
    have hf : DrcpAMachineRules.find s.dr.AMachineFsm.state AmEventBegin
        = some DrcpAMachineDRNIPortInitialize := by
      rcases hs with hs | hs | hs <;> (rw [hs]; rfl)
    rw [AProcessEvent_of_find hf]
    refine ⟨rfl, rfl, ?_, rfl⟩
    intro c hc
    simp only []
    rw [DrcpAMachineDRNIPortInitialize_vector, if_pos hc]

/-- C32 at a concrete relay: `dirtySystem` has both machines in None, every
entry of both vectors true and both update flags set; after Begin entry 100 of
each vector is false and the flags are clear. -/
theorem C32_begin_clears_portal_system_conversations_witness :
    dirtySystem.dr.DrniPortalSystemGatewayConversation 100 = true ∧
    dirtySystem.dr.GatewayConversationUpdate = true ∧
    (GProcessEvent dirtySystem GmEventBegin).2 = Lacp.FsmOutcome.transitioned ∧
    (GProcessEvent dirtySystem GmEventBegin).1.dr.GMachineFsm.state
      = GmStateDRNIGatewayInitialize ∧
    (GProcessEvent dirtySystem GmEventBegin).1.dr.DrniPortalSystemGatewayConversation 100
      = false ∧
    (GProcessEvent dirtySystem GmEventBegin).1.dr.GatewayConversationUpdate = false ∧
    dirtySystem.dr.DrniPortalSystemPortConversation 100 = true ∧
    (AProcessEvent dirtySystem AmEventBegin).1.dr.AMachineFsm.state
      = AmStateDRNIPortInitialize ∧
    (AProcessEvent dirtySystem AmEventBegin).1.dr.DrniPortalSystemPortConversation 100
      = false ∧
    (AProcessEvent dirtySystem AmEventBegin).1.dr.PortConversationUpdate = false :=
  ⟨rfl, rfl,
    ((C32_begin_clears_portal_system_conversations dirtySystem).2.2.1 (Or.inl rfl)).1,
    ((C32_begin_clears_portal_system_conversations dirtySystem).2.2.1 (Or.inl rfl)).2.1,
    ((C32_begin_clears_portal_system_conversations dirtySystem).2.2.1 (Or.inl rfl)).2.2.1 100
      (by decide),
    ((C32_begin_clears_portal_system_conversations dirtySystem).2.2.1 (Or.inl rfl)).2.2.2,
    rfl,
    ((C32_begin_clears_portal_system_conversations dirtySystem).2.2.2 (Or.inl rfl)).2.1,
    ((C32_begin_clears_portal_system_conversations dirtySystem).2.2.2 (Or.inl rfl)).2.2.1 100
      (by decide),
    ((C32_begin_clears_portal_system_conversations dirtySystem).2.2.2 (Or.inl rfl)).2.2.2⟩

/-- C33: entry to DRNI_GATEWAY_UPDATE returns DRNI_GATEWAY_UPDATE, clears
`GatewayConversationUpdate`, and leaves the IPP list as it was except that
`IppGatewayUpdate` is true on every IPP whose id is in the relay's intra-portal
link list; an IPP whose id is not in the list is unchanged. In `twoLinkSystem`
(links 1 and 2, IPPs 1, 2 and 3) the flag ends true on IPPs 1 and 2 and stays
false on IPP 3. -/
theorem C33_gateway_update_sets_flags_of_linked_ipps (s : RelaySystem) :
    (DrcpGMachineDRNIGatewayUpdate s).2 = GmStateDRNIGatewayUpdate ∧
    (DrcpGMachineDRNIGatewayUpdate s).1.dr.GatewayConversationUpdate = false ∧
    (DrcpGMachineDRNIGatewayUpdate s).1.DRCPIppDBList =
      s.DRCPIppDBList.map (fun ipp =>
        if ipp.Id ∈ s.dr.DrniIntraPortalLinkList then { ipp with IppGatewayUpdate := true }
        else ipp) ∧
    (DrcpGMachineDRNIGatewayUpdate twoLinkSystem).1.DRCPIppDBList.map
        (fun ipp => (ipp.Id, ipp.IppGatewayUpdate))
      = [(1, true), (2, true), (3, false)] := by
  rw [DrcpGMachineDRNIGatewayUpdate_eq, DrcpGMachineDRNIGatewayUpdate_eq]
  exact ⟨rfl, rfl, rfl, by decide⟩

/-- C34: entry to DRNI_GATEWAY_UPDATE does not compute `Drni_Gateway_Conversation`;
the loop of `setGatewayConversation` has an empty body, so the vector is left
as it was for every relay. With `aDrniConvAdminGateway[100] = [1, 2]` and only
Portal System 1 enabling Conversation ID 100 the specification gives 1, with
only Portal System 2 enabling it the specification gives 2, and in both cases
entry 100 is still 0 after the entry action and after the
GatewayConversationUpdate event processed in DRNI_GATEWAY_INITIALIZE. -/
theorem C34_gateway_conversation_left_unchanged (s : RelaySystem) :
    (DrcpGMachineDRNIGatewayUpdate s).1.dr.DrniGatewayConversation
      = s.dr.DrniGatewayConversation ∧
    specGatewayConversation convAdminSystemOne.dr 100 = 1 ∧
    (DrcpGMachineDRNIGatewayUpdate convAdminSystemOne).1.dr.DrniGatewayConversation 100 = 0 ∧
    specGatewayConversation convAdminSystemTwo.dr 100 = 2 ∧
    (DrcpGMachineDRNIGatewayUpdate convAdminSystemTwo).1.dr.DrniGatewayConversation 100 = 0 ∧
    (GProcessEvent convAdminSystemOne GmEventGatewayConversationUpdate).2
      = Lacp.FsmOutcome.transitioned ∧
    (GProcessEvent convAdminSystemOne GmEventGatewayConversationUpdate).1.dr.GMachineFsm.state
      = GmStateDRNIGatewayUpdate ∧
    (GProcessEvent convAdminSystemOne
        GmEventGatewayConversationUpdate).1.dr.DrniGatewayConversation 100 = 0 := by
  have hf : DrcpGMachineRules.find convAdminSystemOne.dr.GMachineFsm.state
      GmEventGatewayConversationUpdate = some DrcpGMachineDRNIGatewayUpdate := rfl
  rw [GProcessEvent_of_find hf, DrcpGMachineDRNIGatewayUpdate_eq,
    DrcpGMachineDRNIGatewayUpdate_eq, DrcpGMachineDRNIGatewayUpdate_eq]
  exact ⟨rfl, by decide, rfl, by decide, rfl, rfl, rfl, rfl⟩

/-- C35: the not-all-updated transition does not leave the machines in their
PS Update state. The entry action of PS_GATEWAY_UPDATE returns
DRNI_GATEWAY_UPDATE and that of PS_PORT_UPDATE returns DRNI_PORT_UPDATE, for
every relay; in `updateStateSystem` (both machines in their Update state,
`IppAllGatewayUpdate` and `IppAllPortUpdate` false) the events
NotIppAllGatewayUpdate and NotIppAllPortUpdate are accepted and the machines
are in DRNI_GATEWAY_UPDATE and DRNI_PORT_UPDATE afterwards, also at the end of
the whole pass of the main loop. -/
theorem C35_not_all_updated_stays_in_update_state (s : RelaySystem) :
    DrcpGMachinePSGatewayUpdate s = (s, GmStateDRNIGatewayUpdate) ∧
    DrcpAMachinePSPortUpdate s = (s, AmStateDRNIPortUpdate) ∧
    GmStateDRNIGatewayUpdate ≠ GmStatePsGatewayUpdate ∧
    AmStateDRNIPortUpdate ≠ AmStatePsPortUpdate ∧
    updateStateSystem.dr.GMachineFsm.state = GmStateDRNIGatewayUpdate ∧
    updateStateSystem.dr.IppAllGatewayUpdate = false ∧
    (GProcessEvent updateStateSystem GmEventNotIppAllGatewayUpdate).2
      = Lacp.FsmOutcome.transitioned ∧
    (GProcessEvent updateStateSystem GmEventNotIppAllGatewayUpdate).1.dr.GMachineFsm.state
      = GmStateDRNIGatewayUpdate ∧
    (GMachineMainEvent updateStateSystem
        { E := GmEventNotIppAllGatewayUpdate, Src := "", ResponseChan := false
          }).1.dr.GMachineFsm.state = GmStateDRNIGatewayUpdate ∧
    updateStateSystem.dr.AMachineFsm.state = AmStateDRNIPortUpdate ∧
    updateStateSystem.dr.IppAllPortUpdate = false ∧
    (AProcessEvent updateStateSystem AmEventNotIppAllPortUpdate).2
      = Lacp.FsmOutcome.transitioned ∧
    (AProcessEvent updateStateSystem AmEventNotIppAllPortUpdate).1.dr.AMachineFsm.state
      = AmStateDRNIPortUpdate ∧
    (AMachineMainEvent updateStateSystem
        { E := AmEventNotIppAllPortUpdate, Src := "", ResponseChan := false
          }).1.dr.AMachineFsm.state = AmStateDRNIPortUpdate := by
  refine ⟨rfl, rfl, by decide, by decide, rfl, rfl, ?_, ?_, ?_, rfl, rfl, ?_, ?_, ?_⟩ <;> decide

/-- C36: `IppAllGatewayUpdateCheck` returns the value `IppAllGatewayUpdate` held
before the call OR-ed with the `IppGatewayUpdate` flags of the IPPs in the
intra-portal link list, and `IppAllPortUpdateCheck` likewise: neither clears
the variable first. In `staleAllUpdateSystem` no IPP has a flag set and both
variables are true from before; both checks return true. -/
theorem C36_update_check_keeps_earlier_value (s : RelaySystem) :
    (IppAllGatewayUpdateCheck s).2 =
      (s.dr.IppAllGatewayUpdate ||
        s.dr.DrniIntraPortalLinkList.any (fun ippid =>
          s.DRCPIppDBList.any (fun ipp => ipp.Id == ippid && ipp.IppGatewayUpdate))) ∧
    (IppAllPortUpdateCheck s).2 =
      (s.dr.IppAllPortUpdate ||
        s.dr.DrniIntraPortalLinkList.any (fun ippid =>
          s.DRCPIppDBList.any (fun ipp => ipp.Id == ippid && ipp.IppPortUpdate))) ∧
    staleAllUpdateSystem.DRCPIppDBList.map (fun ipp => (ipp.IppGatewayUpdate, ipp.IppPortUpdate))
      = [(false, false), (false, false), (false, false)] ∧
    staleAllUpdateSystem.dr.DrniIntraPortalLinkList.any (fun ippid =>
        staleAllUpdateSystem.DRCPIppDBList.any
          (fun ipp => ipp.Id == ippid && ipp.IppGatewayUpdate)) = false ∧
    (IppAllGatewayUpdateCheck staleAllUpdateSystem).2 = true ∧
    staleAllUpdateSystem.dr.DrniIntraPortalLinkList.any (fun ippid =>
        staleAllUpdateSystem.DRCPIppDBList.any
          (fun ipp => ipp.Id == ippid && ipp.IppPortUpdate)) = false ∧
    (IppAllPortUpdateCheck staleAllUpdateSystem).2 = true := by
  refine ⟨?_, ?_, by decide, by decide, by decide, by decide, by decide⟩
  · unfold IppAllGatewayUpdateCheck
    simp only [IppAllGatewayUpdateCheck_outer]
  · unfold IppAllPortUpdateCheck
    simp only [IppAllPortUpdateCheck_outer]

end Drcp
